import Mathlib

/-!
# EduMonitor server: authentication and account-lockout core

A shallow embedding of the credential verifier (`localStrategy.config.mjs`), the
token helpers (`jwt.middleware.mjs`), the auth and users controllers and the
error handler, with the account schema of `users.models.mjs`.  Times are
JavaScript time values: integer milliseconds since the epoch.  The user collection is a list of documents; the
`_id` of a document is its position in the list.
-/

namespace EduMonitor

/-! ## JavaScript values and operators used by the source -/

/-- A JavaScript `Date` object, given by its time value in milliseconds.
Mongoose hands back a `Date` for every schema path declared `Date`
(`lockUntil`, `verificationExpires`, `passwordResetExpires`, `lastLogin`). -/
structure JsDate where
  time : Int
deriving DecidableEq, Repr

/-- The values that meet the operators `+`, `-`, `<`, `>=` in the source. -/
inductive JsValue where
  | number (n : Int)
  | string (s : String)
  | date (d : JsDate)
deriving DecidableEq, Repr

/-- Two-digit zero padding of `Date.prototype.toString`. -/
def pad2 (n : Int) : String :=
  if n < 10 then "0" ++ toString n else toString n

/-- Year text of `Date.prototype.toString`: sign and at least four digits. -/
def padYear (y : Int) : String :=
  let a := y.natAbs
  let digits := toString a
  let padded := String.mk (List.replicate (4 - digits.length) (Char.ofNat 48)) ++ digits
  if y < 0 then "-" ++ padded else padded

/-- Name of the day of the week, `0` being Sunday. -/
def weekdayName : Nat → String
  | 0 => "Sun"
  | 1 => "Mon"
  | 2 => "Tue"
  | 3 => "Wed"
  | 4 => "Thu"
  | 5 => "Fri"
  | _ => "Sat"

/-- Name of the month, `1` being January. -/
def monthName : Nat → String
  | 1 => "Jan"
  | 2 => "Feb"
  | 3 => "Mar"
  | 4 => "Apr"
  | 5 => "May"
  | 6 => "Jun"
  | 7 => "Jul"
  | 8 => "Aug"
  | 9 => "Sep"
  | 10 => "Oct"
  | 11 => "Nov"
  | _ => "Dec"

/-- Calendar date (year, month, day) of a day number counted from 1970-01-01,
in the proleptic Gregorian calendar. -/
def civilFromDays (days : Int) : Int × Int × Int :=
  let z := days + 719468
  let era := z / 146097
  let doe := z - era * 146097
  let yoe := (doe - doe / 1460 + doe / 36524 - doe / 146096) / 365
  let doy := doe - (365 * yoe + yoe / 4 - yoe / 100)
  let mp := (5 * doy + 2) / 153
  let d := doy - (153 * mp + 2) / 5 + 1
  let m := if mp < 10 then mp + 3 else mp - 9
  let y := yoe + era * 400 + (if m ≤ 2 then 1 else 0)
  (y, m, d)

/-- The part of `Date.prototype.toString` after the weekday name, for a host
whose time zone is UTC. -/
def dateTail (t : Int) : String :=
  let days := t / 86400000
  let msInDay := t % 86400000
  let ymd := civilFromDays days
  let hh := msInDay / 3600000
  let mm := (msInDay / 60000) % 60
  let ss := (msInDay / 1000) % 60
  " " ++ monthName ymd.2.1.toNat ++ " " ++ pad2 ymd.2.2 ++ " " ++ padYear ymd.1 ++ " "
    ++ pad2 hh ++ ":" ++ pad2 mm ++ ":" ++ pad2 ss ++ " GMT+0000 (Coordinated Universal Time)"

/-- `Date.prototype.toString`: the weekday name comes first, as in
`Thu Jan 01 1970 00:00:00 GMT+0000 (Coordinated Universal Time)`. -/
def JsDate.toString (d : JsDate) : String :=
  weekdayName ((d.time / 86400000 + 4) % 7).toNat ++ dateTail d.time

/-- White space and line terminators of ECMAScript, as skipped by the
string-to-number conversion and by `String.prototype.trim`. -/
def isJsWhitespace (c : Char) : Bool :=
  c = Char.ofNat 32 || c = Char.ofNat 9 || c = Char.ofNat 10 || c = Char.ofNat 11
    || c = Char.ofNat 12 || c = Char.ofNat 13 || c = Char.ofNat 160 || c = Char.ofNat 65279
    || c = Char.ofNat 5760 || (8192 ≤ c.toNat && c.toNat ≤ 8202) || c = Char.ofNat 8232
    || c = Char.ofNat 8233 || c = Char.ofNat 8239 || c = Char.ofNat 8287 || c = Char.ofNat 12288

/-- Removal of trailing white space from a character list. -/
def trimEnd : List Char → List Char
  | [] => []
  | c :: cs =>
    match trimEnd cs with
    | [] => if isJsWhitespace c then [] else [c]
    | r => c :: r

/-- `String.prototype.trim`, which the schema option `trim: true` applies to the
name paths when a document is created. -/
def jsTrim (s : String) : String :=
  String.mk (trimEnd (s.data.dropWhile isJsWhitespace))

/-- Value of a list of decimal digits. -/
def digitsValue (cs : List Char) : Int :=
  cs.foldl (fun acc c => acc * 10 + ((c.toNat : Int) - 48)) 0

/-- Unsigned decimal integer text, `none` standing for `NaN`. -/
def unsignedToNumber (cs : List Char) : Option Int :=
  if cs ≠ [] ∧ cs.all Char.isDigit then some (digitsValue cs) else none

/-- The conversion `ToNumber` on strings, `none` standing for `NaN`: surrounding
white space is dropped, the empty text is `0`, and an optionally signed run of
decimal digits is its value.  Text that is not a numeric literal, such as text
beginning with a weekday name, is `NaN`.  (Fractions, exponents and radix
literals are outside this integer model; the program never converts one.) -/
def stringToNumber (s : String) : Option Int :=
  match trimEnd (s.data.dropWhile isJsWhitespace) with
  | [] => some 0
  | c :: cs =>
    if c = Char.ofNat 45 then (unsignedToNumber cs).map (fun n => -n)
    else if c = Char.ofNat 43 then unsignedToNumber cs
    else unsignedToNumber (c :: cs)

/-- The conversion `ToPrimitive` without a preferred type, as used by binary `+`:
a `Date` converts to its string form, every other value is already primitive. -/
def toPrimitiveDefault : JsValue → JsValue
  | .date d => .string d.toString
  | v => v

/-- The conversion `ToPrimitive` with hint `number`, as used by `-`, `<` and `>=`:
a `Date` converts to its time value. -/
def toPrimitiveNumber : JsValue → JsValue
  | .date d => .number d.time
  | v => v

/-- The conversion `ToString` on primitives. -/
def jsToString : JsValue → String
  | .number n => toString n
  | .string s => s
  | .date d => d.toString

/-- The conversion `ToNumber` after `ToPrimitive` with hint `number`; `none` is `NaN`. -/
def jsToNumber : JsValue → Option Int
  | .number n => some n
  | .string s => stringToNumber s
  | .date d => some d.time

/-- The binary operator `+`: both operands are converted with `toPrimitiveDefault`;
when either is then a string the result is the concatenation of their string
forms, otherwise the numeric sum.  `none` is `NaN`. -/
def jsAdd (a b : JsValue) : Option JsValue :=
  match toPrimitiveDefault a, toPrimitiveDefault b with
  | .string s, q => some (.string (s ++ jsToString q))
  | p, .string s => some (.string (jsToString p ++ s))
  | p, q =>
    match jsToNumber p, jsToNumber q with
    | some x, some y => some (.number (x + y))
    | _, _ => none

/-- The relational operator `<`: operands are converted with hint `number`; two
strings compare as text, anything else compares numerically, and a comparison
with `NaN` is false. -/
def jsLess (a b : Option JsValue) : Bool :=
  match a, b with
  | some x, some y =>
    match toPrimitiveNumber x, toPrimitiveNumber y with
    | .string s, .string t => decide (s < t)
    | p, q =>
      match jsToNumber p, jsToNumber q with
      | some m, some n => decide (m < n)
      | _, _ => false
  | _, _ => false

/-- The relational operator `>=` (the negation of `<` unless an operand is `NaN`). -/
def jsGreaterEq (a b : Option JsValue) : Bool :=
  match a, b with
  | some x, some y =>
    match toPrimitiveNumber x, toPrimitiveNumber y with
    | .string s, .string t => decide (t ≤ s)
    | p, q =>
      match jsToNumber p, jsToNumber q with
      | some m, some n => decide (n ≤ m)
      | _, _ => false
  | _, _ => false

/-- The expression `Math.ceil(a / b)` for integers `a` and a positive integer `b`. -/
def mathCeilDiv (a b : Int) : Int :=
  -((-a) / b)

/-! ## Token codec (`jsonwebtoken` behind `generateAuthToken`) -/

/-- The `role` enum of the schema. -/
inductive Role where
  | admin
  | user
deriving DecidableEq, Repr

/-- A signed token, identified with what it decodes to: the payload fields the
program uses, the issue and expiry times in seconds, and whether the signature
verifies under `process.env.JWT_SECRET`.  A presented text that is no token of
this server has `signed = false`. -/
structure Token where
  uuid : String
  role : Option Role := none
  iat : Int
  exp : Int
  signed : Bool := true
deriving DecidableEq, Repr

/-- The payload object handed to `generateAuthToken`. -/
structure Payload where
  uuid : String
  role : Option Role := none
  iat : Option Int := none
deriving DecidableEq, Repr

/-- Seconds in the `expiresIn` text `10m`. -/
def ttl10m : Int := 600

/-- Seconds in the `expiresIn` text `30m`. -/
def ttl30m : Int := 1800

/-- Seconds in the `expiresIn` text `1h`. -/
def ttl1h : Int := 3600

/-- Seconds in the `expiresIn` text `1d`. -/
def ttl1d : Int := 86400

/-- Seconds in the `expiresIn` text `7d`. -/
def ttl7d : Int := 604800

/-- `generateAuthToken(payload, expiresIn)` called at time `now`: `jwt.sign` keeps a
payload `iat` when there is one, otherwise stamps `floor(now / 1000)`, and sets
`exp = iat + expiresIn`. -/
def generateAuthToken (payload : Payload) (expiresIn : Int) (now : Int) : Token :=
  let iat := payload.iat.getD (now / 1000)
  { uuid := payload.uuid, role := payload.role, iat := iat, exp := iat + expiresIn, signed := true }

/-- The two errors `jwt.verify` throws. -/
inductive JwtError where
  | JsonWebTokenError
  | TokenExpiredError
deriving DecidableEq, Repr

/-- `jwt.verify(token, process.env.JWT_SECRET)` called at time `now`: a bad
signature is a `JsonWebTokenError`, a token whose `exp` is not after
`floor(now / 1000)` is a `TokenExpiredError`, otherwise the decoded token. -/
def jwtVerify (token : Token) (now : Int) : Except JwtError Token :=
  if token.signed = false then .error .JsonWebTokenError
  else if token.exp ≤ now / 1000 then .error .TokenExpiredError
  else .ok token

/-! ## Account documents (`users.models.mjs`) -/

/-- The `accountStatus` enum of the schema. -/
inductive AccountStatus where
  | active
  | suspended
  | deactivated
  | pending
deriving DecidableEq, Repr

/-- A user document.  `none` stands for a path that is `null` or `undefined`.
`password` and `loginAttempts` are optional because the credential verifier
blanks them on the in-memory document it hands back. -/
structure Account where
  uuid : String
  firstName : String := ""
  lastName : String := ""
  email : String
  password : Option String
  isVerified : Bool := false
  role : Role := .user
  verificationToken : Option Token := none
  verificationExpires : Option JsDate := none
  passwordResetToken : Option Token := none
  passwordResetExpires : Option JsDate := none
  refreshToken : Option Token := none
  loginAttempts : Option Nat := some 0
  isLocked : Bool := false
  lockUntil : Option JsDate := none
  lastLogin : Option JsDate := none
  isOnline : Bool := false
  accountStatus : Option AccountStatus := none
deriving DecidableEq, Repr

/-- The `Users` collection. -/
abbrev Db := List Account

/-- `Users.findOne(filter)`: position (the `_id`) and content of the first
document matching the filter.  The schema declares `uuid` and `email` with
`trim: true`, and Mongoose runs that setter on a query value as it does on a
stored one: a filter on a value of the request compares with `jsTrim` of it. -/
def findOne (filter : Account → Bool) : Db → Option (Nat × Account)
  | [] => none
  | a :: rest =>
    if filter a then some (0, a)
    else (findOne filter rest).map (fun r => (r.1 + 1, r.2))

/-! ## Credential verifier (`localStrategy.config.mjs`) -/

/-- Constant `MAX_LOGIN_ATTEMPTS`. -/
def MAX_LOGIN_ATTEMPTS : Nat := 5

/-- Constant `LOCK_TIME`, ten minutes. -/
def LOCK_TIME : Int := 10 * 60 * 1000

/-- Constant `UNLOCK_BUFFER_TIME`, five seconds. -/
def UNLOCK_BUFFER_TIME : Int := 5 * 1000

/-- The third argument of `done(null, false, info)`. -/
structure Info where
  message : String
  remainingAttempts : Option Int := none
deriving DecidableEq, Repr

/-- How the verify callback calls `done`; a document handed to `done` comes with
its `_id`. -/
inductive Done where
  | fail (info : Info)
  | ok (id : Nat) (user : Account)
  | error
deriving DecidableEq, Repr

/-- The condition of line 35:
`user.isLocked && user.lockUntil && currentTime < (user.lockUntil + UNLOCK_BUFFER_TIME)`.
The schema declares `lockUntil: { type: Date }`, so `user.lockUntil` is a `Date`
object (truthy whenever it is set) and the sum is `jsAdd` of a date and a
number: the text of the date followed by `5000`. -/
def stillLocked (user : Account) (currentTime : Int) : Bool :=
  user.isLocked &&
    (match user.lockUntil with
     | none => false
     | some d => jsLess (some (.number currentTime)) (jsAdd (.date d) (.number UNLOCK_BUFFER_TIME)))

/-- The condition of line 43:
`user.isLocked && user.lockUntil && currentTime >= user.lockUntil`. -/
def lockExpired (user : Account) (currentTime : Int) : Bool :=
  user.isLocked &&
    (match user.lockUntil with
     | none => false
     | some d => jsGreaterEq (some (.number currentTime)) (some (.date d)))

/-- The message of line 38 for a given `minutesLeft`. -/
def lockedMessage (minutesLeft : Int) : String :=
  "Your account is locked. Please try again in " ++ toString minutesLeft ++ " "
    ++ (if minutesLeft = 1 then "minute" else "minutes") ++ "."

/-- Lines 42 to 54: the document after the expired-lock reset, when it applies. -/
def unlockIfExpired (user : Account) (currentTime : Int) : Account :=
  if lockExpired user currentTime then
    { user with lockUntil := none, isLocked := false, loginAttempts := some 0 }
  else user

/-- Lines 32 to 109 of the verify callback, for the document `user` with `_id`
`id` found by email: the stored document afterwards and the call to `done`.  `compare` is
`bcrypt.compare(password, hash)`. -/
def localStrategy.onUser (compare : String → String → Bool) (id : Nat) (user : Account)
    (password : String) (currentTime : Int) : Account × Done :=
  if stillLocked user currentTime then
    let minutesLeft :=
      mathCeilDiv ((user.lockUntil.map (fun d => d.time)).getD 0 - currentTime) 60000
    (user, .fail { message := lockedMessage minutesLeft })
  else
    let user := unlockIfExpired user currentTime
    match user.password with
    | none => (user, .error)
    | some hash =>
      if compare password hash = false then
        let newAttempts := user.loginAttempts.getD 0 + 1
        if newAttempts ≥ MAX_LOGIN_ATTEMPTS then
          ({ user with
              loginAttempts := some newAttempts
              isLocked := true
              lockUntil := some ⟨currentTime + LOCK_TIME⟩ },
           .fail { message :=
             "Too many failed login attempts. Your account has been locked for 10 minutes." })
        else
          ({ user with loginAttempts := some newAttempts },
           .fail { message := "Invalid email or password."
                   remainingAttempts := some ((MAX_LOGIN_ATTEMPTS : Int) - newAttempts) })
      else
        let stored :=
          if decide (0 < user.loginAttempts.getD 0) || user.isLocked then
            { user with lockUntil := none, loginAttempts := some 0, isLocked := false }
          else user
        (stored, .ok id { user with password := none, loginAttempts := none, lockUntil := none })

/-- The verify callback of the local strategy, lines 15 to 114, run at time
`currentTime` against the collection: the collection afterwards and the call to
`done`.  `Users.findOne({ email })` compares the stored emails with the trimmed
email of the request. -/
def localStrategy (compare : String → String → Bool) (db : Db) (email password : String)
    (currentTime : Int) : Db × Done :=
  if email = "" ∨ password = "" then
    (db, .fail { message := "Email and password are required." })
  else
    match findOne (fun u => u.email = jsTrim email) db with
    | none => (db, .fail { message := "Invalid email or password." })
    | some (id, user) =>
      let r := localStrategy.onUser compare id user password currentTime
      (db.set id r.1, r.2)

/-- Account documents reachable from a newly created one (`loginAttempts = 0`,
`isLocked = false`, `lockUntil` unset) by runs of the verifier on that
document, with any password at any time. -/
inductive LockReachable (compare : String → String → Bool) : Account → Prop where
  | fresh (user : Account) (h0 : user.loginAttempts = some 0) (h1 : user.isLocked = false)
      (h2 : user.lockUntil = none) : LockReachable compare user
  | step (id : Nat) (user : Account) (password : String) (currentTime : Int)
      (h : LockReachable compare user) :
      LockReachable compare (localStrategy.onUser compare id user password currentTime).1

/-! ## Store updates, responses and validation helpers -/

/-- `Users.updateOne({ _id: id }, update)`, also the effect of `user.save()` after
the in-memory document had the same paths assigned: the update is applied to the
stored document with that `_id`. -/
def updateOne (id : Nat) (update : Account → Account) (db : Db) : Db :=
  match db[id]? with
  | some a => db.set id (update a)
  | none => db

/-- A JSON object with text values, as an association list in insertion order. -/
abbrev JsObject := List (String × String)

/-- The assignment `obj[key] = value`. -/
def objAssign : JsObject → String → String → JsObject
  | [], key, value => [(key, value)]
  | (k, v) :: rest, key, value =>
    if k = key then (k, value) :: rest else (k, v) :: objAssign rest key value

/-- What a controller sends: the status code of `res.status(..)` (200 for a bare
`res.json`), the fields of the JSON body that occur in the auth controllers, the
cookies set (`authToken` by `setAuthCookie`, `jwt` by `setRefreshCookie` or
`res.cookie`) and the names of the cookies cleared by `res.clearCookie`. -/
structure Response where
  code : Nat
  status : Option String := none
  message : Option String := none
  error : Option String := none
  errors : Option JsObject := none
  action : Option String := none
  emailType : Option String := none
  redirectUrl : Option String := none
  remainingAttempts : Option Int := none
  cooldown : Option ℚ := none
  accessToken : Option Token := none
  data : Option (Role × String) := none
  authCookie : Option Token := none
  jwtCookie : Option Token := none
  role : Option Role := none
  sessionType : Option String := none
  time : Option Int := none
  uuid : Option String := none
  email : Option String := none
  tokenExpires : Option JsDate := none
  isVerified : Option Bool := none
  clearedCookies : List String := []
deriving DecidableEq, Repr

/-- One entry of `error.details` of a Joi validation result. -/
structure ValidationDetail where
  path : List String
  message : String
deriving DecidableEq, Repr

/-- `handleValidation(validatorFunc, args)` of `handleValidation.helpers.mjs`: `null` when
the validator reports no error, otherwise the object built by assigning each
detail's message under the first element of its path. -/
def handleValidation {α : Type} (validatorFunc : α → Option (List ValidationDetail))
    (args : α) : Option JsObject :=
  match validatorFunc args with
  | none => none
  | some details =>
    some (details.foldl (fun acc err => objAssign acc (err.path.head?.getD "undefined") err.message) [])

/-- The `length` of a JavaScript string: its number of UTF-16 code units. -/
def jsLength (s : String) : Nat :=
  s.data.foldl (fun n c => n + (if c.toNat < 65536 then 1 else 2)) 0

/-- A Joi result: no error, or the non-empty list of details. -/
def joiResult (details : List ValidationDetail) : Option (List ValidationDetail) :=
  if details = [] then none else some details

/-- Details of a required `Joi.string().min(lo)` key with a custom `string.min`
message; `empty` and `required` are the messages for the empty text and for a
missing key. -/
def stringMinDetails (key : String) (lo : Nat) (value : Option String)
    (required empty tooShort : String) : List ValidationDetail :=
  match value with
  | none => [{ path := [key], message := required }]
  | some v =>
    if v = "" then [{ path := [key], message := empty }]
    else if jsLength v < lo then [{ path := [key], message := tooShort }]
    else []

/-- `validatorResetPass` of `auths.validators.mjs` on `{ password, passwordConfirm }`:
`password` is a required string of at least six code units, `passwordConfirm` is
required and must equal `password`. -/
def validatorResetPass (body : Option String × Option String) : Option (List ValidationDetail) :=
  joiResult
    (stringMinDetails "password" 6 body.1 "\"Password\" is required"
        "\"Password\" is not allowed to be empty" "Password must length should be greather than 6"
      ++ (match body.2 with
          | none => [{ path := ["passwordConfirm"], message := "\"Password Confirmation\" is required" }]
          | some c =>
            if body.1 = some c then []
            else [{ path := ["passwordConfirm"], message := "Password doesn\x27t correspond" }]))

/-- `validatorForgot` of `auths.validators.mjs` on `{ email }`. -/
def validatorForgot (email : Option String) : Option (List ValidationDetail) :=
  joiResult
    (match email with
     | none => [{ path := ["email"], message := "\"email\" is required" }]
     | some v => if v = "" then [{ path := ["email"], message := "Email is Required" }] else [])

/-- The body of a sign-up request. -/
structure SignUpBody where
  firstName : Option String
  lastName : Option String
  email : Option String
  password : Option String
  role : Option String := none
deriving DecidableEq, Repr

/-- Details of a required `Joi.string().min(3).max(255)` name key. -/
def nameDetails (key : String) (value : Option String) (required tooShort tooLong : String) :
    List ValidationDetail :=
  match value with
  | none => [{ path := [key], message := required }]
  | some v =>
    if v = "" then [{ path := [key], message := required }]
    else if jsLength v < 3 then [{ path := [key], message := tooShort }]
    else if 255 < jsLength v then [{ path := [key], message := tooLong }]
    else []

/-- `validator` of `auths.validators.mjs` on a sign-up body; `isEmail` is the test
behind `Joi.string().email()`. -/
def validator (isEmail : String → Bool) (body : SignUpBody) : Option (List ValidationDetail) :=
  joiResult
    (nameDetails "firstName" body.firstName "Le prénom est requis."
        "Le prénom doit contenir au moins 3 caractères."
        "Le prénom ne peut pas dépasser 255 caractères."
      ++ nameDetails "lastName" body.lastName "Le nom est requis."
        "Le nom doit contenir au moins 3 caractères."
        "Le nom ne peut pas dépasser 255 caractères."
      ++ (match body.email with
          | none => [{ path := ["email"], message := "L\x27adresse email est requise." }]
          | some v =>
            if v = "" then [{ path := ["email"], message := "L\x27adresse email est requise." }]
            else if isEmail v = false then
              [{ path := ["email"], message := "L\x27adresse email n\x27est pas valide." }]
            else [])
      ++ stringMinDetails "password" 6 body.password "Le mot de passe est requis."
        "Le mot de passe est requis." "Le mot de passe doit contenir au moins 6 caractères."
      ++ (match body.role with
          | none => []
          | some r =>
            if r = "admin" ∨ r = "user" then []
            else [{ path := ["role"],
                    message := "Le rôle doit être soit \x27admin\x27 soit \x27user\x27." }]))

/-! ## Auth controllers

Each controller reads the clock once per request (`currentTime` / `now`).  The
mail transport is an input: `emailStatus` is the `{ success, message }` object
returned by `sendEmail`. -/

/-- `verifyEmail` of `verification.auth.controllers.mjs`, for the token of the
path parameter. -/
def verifyEmail (db : Db) (token : Token) (now : Int) : Db × Response :=
  match jwtVerify token now with
  | .error .TokenExpiredError =>
    (db, { code := 400, message := some "Votre lien de vérification a expiré.",
           status := some "failure" })
  | .error .JsonWebTokenError =>
    (db, { code := 400, message := some "Lien de vérification invalide.",
           status := some "failure" })
  | .ok decoded =>
    match findOne (fun u => u.uuid = decoded.uuid) db with
    | none => (db, { code := 400, message := some "Lien invalide.", status := some "failure" })
    | some (id, user) =>
      if user.isVerified then
        (db, { code := 200, message := some "Adresse email déjà vérifiée.",
               status := some "success" })
      else
        (updateOne id (fun a => { a with
            isVerified := true
            accountStatus := some .active
            verificationToken := none
            verificationExpires := none }) db,
         { code := 200, message := some "Vérification de l\x27email réussie.",
           action := some "verify", status := some "success" })

/-- `verifyPassReset` of `reset.auth.controllers.mjs`; `hash` is
`bcrypt.hash(password, await bcrypt.genSalt(12))`. -/
def verifyPassReset (hash : String → String) (db : Db) (token : Token)
    (password passwordConfirm : Option String) (now : Int) : Db × Response :=
  match jwtVerify token now with
  | .error .TokenExpiredError =>
    (db, { code := 400, message := some "Votre lien de réinitialisation a expiré.",
           status := some "failure" })
  | .error .JsonWebTokenError =>
    (db, { code := 400, message := some "Lien de réinitialisation invalide.",
           status := some "failure" })
  | .ok decoded =>
    match findOne (fun u => u.uuid = decoded.uuid) db with
    | none => (db, { code := 400, message := some "Lien invalide.", status := some "failure" })
    | some (id, _) =>
      match handleValidation validatorResetPass (password, passwordConfirm) with
      | some errors =>
        (db, { code := 400, errors := some errors,
               message := some "Erreur de validation des champs." })
      | none =>
        (updateOne id (fun a => { a with
            password := password.map hash
            passwordResetToken := none
            passwordResetExpires := none }) db,
         { code := 200, message := some "Mot de passe réinitialisé avec succès.",
           status := some "success" })

/-- `signUp` of `signup.auth.controllers.mjs`.  `uuid` is the value of `uuidv4()`;
the unique index on `uuid` makes `Users.create` throw when it is taken, which
the catch block answers with 500 (`nodeEnv` is `process.env.NODE_ENV`,
`createError` the message of the exception).  The email is trimmed by the schema
both as the query value of `Users.findOne({ email })` and as the stored value. -/
def signUp (isEmail : String → Bool) (hash : String → String) (nodeEnv : Option String)
    (createError : String) (db : Db) (body : SignUpBody) (uuid : String) (now : Int) :
    Db × Response :=
  match handleValidation (validator isEmail) body with
  | some errors =>
    (db, { code := 400, errors := some errors, message := some "Validation errors in fields",
           status := some "failure" })
  | none =>
    let email := jsTrim (body.email.getD "")
    match findOne (fun u => u.email = email) db with
    | some _ =>
      (db, { code := 400, errors := some [("email", "This email is already in use.")],
             message := some "Email already exists", status := some "failure" })
    | none =>
      match findOne (fun u => u.uuid = uuid) db with
      | some _ =>
        (db, { code := 500,
               message := some (if nodeEnv = some "production" then "Server error"
                                else "Server error: " ++ createError),
               status := some "error" })
      | none =>
        let verificationToken := generateAuthToken { uuid := uuid } ttl10m now
        let sessionToken := generateAuthToken { uuid := uuid } ttl30m now
        let newUser : Account :=
          { uuid := uuid
            firstName := jsTrim (body.firstName.getD "")
            lastName := jsTrim (body.lastName.getD "")
            email := email
            password := body.password.map hash
            verificationToken := some verificationToken
            verificationExpires := some ⟨now + 10 * 60 * 1000⟩
            isVerified := false
            accountStatus := some .pending }
        (db ++ [newUser],
         { code := 200,
           message := some "Account created successfully. Please check your email for verification.",
           redirectUrl := some ("/auth/notifications/" ++ uuid),
           status := some "success", authCookie := some sessionToken })

/-- The test of line 38 of `signin`:
`!verificationToken || !user.verificationExpires || user.verificationExpires < currentTime`. -/
def needsNewVerification (user : Account) (currentTime : Int) : Bool :=
  match user.verificationToken, user.verificationExpires with
  | some _, some d => jsLess (some (.date d)) (some (.number currentTime))
  | _, _ => true

/-- `signin` of `signin.auth.controllers.mjs`: the local strategy runs first and
its outcome reaches the callback of `passport.authenticate`.  (For an empty
email or password the `passport-local` package answers before the verify
callback with its own message; the stored documents are the same.) -/
def signin (compare : String → String → Bool) (db : Db) (email password : String)
    (currentTime : Int) : Db × Response :=
  match localStrategy compare db email password currentTime with
  | (db1, .error) =>
    (db1, { code := 500,
            message := some "An unexpected server error occurred. Please try again later.",
            status := some "error" })
  | (db1, .fail info) =>
    (db1, { code := 401,
            message := some (if info.message = "" then "Invalid email or password."
                             else info.message),
            remainingAttempts := info.remainingAttempts, status := some "failure" })
  | (db1, .ok id user) =>
    if user.isVerified = false then
      let sessionToken := generateAuthToken { uuid := user.uuid } ttl30m currentTime
      let db2 :=
        if needsNewVerification user currentTime then
          updateOne id (fun a => { a with
            verificationToken := some (generateAuthToken { uuid := user.uuid } ttl10m currentTime)
            verificationExpires := some ⟨currentTime + 10 * 60 * 1000⟩ }) db1
        else db1
      (db2, { code := 200,
              message := some ("A verification email has been sent to " ++ user.email
                ++ ". Please check your inbox."),
              redirectUrl := some ("/auth/notifications/" ++ user.uuid),
              status := some "verification_required", authCookie := some sessionToken })
    else
      let payload : Payload :=
        { uuid := user.uuid, role := some user.role, iat := some (currentTime / 1000) }
      let accessToken := generateAuthToken payload ttl1h currentTime
      let refreshToken := generateAuthToken payload ttl7d currentTime
      (updateOne id (fun a => { a with
          refreshToken := some refreshToken
          lastLogin := some ⟨currentTime⟩
          isOnline := true }) db1,
       { code := 200, data := some (user.role, user.uuid), accessToken := some accessToken,
         redirectUrl := some "/ai/dashboard", message := some "Login successful.",
         status := some "success", jwtCookie := some refreshToken })

/-- The record `req.session.otpCooldown`: account uuid to time of the last issue. -/
abbrev Session := List (String × Int)

/-- The read `req.session.otpCooldown[uuid]`. -/
def Session.get (session : Session) (uuid : String) : Option Int :=
  (session.find? (fun e => e.1 = uuid)).map (fun e => e.2)

/-- The assignment `req.session.otpCooldown[uuid] = time`. -/
def Session.assign : Session → String → Int → Session
  | [], uuid, time => [(uuid, time)]
  | (k, v) :: rest, uuid, time =>
    if k = uuid then (k, time) :: rest else (k, v) :: Session.assign rest uuid time

/-- Writes of `forgotEmail` and `resendEmail` for the verification kind: the
verification pair is set and the reset pair is unset. -/
def setVerificationPair (token : Token) (expires : Int) (a : Account) : Account :=
  { a with
    verificationToken := some token
    verificationExpires := some ⟨expires⟩
    passwordResetToken := none
    passwordResetExpires := none }

/-- Writes of `forgotEmail` and `resendEmail` for the reset kind: the reset pair
is set and the verification pair is unset. -/
def setResetPair (token : Token) (expires : Int) (a : Account) : Account :=
  { a with
    passwordResetToken := some token
    passwordResetExpires := some ⟨expires⟩
    verificationToken := none
    verificationExpires := none }

/-- `forgotEmail` of `forgot.auth.controllers.mjs`: the collection and the session
cooldown record afterwards, and the response.  `Users.findOne({ email })` compares
the stored emails with the trimmed email of the request. -/
def forgotEmail (db : Db) (session : Session) (email : Option String)
    (emailStatus : Bool × String) (currentTime : Int) : Db × Session × Response :=
  match handleValidation validatorForgot email with
  | some errors =>
    (db, session, { code := 400, errors := some errors,
                    message := some "Erreur de validation des champs.", status := some "failure" })
  | none =>
    match findOne (fun u => some u.email = email.map jsTrim) db with
    | none =>
      (db, session, { code := 404, message := some "Cet utilisateur n\x27est pas enregistré.",
                      status := some "failure" })
    | some (id, user) =>
      let otpResendCooldown : Int := 60000
      let lastRequestTime := session.get user.uuid
      if (match lastRequestTime with
          | some t => decide (t ≠ 0) && decide (currentTime < t + otpResendCooldown)
          | none => false) then
        let timeLeft := mathCeilDiv (lastRequestTime.getD 0 + otpResendCooldown - currentTime) 1000
        (db, session,
         { code := 429,
           message := some ("Veuillez patienter " ++ toString timeLeft
             ++ " secondes avant de redemander un lien."),
           status := some "failure", cooldown := some (timeLeft : ℚ) })
      else
        let actionToken := generateAuthToken { uuid := user.uuid } ttl10m currentTime
        let sessionToken := generateAuthToken { uuid := user.uuid } ttl30m currentTime
        let tokenExpires := currentTime + 10 * 60 * 1000
        let emailType := if user.isVerified = false then "verification" else "reset"
        let db1 :=
          if emailType = "verification" then
            updateOne id (setVerificationPair actionToken tokenExpires) db
          else updateOne id (setResetPair actionToken tokenExpires) db
        let successMessage :=
          if emailType = "verification" then
            "Un lien de vérification a été envoyé à l\x27adresse " ++ user.email
              ++ ". Vérifiez aussi vos courriers indésirables."
          else
            "Un lien de réinitialisation a été envoyé à l\x27adresse " ++ user.email
              ++ ". Vérifiez aussi vos courriers indésirables."
        if emailStatus.1 = false then
          (db1, session, { code := 500, message := some emailStatus.2, status := some "failure" })
        else
          (db1, session.assign user.uuid currentTime,
           { code := 200, message := some successMessage,
             redirectUrl := some ("/auth/notifications/" ++ user.uuid),
             status := some "success", emailType := some emailType,
             authCookie := some sessionToken })

/-- `checkTokenCooldown(decoded, cooldownSeconds)` of `helpers.functions.mjs`, read
at time `now`: `max(cooldownSeconds - (now - iat * 1000) / 1000, 0)`. -/
def checkTokenCooldown (decoded : Token) (cooldownSeconds : ℚ) (now : Int) : ℚ :=
  max (cooldownSeconds - ((now - decoded.iat * 1000 : Int) : ℚ) / 1000) 0

/-- `resendEmail` of `resend.auth.controllers.mjs`.  `uuid` is the path parameter,
`type` the query parameter, `authToken` the `authToken` cookie or the bearer
token of the `Authorization` header. -/
def resendEmail (db : Db) (uuid : String) (type : Option String) (authToken : Option Token)
    (emailStatus : Bool × String) (now : Int) : Db × Response :=
  match authToken with
  | none => (db, { code := 401, status := some "failure", error := some "Session non trouvée" })
  | some authToken =>
    match jwtVerify authToken now with
    | .error .JsonWebTokenError =>
      (db, { code := 401, status := some "failure", error := some "Token invalide" })
    | .error .TokenExpiredError =>
      (db, { code := 401, status := some "failure", error := some "Session expirée" })
    | .ok decoded =>
      if decoded.uuid ≠ uuid then
        (db, { code := 403, status := some "failure", error := some "Accès non autorisé" })
      else
        match findOne (fun u => u.uuid = uuid) db with
        | none =>
          (db, { code := 404, status := some "failure", error := some "Utilisateur introuvable" })
        | some (id, user) =>
          let emailType :=
            if type = some "verification" ∨ type = some "reset" then type.getD ""
            else if user.isVerified = false then "verification" else "reset"
          if emailType = "verification" ∧ user.isVerified = true then
            (db, { code := 400, status := some "failure",
                   error := some "Le compte est déjà vérifié." })
          else if emailType = "reset" ∧ user.isVerified = false then
            (db, { code := 400, status := some "failure",
                   error := some ("Le compte doit être vérifié avant de pouvoir "
                     ++ "réinitialiser le mot de passe.") })
          else
            let remainingCooldown := checkTokenCooldown decoded 60 now
            if 0 < remainingCooldown then
              (db, { code := 429, status := some "failure",
                     error := some ("Veuillez attendre " ++ toString ⌈remainingCooldown⌉
                       ++ " secondes avant de renvoyer l\x27email"),
                     cooldown := some remainingCooldown })
            else
              let newActionToken := generateAuthToken { uuid := user.uuid } ttl10m now
              let newSessionToken := generateAuthToken { uuid := user.uuid } ttl30m now
              let tokenExpires := now + 10 * 60 * 1000
              let db1 :=
                if emailType = "verification" then
                  updateOne id (setVerificationPair newActionToken tokenExpires) db
                else updateOne id (setResetPair newActionToken tokenExpires) db
              if emailStatus.1 = false then
                (db1, { code := 500, status := some "failure",
                        error := some "Erreur lors de l\x27envoi de l\x27email" })
              else
                (db1, { code := 200, status := some "success",
                        message := some (if emailType = "verification" then
                          "Email de vérification renvoyé avec succès"
                          else "Email de réinitialisation renvoyé avec succès"),
                        emailType := some emailType, authCookie := some newSessionToken })

/-- Two documents agree on every path other than the three lock paths
`loginAttempts`, `isLocked` and `lockUntil`. -/
def sameOutsideLock (a b : Account) : Prop :=
  a.uuid = b.uuid ∧ a.firstName = b.firstName ∧ a.lastName = b.lastName ∧ a.email = b.email ∧
  a.password = b.password ∧ a.isVerified = b.isVerified ∧ a.role = b.role ∧
  a.verificationToken = b.verificationToken ∧ a.verificationExpires = b.verificationExpires ∧
  a.passwordResetToken = b.passwordResetToken ∧
  a.passwordResetExpires = b.passwordResetExpires ∧ a.refreshToken = b.refreshToken ∧
  a.lastLogin = b.lastLogin ∧ a.isOnline = b.isOnline ∧ a.accountStatus = b.accountStatus

/-- At most one of `verificationToken` and `passwordResetToken` is set. -/
def atMostOneToken (a : Account) : Prop :=
  ¬ (a.verificationToken ≠ none ∧ a.passwordResetToken ≠ none)

/-- The phase invariant behind `atMostOneToken`: a verified account carries no
verification token and an unverified account carries no reset token. -/
def tokenPhase (a : Account) : Prop :=
  (a.isVerified = true → a.verificationToken = none) ∧
  (a.isVerified = false → a.passwordResetToken = none)

/-- Collections reachable from the empty collection by `signUp`, `signin`,
`forgotEmail`, `resendEmail`, `verifyEmail` and `verifyPassReset`, with any
request inputs at any times. -/
inductive Reachable (compare : String → String → Bool) (isEmail : String → Bool) : Db → Prop where
  | empty : Reachable compare isEmail []
  | signUp (db : Db) (hash : String → String) (nodeEnv : Option String) (createError : String)
      (body : SignUpBody) (uuid : String) (now : Int) (h : Reachable compare isEmail db) :
      Reachable compare isEmail (signUp isEmail hash nodeEnv createError db body uuid now).1
  | signin (db : Db) (email password : String) (now : Int) (h : Reachable compare isEmail db) :
      Reachable compare isEmail (signin compare db email password now).1
  | forgotEmail (db : Db) (session : Session) (email : Option String)
      (emailStatus : Bool × String) (now : Int) (h : Reachable compare isEmail db) :
      Reachable compare isEmail (forgotEmail db session email emailStatus now).1
  | resendEmail (db : Db) (uuid : String) (type : Option String) (authToken : Option Token)
      (emailStatus : Bool × String) (now : Int) (h : Reachable compare isEmail db) :
      Reachable compare isEmail (resendEmail db uuid type authToken emailStatus now).1
  | verifyEmail (db : Db) (token : Token) (now : Int) (h : Reachable compare isEmail db) :
      Reachable compare isEmail (verifyEmail db token now).1
  | verifyPassReset (db : Db) (hash : String → String) (token : Token)
      (password passwordConfirm : Option String) (now : Int) (h : Reachable compare isEmail db) :
      Reachable compare isEmail (verifyPassReset hash db token password passwordConfirm now).1

/-! ## Concrete inputs and scenario helpers -/

/-- A stand-in for `bcrypt.compare` used at concrete inputs: the stored hash of a
password is the password text itself. -/
def sameText (password hash : String) : Bool :=
  password == hash

/-- A newly created account with password `pw123456`. -/
def demoAccount : Account :=
  { uuid := "u-1", firstName := "Ada", lastName := "Lov", email := "a@x.com",
    password := some "pw123456", accountStatus := some .pending }

/-- The demo account, locked until time `601000`. -/
def demoLocked : Account :=
  { demoAccount with loginAttempts := some 5, isLocked := true, lockUntil := some ⟨601000⟩ }

/-- Consecutive runs of the verifier on one account: the document after the last
run and the list of `done` calls. -/
def attemptAll (compare : String → String → Bool) :
    Account → List (String × Int) → Account × List Done
  | user, [] => (user, [])
  | user, (password, currentTime) :: rest =>
    let r := localStrategy.onUser compare 0 user password currentTime
    let rs := attemptAll compare r.1 rest
    (rs.1, r.2 :: rs.2)

/-- A stand-in for the Joi email test used at concrete inputs: the text holds `@`. -/
def demoIsEmail (s : String) : Bool :=
  s.data.contains (Char.ofNat 64)

/-- A stand-in for `bcrypt.hash` used at concrete inputs, matching `sameText`. -/
def demoHash (password : String) : String :=
  password

/-- The sign-up body of the demo account. -/
def demoBody : SignUpBody :=
  { firstName := some "Ada", lastName := some "Lov", email := some "a@x.com",
    password := some "pw123456" }

/-- The verification token issued to the demo account at time 0. -/
def demoOldToken : Token :=
  generateAuthToken { uuid := "u-1" } ttl10m 0

/-- The verification token issued to the demo account at time 100000, which
replaces `demoOldToken` on the account. -/
def demoStoredToken : Token :=
  generateAuthToken { uuid := "u-1" } ttl10m 100000

/-- The 30-minute session token issued to the demo account at time 100000. -/
def demoSessionToken : Token :=
  generateAuthToken { uuid := "u-1" } ttl30m 100000

/-- A collection holding the unverified demo account with `demoStoredToken` as its
stored verification token. -/
def demoUnverifiedDb : Db :=
  [{ demoAccount with
      verificationToken := some demoStoredToken, verificationExpires := some ⟨700000⟩ }]

/-- A collection holding the verified demo account with `demoStoredToken` as its
stored password-reset token. -/
def demoResetDb : Db :=
  [{ demoAccount with
      isVerified := true, accountStatus := some .active,
      passwordResetToken := some demoStoredToken, passwordResetExpires := some ⟨700000⟩ }]

/-! ## Session and refresh controllers -/

/-- The unique sparse index of the schema path `refreshToken`: no two documents
store the same refresh token. -/
def uniqueRefreshTokens (db : Db) : Prop :=
  db.Pairwise (fun a b => a.refreshToken = none ∨ a.refreshToken ≠ b.refreshToken)

/-- `refresh` of `refresh.auth.controllers.mjs`.  `refreshToken` is the `jwt` cookie,
`none` when the cookie is absent or empty. -/
def refresh (db : Db) (refreshToken : Option Token) (now : Int) : Db × Response :=
  match refreshToken with
  | none =>
    (db, { code := 401, message := some "Jeton de rafraîchissement manquant.",
           status := some "unauthorized" })
  | some refreshToken =>
    match findOne (fun u => u.refreshToken = some refreshToken) db with
    | none =>
      (db, { code := 403, message := some "Accès interdit. Jeton non reconnu.",
             status := some "forbidden" })
    | some (id, user) =>
      match jwtVerify refreshToken now with
      | .error _ =>
        (db, { code := 403, message := some "Jeton invalide ou utilisateur non autorisé.",
               status := some "forbidden" })
      | .ok decoded =>
        if user.uuid ≠ decoded.uuid then
          (db, { code := 403, message := some "Jeton invalide ou utilisateur non autorisé.",
                 status := some "forbidden" })
        else
          let newAccessToken :=
            generateAuthToken { uuid := user.uuid, role := some user.role } ttl1d now
          (updateOne id (fun a => { a with refreshToken := some newAccessToken }) db,
           { code := 200, accessToken := some newAccessToken, role := some user.role,
             message := some "Nouveau jeton d\x27accès généré avec succès.",
             status := some "success", jwtCookie := some newAccessToken })

/-- `logout` of `logout.auth.controllers.mjs`.  `jwt` is the `jwt` cookie, `none`
when it is absent or empty; `req.session.destroy` empties the session cooldown
record.  The collection and the session record afterwards, and the response. -/
def logout (db : Db) (session : Session) (jwt : Option Token) : Db × Session × Response :=
  match jwt with
  | none => (db, session, { code := 403, message := some "Token missing" })
  | some refreshToken =>
    let db1 :=
      match findOne (fun u => u.refreshToken = some refreshToken) db with
      | some (id, _) => updateOne id (fun a => { a with refreshToken := none }) db
      | none => db
    (db1, [], { code := 204, clearedCookies := ["jwt", "XSRF", "session"] })

/-- The login refresh token (seven days) of the demo account, issued at time 4000. -/
def demoLoginToken : Token :=
  generateAuthToken { uuid := "u-1", role := some .user, iat := some 4 } ttl7d 4000

/-- The one-day token issued to the demo account by `refresh` at time 5000. -/
def demoRotatedToken : Token :=
  generateAuthToken { uuid := "u-1", role := some .user } ttl1d 5000

/-- The verified demo account holding a refresh token. -/
def demoSignedIn (token : Token) : Account :=
  { demoAccount with
    isVerified := true, accountStatus := some .active, refreshToken := some token }

/-- The cooldown check of `forgotEmail` (line 34) lets a request for the account
`uuid` through at time `now`: the session record holds no time for it, or holds
the falsy time `0`, or a time at least 60000 ms old. -/
def cooldownPassed (session : Session) (uuid : String) (now : Int) : Prop :=
  ∀ t, session.get uuid = some t → t = 0 ∨ t + 60000 ≤ now

/-! ## Status polling (`sessions.auth.mjs`) -/

/-- Text of the first code unit `s[0]`, `undefined` printing as such for the empty
text (exact for a first character in the basic multilingual plane). -/
def jsFirstChar (cs : List Char) : List Char :=
  match cs with
  | [] => "undefined".data
  | c :: _ => [c]

/-- Length of a character list in UTF-16 code units. -/
def unitsLength (cs : List Char) : Nat :=
  cs.foldl (fun n c => n + (if c.toNat < 65536 then 1 else 2)) 0

/-- The match of `/(\.[a-zA-Z]{2,})$/` on the domain: the last dot with the two or
more ASCII letters that end the text, or the empty text. -/
def domainExtension (domain : List Char) : List Char :=
  let letters := domain.reverse.takeWhile (fun c => c.isAlpha)
  let rest := domain.reverse.drop letters.length
  if 2 ≤ letters.length ∧ rest.head? = some (Char.ofNat 46) then
    Char.ofNat 46 :: letters.reverse
  else []

/-- `maskEmailCustom` of `helpers.functions.mjs`. -/
def maskEmailCustom (email : String) : String :=
  if email = "" ∨ ¬ email.data.contains (Char.ofNat 64) then email
  else
    let localPart := email.data.takeWhile (fun c => c ≠ Char.ofNat 64)
    let domain := (email.data.drop (localPart.length + 1)).takeWhile (fun c => c ≠ Char.ofNat 64)
    let domainExt := domainExtension domain
    let maskedLocal :=
      jsFirstChar localPart ++ List.replicate (max (unitsLength localPart - 1) 1) (Char.ofNat 42)
    let domainMaskLength := max (unitsLength domain - unitsLength domainExt) 1
    let maskedDomain := List.replicate domainMaskLength (Char.ofNat 46) ++ domainExt
    String.mk (maskedLocal ++ [Char.ofNat 64] ++ maskedDomain)

/-- The text of the `:uuid` path parameter of `sessions`: either text that is no
token at all (an account uuid, or anything else), or the text of a token. -/
inductive PathParam where
  | text (s : String)
  | jwt (t : Token)
deriving DecidableEq, Repr

/-- `jwt.verify(uuid, process.env.JWT_SECRET)` on the path parameter: text that is
no token is a `JsonWebTokenError`. -/
def jwtVerifyParam (uuid : PathParam) (now : Int) : Except JwtError Token :=
  match uuid with
  | .text _ => .error .JsonWebTokenError
  | .jwt t => jwtVerify t now

/-- `Users.findOne({ uuid })` for the path parameter, which is trimmed as a query
value.  Account uuids are made by `uuidv4()`, so the text of a token is the uuid
of no account. -/
def findByParam (uuid : PathParam) (db : Db) : Option (Nat × Account) :=
  match uuid with
  | .text s => findOne (fun u => u.uuid = jsTrim s) db
  | .jwt _ => none

/-- The test `userUuid !== uuid` of line 25. -/
def differsFromParam (userUuid : String) (uuid : PathParam) : Bool :=
  match uuid with
  | .text s => decide (userUuid ≠ s)
  | .jwt _ => true

/-- The test `expires && expires > currentTime` on a stored expiry date. -/
def notExpired (expires : Option JsDate) (currentTime : Int) : Bool :=
  match expires with
  | some d => jsLess (some (.number currentTime)) (some (.date d))
  | none => false

/-- Lines 136 to 202 of `sessions`, reached with the account `user` and the
decoded session token. -/
def sessions.report (user : Account) (decoded : Token) (now : Int) : Response :=
  let remainingCooldown := checkTokenCooldown decoded 60 now
  let hasActiveVerification :=
    user.verificationToken.isSome && notExpired user.verificationExpires now && !user.isVerified
  let hasActivePasswordReset :=
    user.passwordResetToken.isSome && notExpired user.passwordResetExpires now && user.isVerified
  if user.isVerified && !hasActivePasswordReset then
    { code := 200, status := some "verified",
      message := some "Your account is already verified.",
      uuid := some user.uuid, email := some (maskEmailCustom user.email),
      isVerified := some true }
  else if hasActiveVerification then
    { code := 200, status := some "success",
      message := some ("A verification email has been sent to " ++ user.email
        ++ ". Please check your inbox."),
      sessionType := some "verification", time := some (decoded.iat * 1000),
      cooldown := some remainingCooldown, uuid := some user.uuid,
      email := some (maskEmailCustom user.email),
      tokenExpires := user.verificationExpires, isVerified := some user.isVerified }
  else if hasActivePasswordReset then
    { code := 200, status := some "success",
      message := some ("A password reset email has been sent to " ++ user.email
        ++ ". Please check your inbox."),
      sessionType := some "reset", time := some (decoded.iat * 1000),
      cooldown := some remainingCooldown, uuid := some user.uuid,
      email := some (maskEmailCustom user.email),
      tokenExpires := user.passwordResetExpires, isVerified := some user.isVerified }
  else
    { code := 400, status := some "failure",
      message := some "No active verification or reset process found." }

/-- Lines 111 to 132 of `sessions`: the final attempt, a direct lookup of the path
parameter as an account uuid, which never grants access. -/
def sessions.directAccess (db : Db) (uuid : PathParam) : Response :=
  match findByParam uuid db with
  | none => { code := 404, status := some "failure", message := some "User not found" }
  | some _ =>
    { code := 401, status := some "failure",
      message := some ("Authentication required. Please log in or use the verification "
        ++ "link from your email.") }

/-- Lines 65 to 134 of `sessions`: no valid session token, the path parameter is
tried as a token.  The file imports neither `generateAuthToken` nor
`setAuthCookie`, so line 98, reached when the token matches a stored pair,
throws a `ReferenceError`; like every error of this block it is caught on line
108 and leads to the final attempt.  A path parameter that verifies is the text
of the decoded token, so `user.verificationToken === uuid` compares the stored
token with it. -/
def sessions.tokenMode (db : Db) (uuid : PathParam) (now : Int) : Response :=
  match jwtVerifyParam uuid now with
  | .error _ => sessions.directAccess db uuid
  | .ok tokenDecoded =>
    if tokenDecoded.uuid = "" then sessions.directAccess db uuid
    else
      match findOne (fun u => u.uuid = tokenDecoded.uuid) db with
      | none => { code := 404, status := some "failure", message := some "User not found" }
      | some (_, user) =>
        let isValidVerificationToken :=
          decide (user.verificationToken = some tokenDecoded)
            && notExpired user.verificationExpires now
        let isValidResetToken :=
          decide (user.passwordResetToken = some tokenDecoded)
            && notExpired user.passwordResetExpires now
        if !isValidVerificationToken && !isValidResetToken then
          { code := 400, status := some "failure", message := some "Token is invalid or expired" }
        else sessions.directAccess db uuid

/-- `sessions` of `sessions.auth.mjs`.  `uuid` is the path parameter, `authToken`
the `authToken` cookie or the bearer token of the `Authorization` header.  The
controller writes nothing to the collection. -/
def sessions (db : Db) (uuid : PathParam) (authToken : Option Token) (now : Int) : Response :=
  match authToken with
  | none => sessions.tokenMode db uuid now
  | some authToken =>
    match jwtVerify authToken now with
    | .error _ => sessions.tokenMode db uuid now
    | .ok decoded =>
      if differsFromParam decoded.uuid uuid &&
          !(match findByParam uuid db with
            | some (_, userByUuid) => decide (userByUuid.uuid = decoded.uuid)
            | none => false) then
        { code := 403, status := some "failure", message := some "Access denied, data mismatch" }
      else
        match findOne (fun u => u.uuid = decoded.uuid) db with
        | none => { code := 404, status := some "failure", message := some "User not found" }
        | some (_, user) =>
          if now - decoded.iat * 1000 > 30 * 60 * 1000 then
            { code := 440, status := some "failure", message := some "Session expired" }
          else sessions.report user decoded now

/-! ## Reading validation results and scenario documents -/

/-- The property key `err.path[0]` of a detail: the first element of its path,
`undefined` printing as such for an empty path. -/
def firstPathKey (err : ValidationDetail) : String :=
  err.path.head?.getD "undefined"

/-- The message of the last detail of the list whose first path element is `key`. -/
def lastMessage (key : String) (details : List ValidationDetail) : Option String :=
  (details.reverse.find? (fun err => firstPathKey err = key)).map (fun err => err.message)

/-- The document `signUp` creates for a body at time `now`: the `newUser` of lines
36 to 52 of `signup.auth.controllers.mjs`. -/
def createdAccount (hash : String → String) (body : SignUpBody) (uuid : String) (now : Int) :
    Account :=
  { uuid := uuid
    firstName := jsTrim (body.firstName.getD "")
    lastName := jsTrim (body.lastName.getD "")
    email := jsTrim (body.email.getD "")
    password := body.password.map hash
    verificationToken := some (generateAuthToken { uuid := uuid } ttl10m now)
    verificationExpires := some ⟨now + 10 * 60 * 1000⟩
    isVerified := false
    accountStatus := some .pending }

/-- The created document after `verifyEmail` has confirmed it. -/
def verifiedAccount (hash : String → String) (body : SignUpBody) (uuid : String) (now : Int) :
    Account :=
  { createdAccount hash body uuid now with
    isVerified := true
    accountStatus := some .active
    verificationToken := none
    verificationExpires := none }

/-- A sign-up body for `a@x.com` with password `pw123456`. -/
def scenarioBody (firstName lastName : String) : SignUpBody :=
  { firstName := some firstName, lastName := some lastName, email := some "a@x.com",
    password := some "pw123456" }

/-! ## Exceptions at the operation boundary

The `catch` blocks of the controllers and the Express error handler, as
functions of `process.env.NODE_ENV` (`none` when the variable is unset) and of
the caught value. -/

/-- A caught error as the handlers read it: `name`, `message`, `stack`, `code`,
`status` and `statusCode`; `none` stands for a property that is not set. -/
structure JsError where
  name : String := "Error"
  message : String := ""
  stack : Option String := none
  code : Option String := none
  status : Option Nat := none
  statusCode : Option Nat := none
deriving DecidableEq, Repr

/-- The test `process.env.NODE_ENV === "production"`. -/
def isProduction (nodeEnv : Option String) : Bool :=
  decide (nodeEnv = some "production")

/-- The catch block of `forgotEmail` (lines 114 to 124). -/
def forgotEmail.catchBlock (nodeEnv : Option String) (error : JsError) : Response :=
  { code := 500,
    message := some (if isProduction nodeEnv then "Une erreur interne du serveur est survenue."
                     else "Erreur serveur : " ++ error.message),
    status := some "error" }

/-- The catch block of `refresh` (lines 54 to 64). -/
def refresh.catchBlock (nodeEnv : Option String) (error : JsError) : Response :=
  { code := 500,
    message := some (if isProduction nodeEnv then "Une erreur interne du serveur est survenue."
                     else "Erreur serveur : " ++ error.message),
    status := some "error" }

/-- The catch block of `verifyEmail` (lines 41 to 66): the two errors of
`jwt.verify` are answered with 400, every other error with 500. -/
def verifyEmail.catchBlock (nodeEnv : Option String) (error : JsError) : Response :=
  if error.name = "TokenExpiredError" then
    { code := 400, message := some "Votre lien de vérification a expiré.",
      status := some "failure" }
  else if error.name = "JsonWebTokenError" then
    { code := 400, message := some "Lien de vérification invalide.", status := some "failure" }
  else
    { code := 500,
      message := some (if isProduction nodeEnv then "Erreur serveur."
                       else "Erreur serveur : " ++ error.message),
      status := some "error" }

/-- The catch block of `verifyPassReset` (lines 54 to 75). -/
def verifyPassReset.catchBlock (nodeEnv : Option String) (error : JsError) : Response :=
  if error.name = "TokenExpiredError" then
    { code := 400, message := some "Votre lien de réinitialisation a expiré.",
      status := some "failure" }
  else if error.name = "JsonWebTokenError" then
    { code := 400, message := some "Lien de réinitialisation invalide.",
      status := some "failure" }
  else
    { code := 500,
      message := some (if isProduction nodeEnv then "Erreur serveur."
                       else "Erreur serveur : " ++ error.message),
      status := some "error" }

/-- The catch block of `signUp` (lines 107 to 114). -/
def signUp.catchBlock (nodeEnv : Option String) (error : JsError) : Response :=
  { code := 500,
    message := some (if isProduction nodeEnv then "Server error"
                     else "Server error: " ++ error.message),
    status := some "error" }

/-- What `errorHandler` sends: the status code and the `error` object of the body
(`success` is `false` in every branch).  `stack` and `details` are the two keys
spread into the object outside production. -/
structure ErrorReply where
  statusCode : Nat
  code : String
  message : String
  type : String
  stack : Option String := none
  details : Option JsError := none
deriving DecidableEq, Repr

/-- The test `text.includes(part)`. -/
def jsIncludes (text part : List Char) : Bool :=
  decide (part <:+: text)

/-- The test of lines 10 to 14 of `errorHandler` for an error of the CSRF
protection.  `toLowerCase` is taken on ASCII letters, which decides the search
for `csrf`: no other character has one of these four letters as its lower
case. -/
def isCsrfError (err : JsError) : Bool :=
  decide (err.code = some "EBADCSRFTOKEN") || decide (err.code = some "CSRF_TOKEN_MISMATCH") ||
    decide (err.code = some "CSRF_TOKEN_INVALID") ||
    jsIncludes (err.message.data.map Char.toLower) "csrf".data ||
    jsIncludes (err.message.data.map Char.toLower) "invalid csrf token".data

/-- `errorHandler` of `errorHandler.config.mjs`. -/
def errorHandler (nodeEnv : Option String) (err : JsError) : ErrorReply :=
  if isCsrfError err then
    { statusCode := 403, code := "CSRF_TOKEN_ERROR",
      message := "Security token validation failed. Please refresh the page and try again.",
      type := "SECURITY_ERROR" }
  else if err.name = "ValidationError" then
    { statusCode := 400, code := "VALIDATION_ERROR", message := err.message,
      type := "CLIENT_ERROR" }
  else if err.name = "UnauthorizedError" ∨ err.status = some 401 then
    { statusCode := 401, code := "UNAUTHORIZED", message := "Authentication required",
      type := "AUTH_ERROR" }
  else if err.status = some 404 then
    { statusCode := 404, code := "NOT_FOUND", message := "Resource not found",
      type := "CLIENT_ERROR" }
  else if err.status = some 403 then
    { statusCode := 403, code := "FORBIDDEN", message := "Access denied", type := "AUTH_ERROR" }
  else
    let statusCode :=
      match err.status with
      | some s => if s ≠ 0 then s else
          (match err.statusCode with
           | some c => if c ≠ 0 then c else 500
           | none => 500)
      | none =>
          (match err.statusCode with
           | some c => if c ≠ 0 then c else 500
           | none => 500)
    let message := if err.message = "" then "Internal Server Error" else err.message
    { statusCode := statusCode,
      code := (match err.code with
               | some c => if c = "" then "INTERNAL_ERROR" else c
               | none => "INTERNAL_ERROR"),
      message := if isProduction nodeEnv then "Something went wrong" else message,
      type := "SERVER_ERROR",
      stack := if isProduction nodeEnv then none else err.stack,
      details := if isProduction nodeEnv then none else some err }

/-- A connection error of the store, as an example of an unexpected exception. -/
def demoError : JsError :=
  { name := "MongoNetworkError", message := "connect ECONNREFUSED 10.0.0.5:27017",
    stack := some "MongoNetworkError: connect ECONNREFUSED 10.0.0.5:27017 at connect (db.js:12)" }

/-! ## Token check and users controllers (`jwt.middleware.mjs`, `users.controllers.mjs`) -/

/-- The object `req.user` that `validateToken` builds from the found document
(lines 31 to 42), on the paths of the account model. -/
structure ReqUser where
  id : Nat
  uuid : String
  email : String
  role : Role
  firstName : String
  lastName : String
  accountStatus : Option AccountStatus
  adminUUID : Option String
deriving DecidableEq, Repr

/-- What `validateToken` and the users controllers send: the status code and the
keys of the JSON body.  The key `user` holds either the object `req.user`
(`reqUser`) or a document (`user`); the key `data` holds either a list of
documents (`dataList`) or one document or `null` (`dataOne`).  A document is
serialized with every path that is set, so it shows a `password` key exactly
when its `password` is set. -/
structure UsersResponse where
  code : Nat
  message : Option String := none
  errors : Option JsObject := none
  isAuthenticated : Option Bool := none
  reqUser : Option ReqUser := none
  user : Option Account := none
  dataList : Option (List Account) := none
  dataOne : Option (Option Account) := none
deriving DecidableEq, Repr

/-- `validateToken` of `jwt.middleware.mjs`; `token` is the `jwt` cookie or the
bearer token.  Either a response is sent, or `next()` runs with `req.user`. -/
def validateToken (db : Db) (token : Option Token) (now : Int) : Except UsersResponse ReqUser :=
  match token with
  | none => .error { code := 401, message := some "Token missing or invalid" }
  | some token =>
    match jwtVerify token now with
    | .error .TokenExpiredError => .error { code := 401, message := some "Token expired" }
    | .error .JsonWebTokenError => .error { code := 401, message := some "Token is invalid" }
    | .ok decoded =>
      match findOne (fun u => u.uuid = decoded.uuid) db with
      | none => .error { code := 404, message := some "User not found" }
      | some (id, user) =>
        let admin := findOne (fun u => u.role = .admin) db
        .ok { id := id, uuid := user.uuid, email := user.email, role := user.role,
              firstName := user.firstName, lastName := user.lastName,
              accountStatus := user.accountStatus,
              adminUUID := admin.map (fun r => r.2.uuid) }

/-- `getCurrentUser`; `reqUser` is `req.user`. -/
def getCurrentUser (reqUser : Option ReqUser) : UsersResponse :=
  match reqUser with
  | none => { code := 401, message := some "User not authenticated" }
  | some u => { code := 200, isAuthenticated := some true, reqUser := some u }

/-- The catch block shared by the users controllers. -/
def users.catchBlock (nodeEnv : Option String) (error : JsError) : UsersResponse :=
  { code := 500,
    message := some (if isProduction nodeEnv then "Erreur serveur."
                     else "Erreur serveur : " ++ error.message) }

/-- The projection `.select("-password -refreshToken -__v")`. -/
def selectPublic (a : Account) : Account :=
  { a with password := none, refreshToken := none }

/-- `getAllsUsers`.  Documents are kept in the order of their creation, so the
sort by `createdAt` descending is the reverse order. -/
def getAllsUsers (db : Db) (reqUser : ReqUser) : UsersResponse :=
  match findOne (fun u => u.uuid = reqUser.uuid ∧ u.role = .admin) db with
  | none =>
    { code := 403, message := some "Vous n\x27avez pas le droit d\x27effectuer cette opération." }
  | some _ =>
    { code := 200,
      dataList := some (((db.filter (fun u => u.role = .user)).reverse).map selectPublic) }

/-- `showUser`; `id` is the path parameter. -/
def showUser (db : Db) (reqUser : ReqUser) (id : String) : UsersResponse :=
  match findOne (fun u => u.uuid = reqUser.uuid ∧ u.role = .admin) db with
  | none =>
    { code := 403, message := some "Vous n\x27avez pas le droit d\x27effectuer cette opération." }
  | some _ =>
    { code := 200,
      dataOne := some ((findOne (fun u => u.role = .user ∧ u.uuid = jsTrim id) db).map
        (fun r => selectPublic r.2)) }

/-- `profileDataUpdate` of `auths.validators.mjs` on `{ firstName, lastName }`. -/
def profileDataUpdate (body : Option String × Option String) : Option (List ValidationDetail) :=
  joiResult
    (nameDetails "firstName" body.1 "Le prénom est requis."
        "Le prénom doit contenir au moins 3 caractères."
        "Le prénom ne peut pas dépasser 255 caractères."
      ++ nameDetails "lastName" body.2 "Le nom est requis."
        "Le nom doit contenir au moins 3 caractères."
        "Le nom ne peut pas dépasser 255 caractères.")

/-- `updateProfileInfo` (lines 126 to 162).  The schema trims both names when they
are assigned; a name that is empty after trimming fails the `required`
validation of `save()`, which throws `saveError` into the catch block. -/
def updateProfileInfo (nodeEnv : Option String) (saveError : JsError) (db : Db)
    (reqUser : ReqUser) (firstName lastName : Option String) : Db × UsersResponse :=
  match profileDataUpdate (firstName, lastName) with
  | some details =>
    (db, { code := 400,
           errors := some (details.foldl
             (fun acc err => objAssign acc (err.path.head?.getD "undefined") err.message) []) })
  | none =>
    match findOne (fun u => u.uuid = reqUser.uuid) db with
    | none => (db, { code := 404, message := some "Utilisateur non trouvé." })
    | some (id, existingUser) =>
      let existingUser :=
        { existingUser with
          firstName := jsTrim (firstName.getD "")
          lastName := jsTrim (lastName.getD "") }
      if existingUser.firstName = "" ∨ existingUser.lastName = "" then
        (db, users.catchBlock nodeEnv saveError)
      else
        (db.set id existingUser,
         { code := 200, message := some "Utilisateur mis à jour avec succès.",
           user := some existingUser })

/-- `passwordDataUpate` of `auths.validators.mjs` on
`{ currentPassword, newPassword, confirmNewPassword }`. -/
def passwordDataUpate (body : Option String × Option String × Option String) :
    Option (List ValidationDetail) :=
  joiResult
    ((match body.1 with
      | none => [{ path := ["currentPassword"], message := "Le mot de passe actuel est requis." }]
      | some v =>
        if v = "" then
          [{ path := ["currentPassword"],
             message := "\"Mot de passe actuel\" is not allowed to be empty" }]
        else if jsLength v < 3 then
          [{ path := ["currentPassword"],
             message := "Le mot de passe actuel doit contenir au moins 3 caractères." }]
        else if 255 < jsLength v then
          [{ path := ["currentPassword"],
             message := "Le mot de passe actuel ne peut pas dépasser 255 caractères." }]
        else [])
      ++ stringMinDetails "newPassword" 6 body.2.1 "Le nouveau mot de passe est requis."
        "\"Nouveau mot de passe\" is not allowed to be empty"
        "Le nouveau mot de passe doit contenir au moins 6 caractères."
      ++ (match body.2.2 with
          | none =>
            [{ path := ["confirmNewPassword"],
               message := "La confirmation du mot de passe est requise." }]
          | some c =>
            if body.2.1 = some c then []
            else [{ path := ["confirmNewPassword"],
                    message := "La confirmation ne correspond pas au nouveau mot de passe." }]))

/-- `updatePasswordInfo` (lines 164 to 237).  `compare` is `bcrypt.compare`, which
throws `compareError` for a document without a stored hash; `hash` is
`bcrypt.hash(newPassword, await bcrypt.genSalt(12))`. -/
def updatePasswordInfo (compare : String → String → Bool) (hash : String → String)
    (nodeEnv : Option String) (compareError : JsError) (db : Db) (reqUser : ReqUser)
    (currentPassword newPassword confirmNewPassword : Option String) : Db × UsersResponse :=
  match passwordDataUpate (currentPassword, newPassword, confirmNewPassword) with
  | some details =>
    (db, { code := 400,
           errors := some (details.foldl
             (fun acc err => objAssign acc (err.path.head?.getD "undefined") err.message) []) })
  | none =>
    match findOne (fun u => u.uuid = reqUser.uuid) db with
    | none => (db, { code := 404, message := some "Utilisateur non trouvé." })
    | some (id, existingUser) =>
      match existingUser.password with
      | none => (db, users.catchBlock nodeEnv compareError)
      | some stored =>
        if compare (currentPassword.getD "") stored = false then
          (db, { code := 403, message := some "Mot de passe actuel incorrect." })
        else if newPassword ≠ confirmNewPassword then
          (db, { code := 400, message := some "Les mots de passe ne correspondent pas." })
        else if compare (newPassword.getD "") stored then
          (db, { code := 400,
                 message := some "Le nouveau mot de passe doit être différent de l\x27actuel.",
                 errors := some
                   [("newPassword", "Le nouveau mot de passe doit être différent de l\x27actuel."),
                    ("currentPassword",
                     "Le mot de passe actuel est le même que le nouveau mot de passe.")] })
        else
          let existingUser := { existingUser with password := some (hash (newPassword.getD "")) }
          (db.set id existingUser,
           { code := 200, message := some "Mot de passe mis à jour avec succès.",
             user := some existingUser })

/-- The object `req.user` of the signed-in demo account. -/
def demoReqUser : ReqUser :=
  { id := 0, uuid := "u-1", email := "a@x.com", role := .user, firstName := "Ada",
    lastName := "Lov", accountStatus := some .active, adminUUID := none }

/-! # Properties -/

/-! ## The JavaScript layer -/

theorem weekdayName_head (k : Nat) :
    ∃ c cs, (weekdayName k).data = c :: cs ∧ isJsWhitespace c = false ∧
      c ≠ Char.ofNat 45 ∧ c ≠ Char.ofNat 43 ∧ c.isDigit = false := by
  unfold weekdayName
  split <;> exact ⟨_, _, rfl, by decide, by decide, by decide, by decide⟩

theorem trimEnd_cons (c : Char) (cs : List Char) (hc : isJsWhitespace c = false) :
    ∃ r, trimEnd (c :: cs) = c :: r := by
  unfold trimEnd
  split
  · exact ⟨[], by simp [hc]⟩
  · exact ⟨_, rfl⟩

theorem stringToNumber_eq_none (s : String) (c : Char) (cs : List Char)
    (hs : s.data = c :: cs) (hw : isJsWhitespace c = false)
    (hm : c ≠ Char.ofNat 45) (hp : c ≠ Char.ofNat 43) (hd : c.isDigit = false) :
    stringToNumber s = none := by
  unfold stringToNumber
  rw [hs]
  have h1 : List.dropWhile isJsWhitespace (c :: cs) = c :: cs := by
    simp [List.dropWhile, hw]
  rw [h1]
  obtain ⟨r, hr⟩ := trimEnd_cons c cs hw
  rw [hr]
  simp [hm, hp, unsignedToNumber, hd]

theorem dateText_toNumber (d : JsDate) (t : String) :
    stringToNumber (d.toString ++ t) = none := by
  obtain ⟨c, cs, h, hw, hm, hp, hd⟩ := weekdayName_head ((d.time / 86400000 + 4) % 7).toNat
  refine stringToNumber_eq_none _ c (cs ++ (dateTail d.time).data ++ t.data) ?_ hw hm hp hd
  simp [JsDate.toString, String.data_append, h]

theorem jsLess_number_datePlus (x n : Int) (d : JsDate) :
    jsLess (some (.number x)) (jsAdd (.date d) (.number n)) = false := by
  simp [jsAdd, toPrimitiveDefault, jsToString, jsLess, toPrimitiveNumber, jsToNumber,
    dateText_toNumber]

theorem stillLocked_eq_false (user : Account) (currentTime : Int) :
    stillLocked user currentTime = false := by
  unfold stillLocked
  cases user.lockUntil with
  | none => simp
  | some d => simp [jsLess_number_datePlus]

theorem lockExpired_iff (user : Account) (currentTime : Int) :
    lockExpired user currentTime = true ↔
      user.isLocked = true ∧ ∃ d, user.lockUntil = some d ∧ d.time ≤ currentTime := by
  unfold lockExpired
  cases user.lockUntil with
  | none => simp
  | some d => simp [jsGreaterEq, toPrimitiveNumber, jsToNumber]

theorem onUser_of_match (compare : String → String → Bool) (id : Nat) (user : Account)
    (password hash : String) (currentTime : Int)
    (hpw : user.password = some hash) (hm : compare password hash = true) :
    localStrategy.onUser compare id user password currentTime =
      (if decide (0 < (unlockIfExpired user currentTime).loginAttempts.getD 0)
            || (unlockIfExpired user currentTime).isLocked then
          { unlockIfExpired user currentTime with
              lockUntil := none, loginAttempts := some 0, isLocked := false }
        else unlockIfExpired user currentTime,
       .ok id { unlockIfExpired user currentTime with
              password := none, loginAttempts := none, lockUntil := none }) := by
  have hp : (unlockIfExpired user currentTime).password = some hash := by
    unfold unlockIfExpired
    split <;> simp [hpw]
  simp only [localStrategy.onUser, stillLocked_eq_false, hp, hm]
  simp

theorem onUser_of_mismatch (compare : String → String → Bool) (id : Nat) (user : Account)
    (password hash : String) (currentTime : Int)
    (hpw : user.password = some hash) (hm : compare password hash = false) :
    localStrategy.onUser compare id user password currentTime =
      (if (unlockIfExpired user currentTime).loginAttempts.getD 0 + 1 ≥ MAX_LOGIN_ATTEMPTS then
        ({ unlockIfExpired user currentTime with
            loginAttempts := some ((unlockIfExpired user currentTime).loginAttempts.getD 0 + 1)
            isLocked := true
            lockUntil := some ⟨currentTime + LOCK_TIME⟩ },
         .fail { message :=
           "Too many failed login attempts. Your account has been locked for 10 minutes." })
      else
        ({ unlockIfExpired user currentTime with
            loginAttempts := some ((unlockIfExpired user currentTime).loginAttempts.getD 0 + 1) },
         .fail { message := "Invalid email or password."
                 remainingAttempts := some ((MAX_LOGIN_ATTEMPTS : Int)
                   - ((unlockIfExpired user currentTime).loginAttempts.getD 0 + 1 : Nat)) })) := by
  have hp : (unlockIfExpired user currentTime).password = some hash := by
    unfold unlockIfExpired
    split <;> simp [hpw]
  simp only [localStrategy.onUser, stillLocked_eq_false, hp, hm]
  simp

theorem unlockIfExpired_of_not_locked (user : Account) (currentTime : Int)
    (h : user.isLocked = false) : unlockIfExpired user currentTime = user := by
  simp [unlockIfExpired, lockExpired, h]

theorem unlockIfExpired_of_before (user : Account) (currentTime : Int) (d : JsDate)
    (hd : user.lockUntil = some d) (h : currentTime < d.time) :
    unlockIfExpired user currentTime = user := by
  have : lockExpired user currentTime = false := by
    cases hx : lockExpired user currentTime with
    | false => rfl
    | true =>
      obtain ⟨_, e, he, hle⟩ := (lockExpired_iff user currentTime).1 hx
      rw [hd] at he
      cases he
      omega
  simp [unlockIfExpired, this]

/-- C1. The locked demo account (locked until 601000) presents the correct password at
time 2000, inside the lock window: the verifier does not answer "locked" but
succeeds, and it writes the lock fields back to their unlocked values. -/
theorem locked_account_correct_password_succeeds :
    demoLocked.isLocked = true ∧ demoLocked.lockUntil = some ⟨601000⟩ ∧
    (2000 : Int) < 601000 + UNLOCK_BUFFER_TIME ∧
    localStrategy.onUser sameText 0 demoLocked "pw123456" 2000 =
      ({ demoLocked with lockUntil := none, loginAttempts := some 0, isLocked := false },
       .ok 0 { demoLocked with password := none, loginAttempts := none, lockUntil := none }) := by
  refine ⟨rfl, rfl, by decide, ?_⟩
  rw [onUser_of_match sameText 0 demoLocked "pw123456" "pw123456" 2000 rfl (by decide)]
  rw [unlockIfExpired_of_before demoLocked 2000 ⟨601000⟩ rfl (by decide)]
  rfl

/-! ## Credential verifier -/

/-- C2. Five wrong passwords at times 1000 to 5000 lock the demo account
(`loginAttempts = 5`, `lockUntil = 5000 + 600000`), the first four answered
"Invalid email or password." and the fifth with the lockout message; the correct
password presented at time 6000, before `lockUntil`, is then accepted instead of
being refused as locked. -/
theorem five_failures_then_correct_password_succeeds :
    attemptAll sameText demoAccount
        [("bad", 1000), ("bad", 2000), ("bad", 3000), ("bad", 4000), ("bad", 5000)] =
      ({ demoAccount with loginAttempts := some 5, isLocked := true, lockUntil := some ⟨605000⟩ },
       [.fail { message := "Invalid email or password.", remainingAttempts := some 4 },
        .fail { message := "Invalid email or password.", remainingAttempts := some 3 },
        .fail { message := "Invalid email or password.", remainingAttempts := some 2 },
        .fail { message := "Invalid email or password.", remainingAttempts := some 1 },
        .fail { message :=
          "Too many failed login attempts. Your account has been locked for 10 minutes." }]) ∧
    (6000 : Int) < 605000 ∧
    localStrategy.onUser sameText 0
        { demoAccount with loginAttempts := some 5, isLocked := true, lockUntil := some ⟨605000⟩ }
        "pw123456" 6000 =
      ({ demoAccount with loginAttempts := some 0, isLocked := false, lockUntil := none },
       .ok 0 { demoAccount with
              password := none, loginAttempts := none, isLocked := true, lockUntil := none }) := by
  refine ⟨?_, by decide, ?_⟩
  · simp only [attemptAll]
    rw [onUser_of_mismatch sameText 0 demoAccount "bad" "pw123456" 1000 rfl (by decide)]
    rw [unlockIfExpired_of_not_locked _ _ rfl]
    simp only [demoAccount, MAX_LOGIN_ATTEMPTS, Option.getD]
    simp only [ge_iff_le, Nat.reduceAdd, Nat.reduceLeDiff, ite_false]
    rw [onUser_of_mismatch sameText 0 _ "bad" "pw123456" 2000 rfl (by decide)]
    rw [unlockIfExpired_of_not_locked _ _ rfl]
    simp only [MAX_LOGIN_ATTEMPTS, Option.getD]
    simp only [ge_iff_le, Nat.reduceAdd, Nat.reduceLeDiff, ite_false]
    rw [onUser_of_mismatch sameText 0 _ "bad" "pw123456" 3000 rfl (by decide)]
    rw [unlockIfExpired_of_not_locked _ _ rfl]
    simp only [MAX_LOGIN_ATTEMPTS, Option.getD]
    simp only [ge_iff_le, Nat.reduceAdd, Nat.reduceLeDiff, ite_false]
    rw [onUser_of_mismatch sameText 0 _ "bad" "pw123456" 4000 rfl (by decide)]
    rw [unlockIfExpired_of_not_locked _ _ rfl]
    simp only [MAX_LOGIN_ATTEMPTS, Option.getD]
    simp only [ge_iff_le, Nat.reduceAdd, Nat.reduceLeDiff, ite_false]
    rw [onUser_of_mismatch sameText 0 _ "bad" "pw123456" 5000 rfl (by decide)]
    rw [unlockIfExpired_of_not_locked _ _ rfl]
    simp [MAX_LOGIN_ATTEMPTS, LOCK_TIME]
  · rw [onUser_of_match sameText 0 _ "pw123456" "pw123456" 6000 rfl (by decide)]
    rw [unlockIfExpired_of_before _ 6000 ⟨605000⟩ rfl (by decide)]
    rfl

/-- C3. For a found account that passes the lock check and whose counter, as stored
when the password is compared (after the expired-lock reset of lines 42 to 54,
which leaves the document as it is unless the lock has expired), is `n`: a
password mismatch writes `loginAttempts = n + 1`; when `n + 1 < 5` that is the
only field written, `isLocked` and `lockUntil` keep their values, and the
failure carries `remainingAttempts = 5 - (n + 1)`, a number from 1 to 4. -/
theorem mismatch_increments_attempts (compare : String → String → Bool) (id : Nat) (user : Account)
    (password hash : String) (currentTime : Int) (n : Nat)
    (hlock : stillLocked user currentTime = false)
    (hpw : user.password = some hash)
    (hn : (unlockIfExpired user currentTime).loginAttempts = some n)
    (hmis : compare password hash = false) :
    (localStrategy.onUser compare id user password currentTime).1.loginAttempts = some (n + 1) ∧
    (lockExpired user currentTime = false → unlockIfExpired user currentTime = user) ∧
    (n + 1 < MAX_LOGIN_ATTEMPTS →
      localStrategy.onUser compare id user password currentTime =
        ({ unlockIfExpired user currentTime with loginAttempts := some (n + 1) },
         .fail { message := "Invalid email or password."
                 remainingAttempts := some (5 - ((n : Int) + 1)) }) ∧
      (localStrategy.onUser compare id user password currentTime).1.isLocked =
        (unlockIfExpired user currentTime).isLocked ∧
      (localStrategy.onUser compare id user password currentTime).1.lockUntil =
        (unlockIfExpired user currentTime).lockUntil ∧
      1 ≤ 5 - ((n : Int) + 1) ∧ 5 - ((n : Int) + 1) ≤ 4) := by
  have _ := hlock
  rw [onUser_of_mismatch compare id user password hash currentTime hpw hmis, hn]
  simp only [Option.getD, MAX_LOGIN_ATTEMPTS]
  refine ⟨?_, ?_, ?_⟩
  · split <;> rfl
  · intro h
    simp [unlockIfExpired, h]
  · intro h
    have h5 : ¬ (n + 1 ≥ 5) := by omega
    simp only [h5, if_false]
    refine ⟨?_, ?_, ?_, by omega, by omega⟩
    all_goals first | rfl | trivial

/-- Witness for C3: the fresh demo account, one wrong password at time 1000. -/
theorem mismatch_increments_attempts_witness :
    stillLocked demoAccount 1000 = false ∧
    (localStrategy.onUser sameText 0 demoAccount "bad" 1000).1.loginAttempts = some (0 + 1) ∧
    (0 + 1 < MAX_LOGIN_ATTEMPTS →
      localStrategy.onUser sameText 0 demoAccount "bad" 1000 =
        ({ unlockIfExpired demoAccount 1000 with loginAttempts := some (0 + 1) },
         .fail { message := "Invalid email or password."
                 remainingAttempts := some (5 - (((0 : Nat) : Int) + 1)) })) :=
  have h := mismatch_increments_attempts sameText 0 demoAccount "bad" "pw123456" 1000 0
    (stillLocked_eq_false demoAccount 1000) rfl
    (by rw [unlockIfExpired_of_not_locked _ _ rfl]; rfl) (by decide)
  ⟨stillLocked_eq_false demoAccount 1000, h.1, fun hlt => (h.2.2 hlt).1⟩

/-- C4. For an account with `isLocked = true` whose lock has expired
(`now >= lockUntil + 5000`), the verifier first clears the lock state
(`isLocked = false`, `loginAttempts = 0`, `lockUntil` unset); the correct password
then succeeds, and a wrong password leaves `loginAttempts = 1`, `isLocked = false`
and reports `remainingAttempts = 4`. -/
theorem expired_lock_is_cleared (compare : String → String → Bool) (id : Nat) (user : Account)
    (password hash : String) (currentTime : Int) (d : JsDate)
    (hlocked : user.isLocked = true) (hd : user.lockUntil = some d)
    (hexp : d.time + UNLOCK_BUFFER_TIME ≤ currentTime)
    (hpw : user.password = some hash) :
    unlockIfExpired user currentTime =
      { user with lockUntil := none, isLocked := false, loginAttempts := some 0 } ∧
    (compare password hash = true →
      localStrategy.onUser compare id user password currentTime =
        ({ user with lockUntil := none, isLocked := false, loginAttempts := some 0 },
         .ok id { user with
                lockUntil := none, isLocked := false, loginAttempts := none, password := none })) ∧
    (compare password hash = false →
      localStrategy.onUser compare id user password currentTime =
        ({ user with lockUntil := none, isLocked := false, loginAttempts := some 1 },
         .fail { message := "Invalid email or password.", remainingAttempts := some 4 })) := by
  have hx : lockExpired user currentTime = true := by
    rw [lockExpired_iff]
    refine ⟨hlocked, d, hd, ?_⟩
    unfold UNLOCK_BUFFER_TIME at hexp
    omega
  have hu : unlockIfExpired user currentTime =
      { user with lockUntil := none, isLocked := false, loginAttempts := some 0 } := by
    simp [unlockIfExpired, hx]
  refine ⟨hu, ?_, ?_⟩
  · intro hm
    rw [onUser_of_match compare id user password hash currentTime hpw hm, hu]
    simp
  · intro hm
    rw [onUser_of_mismatch compare id user password hash currentTime hpw hm, hu]
    simp [MAX_LOGIN_ATTEMPTS]

/-- Witness for C4: the demo account locked until 601000, tried at time 606000. -/
theorem expired_lock_is_cleared_witness :
    demoLocked.isLocked = true ∧ demoLocked.lockUntil = some ⟨601000⟩ ∧
    (601000 : Int) + UNLOCK_BUFFER_TIME ≤ 606000 ∧
    localStrategy.onUser sameText 0 demoLocked "pw123456" 606000 =
      ({ demoLocked with lockUntil := none, isLocked := false, loginAttempts := some 0 },
       .ok 0 { demoLocked with
              lockUntil := none, isLocked := false, loginAttempts := none, password := none }) ∧
    localStrategy.onUser sameText 0 demoLocked "bad" 606000 =
      ({ demoLocked with lockUntil := none, isLocked := false, loginAttempts := some 1 },
       .fail { message := "Invalid email or password.", remainingAttempts := some 4 }) :=
  ⟨rfl, rfl, by decide,
   (expired_lock_is_cleared sameText 0 demoLocked "pw123456" "pw123456" 606000 ⟨601000⟩
      rfl rfl (by decide) rfl).2.1 (by decide),
   (expired_lock_is_cleared sameText 0 demoLocked "bad" "pw123456" 606000 ⟨601000⟩
      rfl rfl (by decide) rfl).2.2 (by decide)⟩

/-- The lock invariant carried by every reachable document: the counter is set,
the account is locked exactly when the counter has reached five, and a locked
account has `lockUntil` set. -/
theorem lockReachable_invariant (compare : String → String → Bool) (user : Account)
    (h : LockReachable compare user) :
    ∃ n, user.loginAttempts = some n ∧ (user.isLocked = true ↔ MAX_LOGIN_ATTEMPTS ≤ n) ∧
      (user.isLocked = true → ∃ d, user.lockUntil = some d) := by
  induction h with
  | fresh user h0 h1 h2 => exact ⟨0, h0, by simp [h1, MAX_LOGIN_ATTEMPTS], by simp [h1]⟩
  | step id user password currentTime _ ih =>
    obtain ⟨n, hn, hiff, hset⟩ := ih
    have hu : ∃ m, (unlockIfExpired user currentTime).loginAttempts = some m ∧
        ((unlockIfExpired user currentTime).isLocked = true ↔ MAX_LOGIN_ATTEMPTS ≤ m) ∧
        ((unlockIfExpired user currentTime).isLocked = true →
          ∃ d, (unlockIfExpired user currentTime).lockUntil = some d) := by
      unfold unlockIfExpired
      split
      · exact ⟨0, rfl, by simp [MAX_LOGIN_ATTEMPTS], by simp⟩
      · exact ⟨n, hn, hiff, hset⟩
    obtain ⟨m, hm, hmiff, hmset⟩ := hu
    simp only [localStrategy.onUser, stillLocked_eq_false]
    cases hp : (unlockIfExpired user currentTime).password with
    | none => exact ⟨m, by simpa [hp] using hm, by simpa [hp] using hmiff, by simpa [hp] using hmset⟩
    | some hash =>
      cases hc : compare password hash with
      | false =>
        by_cases h5 : m + 1 ≥ MAX_LOGIN_ATTEMPTS
        · refine ⟨m + 1, ?_, ?_, ?_⟩ <;> simp [hp, hc, hm, h5]
        · have hnl : (unlockIfExpired user currentTime).isLocked = false := by
            cases hl : (unlockIfExpired user currentTime).isLocked with
            | false => rfl
            | true => exact absurd (Nat.le_succ_of_le (hmiff.1 hl)) h5
          refine ⟨m + 1, ?_, ?_, ?_⟩ <;> simp [hp, hc, hm, h5, hnl]
      | true =>
        by_cases hr : (decide (0 < m) || (unlockIfExpired user currentTime).isLocked) = true
        · refine ⟨0, ?_, ?_, ?_⟩ <;> simp [hp, hc, hm, hr, MAX_LOGIN_ATTEMPTS]
        · refine ⟨m, ?_, ?_, ?_⟩ <;> simp [hp, hc, hm, hr]
          · exact hmiff
          · exact hmset

/-- C5. In every account state reachable from a newly created account by runs of
the credential verifier, right after a run made at time `now`: `isLocked` is
true if and only if `loginAttempts >= 5`, and whenever `isLocked` is true
`lockUntil` is set and `now < lockUntil + 5000`. -/
theorem lock_invariant_after_each_step (compare : String → String → Bool) (id : Nat) (user : Account)
    (password : String) (now : Int) (h : LockReachable compare user) :
    (∃ n, (localStrategy.onUser compare id user password now).1.loginAttempts = some n ∧
      ((localStrategy.onUser compare id user password now).1.isLocked = true ↔
        MAX_LOGIN_ATTEMPTS ≤ n)) ∧
    ((localStrategy.onUser compare id user password now).1.isLocked = true →
      ∃ d, (localStrategy.onUser compare id user password now).1.lockUntil = some d ∧
        now < d.time + UNLOCK_BUFFER_TIME) := by
  obtain ⟨n, hn, hiff, _⟩ :=
    lockReachable_invariant compare _ (LockReachable.step id user password now h)
  refine ⟨⟨n, hn, hiff⟩, ?_⟩
  obtain ⟨k, hk, hkiff, hkset⟩ := lockReachable_invariant compare user h
  have hstay : (unlockIfExpired user now).isLocked = true →
      ∃ d, (unlockIfExpired user now).lockUntil = some d ∧ now < d.time + UNLOCK_BUFFER_TIME := by
    intro hl
    by_cases hx : lockExpired user now = true
    · simp [unlockIfExpired, hx] at hl
    · have hu : unlockIfExpired user now = user := by simp [unlockIfExpired, hx]
      rw [hu] at hl ⊢
      obtain ⟨d, hd⟩ := hkset hl
      refine ⟨d, hd, ?_⟩
      have : ¬ d.time ≤ now := fun hle => hx ((lockExpired_iff user now).2 ⟨hl, d, hd, hle⟩)
      unfold UNLOCK_BUFFER_TIME
      omega
  have hm : ∃ m, (unlockIfExpired user now).loginAttempts = some m ∧
      ((unlockIfExpired user now).isLocked = true ↔ MAX_LOGIN_ATTEMPTS ≤ m) := by
    unfold unlockIfExpired
    split
    · exact ⟨0, rfl, by simp [MAX_LOGIN_ATTEMPTS]⟩
    · exact ⟨k, hk, hkiff⟩
  obtain ⟨m, hm, hmiff⟩ := hm
  simp only [localStrategy.onUser, stillLocked_eq_false]
  cases hp : (unlockIfExpired user now).password with
  | none => simpa [hp] using hstay
  | some hash =>
    cases hc : compare password hash with
    | false =>
      by_cases h5 : m + 1 ≥ MAX_LOGIN_ATTEMPTS
      · simp [hp, hc, hm, h5, LOCK_TIME, UNLOCK_BUFFER_TIME]
        omega
      · have hnl : (unlockIfExpired user now).isLocked = false := by
          cases hl : (unlockIfExpired user now).isLocked with
          | false => rfl
          | true => exact absurd (Nat.le_succ_of_le (hmiff.1 hl)) h5
        simp [hp, hc, hm, h5, hnl]
    | true =>
      by_cases hr : (decide (0 < m) || (unlockIfExpired user now).isLocked) = true
      · simp [hp, hc, hm, hr]
      · have hnl : (unlockIfExpired user now).isLocked = false := by
          cases hl : (unlockIfExpired user now).isLocked with
          | false => rfl
          | true => simp [hl] at hr
        have hm0 : ¬ 0 < m := by
          intro h0
          simp [h0] at hr
        simp [hp, hc, hm, hnl, hm0]

/-- Witness for C5: the fresh demo account and one wrong password at time 1000. -/
theorem lock_invariant_after_each_step_witness :
    LockReachable sameText demoAccount ∧
    ((∃ n, (localStrategy.onUser sameText 0 demoAccount "bad" 1000).1.loginAttempts = some n ∧
      ((localStrategy.onUser sameText 0 demoAccount "bad" 1000).1.isLocked = true ↔
        MAX_LOGIN_ATTEMPTS ≤ n)) ∧
    ((localStrategy.onUser sameText 0 demoAccount "bad" 1000).1.isLocked = true →
      ∃ d, (localStrategy.onUser sameText 0 demoAccount "bad" 1000).1.lockUntil = some d ∧
        (1000 : Int) < d.time + UNLOCK_BUFFER_TIME)) :=
  ⟨LockReachable.fresh demoAccount rfl rfl rfl,
   lock_invariant_after_each_step sameText 0 demoAccount "bad" 1000
     (LockReachable.fresh demoAccount rfl rfl rfl)⟩

/-! ## The store -/

theorem findOne_some (filter : Account → Bool) (db : Db) (id : Nat) (user : Account)
    (h : findOne filter db = some (id, user)) : db[id]? = some user ∧ filter user = true := by
  induction db generalizing id with
  | nil => simp [findOne] at h
  | cons a rest ih =>
    unfold findOne at h
    by_cases hf : filter a = true
    · simp only [hf, if_true, Option.some.injEq, Prod.mk.injEq] at h
      obtain ⟨h1, h2⟩ := h
      subst h1 h2
      exact ⟨by simp, hf⟩
    · simp only [hf, Bool.false_eq_true, if_false] at h
      cases hr : findOne filter rest with
      | none => simp [hr] at h
      | some r =>
        obtain ⟨j, u⟩ := r
        simp only [hr, Option.map_some', Option.some.injEq, Prod.mk.injEq] at h
        obtain ⟨h1, h2⟩ := h
        subst h1 h2
        have := ih j hr
        exact ⟨by simpa using this.1, this.2⟩

theorem findOne_none (filter : Account → Bool) (db : Db) (h : findOne filter db = none) :
    ∀ a ∈ db, filter a = false := by
  induction db with
  | nil => simp
  | cons a rest ih =>
    unfold findOne at h
    by_cases hf : filter a = true
    · simp [hf] at h
    · simp only [hf, Bool.false_eq_true, if_false, Option.map_eq_none'] at h
      intro b hb
      rcases List.mem_cons.1 hb with hb | hb
      · subst hb
        simpa using hf
      · exact ih h b hb

theorem updateOne_of_get (id : Nat) (update : Account → Account) (db : Db) (a : Account)
    (h : db[id]? = some a) : updateOne id update db = db.set id (update a) := by
  simp [updateOne, h]

theorem forall_mem_set (P : Account → Prop) (db : Db) (id : Nat) (v : Account)
    (hdb : ∀ a ∈ db, P a) (hv : P v) : ∀ a ∈ db.set id v, P a := by
  intro a ha
  rcases List.mem_or_eq_of_mem_set ha with h | h
  · exact hdb a h
  · exact h ▸ hv

theorem forall_mem_updateOne (P : Account → Prop) (id : Nat) (update : Account → Account)
    (db : Db) (hdb : ∀ a ∈ db, P a) (hu : ∀ b, db[id]? = some b → P (update b)) :
    ∀ a ∈ updateOne id update db, P a := by
  unfold updateOne
  cases h : db[id]? with
  | none => simpa using hdb
  | some b => exact forall_mem_set P db id (update b) hdb (hu b h)

theorem mem_of_get (db : Db) (id : Nat) (a : Account) (h : db[id]? = some a) : a ∈ db := by
  obtain ⟨hlt, he⟩ := List.getElem?_eq_some.1 h
  exact he ▸ List.getElem_mem hlt

theorem unlockIfExpired_frame (user : Account) (currentTime : Int) :
    sameOutsideLock (unlockIfExpired user currentTime) user := by
  unfold unlockIfExpired
  split <;> simp [sameOutsideLock]

theorem onUser_of_no_password (compare : String → String → Bool) (id : Nat) (user : Account)
    (password : String) (currentTime : Int) (hpw : user.password = none) :
    localStrategy.onUser compare id user password currentTime =
      (unlockIfExpired user currentTime, .error) := by
  have hp : (unlockIfExpired user currentTime).password = none := by
    rw [(unlockIfExpired_frame user currentTime).2.2.2.2.1, hpw]
  simp only [localStrategy.onUser, stillLocked_eq_false, hp]
  simp

theorem onUser_frame (compare : String → String → Bool) (id : Nat) (user : Account)
    (password : String) (currentTime : Int) :
    sameOutsideLock (localStrategy.onUser compare id user password currentTime).1 user := by
  have hu := unlockIfExpired_frame user currentTime
  cases hp : user.password with
  | none =>
    rw [onUser_of_no_password compare id user password currentTime hp]
    exact hu
  | some hash =>
    cases hc : compare password hash with
    | false =>
      rw [onUser_of_mismatch compare id user password hash currentTime hp hc]
      split <;> simpa [sameOutsideLock] using hu
    | true =>
      rw [onUser_of_match compare id user password hash currentTime hp hc]
      split <;> simpa [sameOutsideLock] using hu

theorem onUser_ok (compare : String → String → Bool) (id : Nat) (user : Account)
    (password : String) (currentTime : Int) (id1 : Nat) (user1 : Account)
    (h : (localStrategy.onUser compare id user password currentTime).2 = .ok id1 user1) :
    id1 = id ∧ user1.uuid = user.uuid ∧ user1.email = user.email ∧
      user1.role = user.role ∧ user1.isVerified = user.isVerified ∧
      user1.verificationToken = user.verificationToken ∧
      user1.verificationExpires = user.verificationExpires ∧
      user1.password = none ∧ user1.loginAttempts = none ∧ user1.lockUntil = none := by
  have hu := unlockIfExpired_frame user currentTime
  cases hp : user.password with
  | none =>
    rw [onUser_of_no_password compare id user password currentTime hp] at h
    simp at h
  | some hash =>
    cases hc : compare password hash with
    | false =>
      rw [onUser_of_mismatch compare id user password hash currentTime hp hc] at h
      revert h
      split <;> simp
    | true =>
      rw [onUser_of_match compare id user password hash currentTime hp hc] at h
      simp only [Done.ok.injEq] at h
      obtain ⟨h1, h2⟩ := h
      subst h1 h2
      obtain ⟨e1, _, _, e4, _, e6, e7, e8, e9, _⟩ := hu
      simp [e1, e4, e6, e7, e8, e9]

/-! ## Token phases -/

theorem tokenPhase_of_sameOutsideLock (a b : Account) (h : sameOutsideLock a b)
    (hb : tokenPhase b) : tokenPhase a := by
  obtain ⟨_, _, _, _, _, e6, _, e8, _, e10, _⟩ := h
  unfold tokenPhase at hb ⊢
  rw [e6, e8, e10]
  exact hb

theorem localStrategy_tokenPhase (compare : String → String → Bool) (db : Db)
    (email password : String) (currentTime : Int) (hdb : ∀ a ∈ db, tokenPhase a) :
    (∀ a ∈ (localStrategy compare db email password currentTime).1, tokenPhase a) ∧
    (∀ id user, (localStrategy compare db email password currentTime).2 = .ok id user →
      ∃ b, (localStrategy compare db email password currentTime).1[id]? = some b ∧
        b.isVerified = user.isVerified) := by
  unfold localStrategy
  by_cases he : email = "" ∨ password = ""
  · simp only [he, if_true]
    exact ⟨hdb, by simp⟩
  · simp only [he, if_false]
    cases hf : findOne (fun u => decide (u.email = jsTrim email)) db with
    | none => exact ⟨hdb, by simp⟩
    | some r =>
      obtain ⟨id, user⟩ := r
      obtain ⟨hget, _⟩ := findOne_some _ db id user hf
      have hmem := mem_of_get db id user hget
      have hfr := onUser_frame compare id user password currentTime
      refine ⟨?_, ?_⟩
      · exact forall_mem_set tokenPhase db id _ hdb
          (tokenPhase_of_sameOutsideLock _ _ hfr (hdb user hmem))
      · intro id1 user1 hok
        obtain ⟨h1, _, _, _, h5, _⟩ := onUser_ok compare id user password currentTime id1 user1 hok
        subst h1
        have hlt : id1 < db.length := (List.getElem?_eq_some.1 hget).1
        refine ⟨(localStrategy.onUser compare id1 user password currentTime).1, ?_, ?_⟩
        · simp [List.getElem?_set, hlt]
        · rw [h5]
          exact hfr.2.2.2.2.2.1

theorem signin_tokenPhase (compare : String → String → Bool) (db : Db)
    (email password : String) (currentTime : Int) (hdb : ∀ a ∈ db, tokenPhase a) :
    ∀ a ∈ (signin compare db email password currentTime).1, tokenPhase a := by
  obtain ⟨h1, h2⟩ := localStrategy_tokenPhase compare db email password currentTime hdb
  unfold signin
  cases hr : localStrategy compare db email password currentTime with
  | mk db1 d =>
    rw [hr] at h1 h2
    cases d with
    | fail info => exact h1
    | error => exact h1
    | ok id user =>
      obtain ⟨b, hb, hbv⟩ := h2 id user rfl
      simp only
      by_cases hv : user.isVerified = false
      · simp only [hv, if_true]
        split
        · apply forall_mem_updateOne tokenPhase id _ db1 h1
          intro c hc
          simp only at hb
          rw [hb] at hc
          cases hc
          have hp := h1 b (mem_of_get db1 id b hb)
          rw [hv] at hbv
          exact ⟨by simp [hbv], fun _ => hp.2 hbv⟩
        · exact h1
      · simp only [hv, if_false]
        apply forall_mem_updateOne tokenPhase id _ db1 h1
        intro c hc
        exact h1 c (mem_of_get db1 id c hc)

theorem verifyEmail_tokenPhase (db : Db) (token : Token) (now : Int)
    (hdb : ∀ a ∈ db, tokenPhase a) : ∀ a ∈ (verifyEmail db token now).1, tokenPhase a := by
  unfold verifyEmail
  split
  · exact hdb
  · exact hdb
  · split
    · exact hdb
    · split
      · exact hdb
      · apply forall_mem_updateOne tokenPhase _ _ db hdb
        intro b _
        exact ⟨fun _ => rfl, by simp⟩

theorem verifyPassReset_tokenPhase (hash : String → String) (db : Db) (token : Token)
    (password passwordConfirm : Option String) (now : Int) (hdb : ∀ a ∈ db, tokenPhase a) :
    ∀ a ∈ (verifyPassReset hash db token password passwordConfirm now).1, tokenPhase a := by
  unfold verifyPassReset
  split
  · exact hdb
  · exact hdb
  · split
    · exact hdb
    · split
      · exact hdb
      · apply forall_mem_updateOne tokenPhase _ _ db hdb
        intro b hb
        have hp := hdb b (mem_of_get db _ b hb)
        exact ⟨hp.1, fun _ => rfl⟩

theorem signUp_tokenPhase (isEmail : String → Bool) (hash : String → String)
    (nodeEnv : Option String) (createError : String) (db : Db) (body : SignUpBody)
    (uuid : String) (now : Int) (hdb : ∀ a ∈ db, tokenPhase a) :
    ∀ a ∈ (signUp isEmail hash nodeEnv createError db body uuid now).1, tokenPhase a := by
  unfold signUp
  cases hv : handleValidation (validator isEmail) body with
  | some errors => exact hdb
  | none =>
    simp only
    cases he : findOne (fun u => decide (u.email = jsTrim (body.email.getD ""))) db with
    | some r => exact hdb
    | none =>
      simp only
      cases hu : findOne (fun u => decide (u.uuid = uuid)) db with
      | some r => exact hdb
      | none =>
        intro a ha
        rcases List.mem_append.1 ha with h | h
        · exact hdb a h
        · rw [List.mem_singleton] at h
          subst h
          exact ⟨by simp, fun _ => rfl⟩

theorem setVerificationPair_tokenPhase (token : Token) (expires : Int) (a : Account)
    (h : a.isVerified = false) : tokenPhase (setVerificationPair token expires a) := by
  simp [tokenPhase, setVerificationPair, h]

theorem setResetPair_tokenPhase (token : Token) (expires : Int) (a : Account)
    (h : a.isVerified = true) : tokenPhase (setResetPair token expires a) := by
  simp [tokenPhase, setResetPair, h]

theorem forgotEmail_tokenPhase (db : Db) (session : Session) (email : Option String)
    (emailStatus : Bool × String) (currentTime : Int) (hdb : ∀ a ∈ db, tokenPhase a) :
    ∀ a ∈ (forgotEmail db session email emailStatus currentTime).1, tokenPhase a := by
  unfold forgotEmail
  cases hv : handleValidation validatorForgot email with
  | some errors => exact hdb
  | none =>
    simp only
    cases hf : findOne (fun u => decide (some u.email = email.map jsTrim)) db with
    | none => exact hdb
    | some r =>
      obtain ⟨id, user⟩ := r
      obtain ⟨hget, _⟩ := findOne_some _ db id user hf
      simp only
      split
      · exact hdb
      · have key : ∀ a ∈ (if (if user.isVerified = false then "verification" else "reset")
              = "verification" then
            updateOne id (setVerificationPair
              (generateAuthToken { uuid := user.uuid } ttl10m currentTime)
              (currentTime + 10 * 60 * 1000)) db
          else updateOne id (setResetPair
              (generateAuthToken { uuid := user.uuid } ttl10m currentTime)
              (currentTime + 10 * 60 * 1000)) db), tokenPhase a := by
          cases hver : user.isVerified with
          | false =>
            simp only [if_true]
            apply forall_mem_updateOne tokenPhase id _ db hdb
            intro b hb
            rw [hget] at hb
            cases hb
            exact setVerificationPair_tokenPhase _ _ _ hver
          | true =>
            simp only [Bool.true_eq_false, if_false]
            rw [if_neg (by decide)]
            apply forall_mem_updateOne tokenPhase id _ db hdb
            intro b hb
            rw [hget] at hb
            cases hb
            exact setResetPair_tokenPhase _ _ _ hver
        split <;> exact key

theorem resendEmail_tokenPhase (db : Db) (uuid : String) (type : Option String)
    (authToken : Option Token) (emailStatus : Bool × String) (now : Int)
    (hdb : ∀ a ∈ db, tokenPhase a) :
    ∀ a ∈ (resendEmail db uuid type authToken emailStatus now).1, tokenPhase a := by
  unfold resendEmail
  cases authToken with
  | none => exact hdb
  | some authToken =>
    simp only
    cases hj : jwtVerify authToken now with
    | error e => cases e <;> exact hdb
    | ok decoded =>
      simp only
      by_cases hu : decoded.uuid ≠ uuid
      · rw [if_pos hu]
        exact hdb
      · rw [if_neg hu]
        cases hf : findOne (fun u => decide (u.uuid = uuid)) db with
        | none => exact hdb
        | some r =>
          obtain ⟨id, user⟩ := r
          obtain ⟨hget, _⟩ := findOne_some _ db id user hf
          simp only
          generalize hty : (if type = some "verification" ∨ type = some "reset" then type.getD ""
            else if user.isVerified = false then "verification" else "reset") = emailType
          have hcases : emailType = "verification" ∨ emailType = "reset" := by
            rw [← hty]
            by_cases h1 : type = some "verification"
            · simp [h1]
            · by_cases h2 : type = some "reset"
              · simp [h2]
              · simp only [h1, h2, or_self, if_false]
                cases user.isVerified <;> simp
          by_cases g1 : emailType = "verification" ∧ user.isVerified = true
          · rw [if_pos g1]
            exact hdb
          · rw [if_neg g1]
            by_cases g2 : emailType = "reset" ∧ user.isVerified = false
            · rw [if_pos g2]
              exact hdb
            · rw [if_neg g2]
              split
              · exact hdb
              · have key : ∀ a ∈ (if emailType = "verification" then
                      updateOne id (setVerificationPair
                        (generateAuthToken { uuid := user.uuid } ttl10m now)
                        (now + 10 * 60 * 1000)) db
                    else updateOne id (setResetPair
                        (generateAuthToken { uuid := user.uuid } ttl10m now)
                        (now + 10 * 60 * 1000)) db), tokenPhase a := by
                  by_cases hk : emailType = "verification"
                  · rw [if_pos hk]
                    apply forall_mem_updateOne tokenPhase id _ db hdb
                    intro b hb
                    rw [hget] at hb
                    cases hb
                    apply setVerificationPair_tokenPhase
                    cases hver : user.isVerified with
                    | false => rfl
                    | true => exact absurd ⟨hk, hver⟩ g1
                  · rw [if_neg hk]
                    have hr : emailType = "reset" := hcases.resolve_left hk
                    apply forall_mem_updateOne tokenPhase id _ db hdb
                    intro b hb
                    rw [hget] at hb
                    cases hb
                    apply setResetPair_tokenPhase
                    cases hver : user.isVerified with
                    | true => rfl
                    | false => exact absurd ⟨hr, hver⟩ g2
                split <;> exact key

/-- Every reachable collection satisfies the phase invariant on each account. -/
theorem reachable_tokenPhase (compare : String → String → Bool) (isEmail : String → Bool)
    (db : Db) (h : Reachable compare isEmail db) : ∀ a ∈ db, tokenPhase a := by
  induction h with
  | empty => simp
  | signUp db hash nodeEnv createError body uuid now _ ih =>
    exact signUp_tokenPhase isEmail hash nodeEnv createError db body uuid now ih
  | signin db email password now _ ih => exact signin_tokenPhase compare db email password now ih
  | forgotEmail db session email emailStatus now _ ih =>
    exact forgotEmail_tokenPhase db session email emailStatus now ih
  | resendEmail db uuid type authToken emailStatus now _ ih =>
    exact resendEmail_tokenPhase db uuid type authToken emailStatus now ih
  | verifyEmail db token now _ ih => exact verifyEmail_tokenPhase db token now ih
  | verifyPassReset db hash token password passwordConfirm now _ ih =>
    exact verifyPassReset_tokenPhase hash db token password passwordConfirm now ih

/-- C6. In every collection reachable from sign-ups by any sequence of `signin`,
`forgotEmail`, `resendEmail`, `verifyEmail` and `verifyPassReset`, every account
has at most one of `verificationToken` and `passwordResetToken` set. -/
theorem at_most_one_action_token (compare : String → String → Bool) (isEmail : String → Bool)
    (db : Db) (h : Reachable compare isEmail db) : ∀ a ∈ db, atMostOneToken a := by
  intro a ha
  obtain ⟨h1, h2⟩ := reachable_tokenPhase compare isEmail db h a ha
  unfold atMostOneToken
  rintro ⟨hv, hr⟩
  cases hver : a.isVerified with
  | true => exact hv (h1 hver)
  | false => exact hr (h2 hver)

/-- Witness for C6: the account held by the collection after a sign-up at time 0,
the verification of the new account at time 1000 and a forgotten-password
request at time 2000. -/
theorem at_most_one_action_token_witness :
    { demoAccount with
        isVerified := true, accountStatus := some .active,
        passwordResetToken := some (generateAuthToken { uuid := "u-1" } ttl10m 2000),
        passwordResetExpires := some ⟨602000⟩ } ∈
      (forgotEmail
        (verifyEmail (signUp demoIsEmail demoHash none "" [] demoBody "u-1" 0).1 demoOldToken 1000).1
        [] (some "a@x.com") (true, "") 2000).1 ∧
    atMostOneToken
      { demoAccount with
        isVerified := true, accountStatus := some .active,
        passwordResetToken := some (generateAuthToken { uuid := "u-1" } ttl10m 2000),
        passwordResetExpires := some ⟨602000⟩ } :=
  ⟨by decide,
   at_most_one_action_token sameText demoIsEmail _
    (Reachable.forgotEmail _ [] (some "a@x.com") (true, "") 2000
      (Reachable.verifyEmail _ demoOldToken 1000
        (Reachable.signUp [] demoHash none "" demoBody "u-1" 0 Reachable.empty))) _ (by decide)⟩

/-! ## Consuming action tokens -/

/-- C7. The unverified demo account stores `demoStoredToken`.  Presenting the older
verification token it replaced, or the 30-minute session token, both validly
signed and unexpired at time 200000 and both different from the stored token,
makes `verifyEmail` mark the account verified and answer 200. -/
theorem verifyEmail_accepts_token_not_stored :
    demoOldToken ≠ demoStoredToken ∧ demoSessionToken ≠ demoStoredToken ∧
    jwtVerify demoOldToken 200000 = .ok demoOldToken ∧
    jwtVerify demoSessionToken 200000 = .ok demoSessionToken ∧
    verifyEmail demoUnverifiedDb demoOldToken 200000 =
      ([{ demoAccount with isVerified := true, accountStatus := some .active }],
       { code := 200, message := some "Vérification de l\x27email réussie.",
         action := some "verify", status := some "success" }) ∧
    verifyEmail demoUnverifiedDb demoSessionToken 200000 =
      ([{ demoAccount with isVerified := true, accountStatus := some .active }],
       { code := 200, message := some "Vérification de l\x27email réussie.",
         action := some "verify", status := some "success" }) := by
  refine ⟨by decide, by decide, rfl, rfl, by decide, by decide⟩

/-- C8. The verified demo account stores `demoStoredToken` as its reset token.  A
first `verifyPassReset` with that token at time 200000 sets the password and
clears the stored token; a second call presenting the same, still unexpired
token at time 300000 is answered 200 again and replaces the password. -/
theorem verifyPassReset_accepts_token_twice :
    verifyPassReset demoHash demoResetDb demoStoredToken (some "first-pw") (some "first-pw")
        200000 =
      ([{ demoAccount with
            isVerified := true, accountStatus := some .active, password := some "first-pw" }],
       { code := 200, message := some "Mot de passe réinitialisé avec succès.",
         status := some "success" }) ∧
    jwtVerify demoStoredToken 300000 = .ok demoStoredToken ∧
    verifyPassReset demoHash
        [{ demoAccount with
            isVerified := true, accountStatus := some .active, password := some "first-pw" }]
        demoStoredToken (some "second-pw") (some "second-pw") 300000 =
      ([{ demoAccount with
            isVerified := true, accountStatus := some .active, password := some "second-pw" }],
       { code := 200, message := some "Mot de passe réinitialisé avec succès.",
         status := some "success" }) := by
  refine ⟨by decide, rfl, by decide⟩

theorem findOne_set (filter : Account → Bool) (db : Db) (id : Nat) (user v : Account)
    (h : findOne filter db = some (id, user)) (hv : filter v = true) :
    findOne filter (db.set id v) = some (id, v) := by
  induction db generalizing id with
  | nil => simp [findOne] at h
  | cons a rest ih =>
    unfold findOne at h
    by_cases hf : filter a = true
    · simp only [hf, if_true, Option.some.injEq, Prod.mk.injEq] at h
      obtain ⟨h1, _⟩ := h
      subst h1
      simp [findOne, hv]
    · simp only [hf, Bool.false_eq_true, if_false] at h
      cases hr : findOne filter rest with
      | none => simp [hr] at h
      | some r =>
        obtain ⟨j, u⟩ := r
        simp only [hr, Option.map_some', Option.some.injEq, Prod.mk.injEq] at h
        obtain ⟨h1, h2⟩ := h
        subst h1 h2
        simp [findOne, hf, ih j hr]

theorem verifyEmail_of_verified (db : Db) (token : Token) (now : Int) (id : Nat) (user : Account)
    (hv : jwtVerify token now = .ok token)
    (hf : findOne (fun u => u.uuid = token.uuid) db = some (id, user))
    (hu : user.isVerified = true) :
    verifyEmail db token now =
      (db, { code := 200, message := some "Adresse email déjà vérifiée.",
             status := some "success" }) := by
  simp [verifyEmail, hv, hf, hu]

theorem verifyEmail_of_unverified (db : Db) (token : Token) (now : Int) (id : Nat)
    (user : Account) (hv : jwtVerify token now = .ok token)
    (hf : findOne (fun u => u.uuid = token.uuid) db = some (id, user))
    (hu : user.isVerified = false) :
    verifyEmail db token now =
      (db.set id { user with
          isVerified := true, accountStatus := some .active,
          verificationToken := none, verificationExpires := none },
       { code := 200, message := some "Vérification de l\x27email réussie.",
         action := some "verify", status := some "success" }) := by
  have hget := (findOne_some _ db id user hf).1
  simp [verifyEmail, hv, hf, hu, updateOne, hget]

theorem verifyEmail_unchanged_of_invalid (db : Db) (token : Token) (now : Int)
    (h : ∀ t, jwtVerify token now ≠ .ok t) : (verifyEmail db token now).1 = db := by
  unfold verifyEmail
  cases hj : jwtVerify token now with
  | error e => cases e <;> rfl
  | ok t => exact absurd hj (h t)

theorem jwtVerify_ok (token t : Token) (now : Int) (h : jwtVerify token now = .ok t) :
    t = token := by
  unfold jwtVerify at h
  split at h
  · simp at h
  · split at h
    · simp at h
    · simp only [Except.ok.injEq] at h
      exact h.symm

/-- C9. For a validly signed, unexpired token: when its subject is an already
verified account, `verifyEmail` answers 200 `success` and leaves the collection
as it is; and calling `verifyEmail` a second time with the same token, at any
time, leaves the collection as the first call left it. -/
theorem verifyEmail_idempotent (db : Db) (token : Token) (now : Int)
    (hv : jwtVerify token now = .ok token) :
    (∀ id user, findOne (fun u => u.uuid = token.uuid) db = some (id, user) →
      user.isVerified = true →
      verifyEmail db token now =
        (db, { code := 200, message := some "Adresse email déjà vérifiée.",
               status := some "success" })) ∧
    (∀ later, (verifyEmail (verifyEmail db token now).1 token later).1 =
      (verifyEmail db token now).1) := by
  refine ⟨fun id user hf hu => verifyEmail_of_verified db token now id user hv hf hu, ?_⟩
  intro later
  cases hj : jwtVerify token later with
  | error e =>
    apply verifyEmail_unchanged_of_invalid
    intro t ht
    rw [hj] at ht
    cases ht
  | ok t =>
    have ht := jwtVerify_ok token t later hj
    subst ht
    cases hf : findOne (fun u => decide (u.uuid = t.uuid)) db with
    | none =>
      have h1 : (verifyEmail db t now).1 = db := by simp [verifyEmail, hv, hf]
      rw [h1]
      simp [verifyEmail, hj, hf]
    | some r =>
      obtain ⟨id, user⟩ := r
      cases hu : user.isVerified with
      | true =>
        rw [verifyEmail_of_verified db t now id user hv hf hu]
        rw [verifyEmail_of_verified db t later id user hj hf hu]
      | false =>
        rw [verifyEmail_of_unverified db t now id user hv hf hu]
        have hp := (findOne_some _ db id user hf).2
        have hf2 := findOne_set _ db id user
          { user with
            isVerified := true, accountStatus := some .active,
            verificationToken := none, verificationExpires := none } hf (by simpa using hp)
        rw [verifyEmail_of_verified _ t later id _ hj hf2 rfl]

/-- Witness for C9: the verified demo account and the token issued to it at
time 0, presented at time 200000. -/
theorem verifyEmail_idempotent_witness :
    jwtVerify demoOldToken 200000 = .ok demoOldToken ∧
    verifyEmail [{ demoAccount with isVerified := true, accountStatus := some .active }]
        demoOldToken 200000 =
      ([{ demoAccount with isVerified := true, accountStatus := some .active }],
       { code := 200, message := some "Adresse email déjà vérifiée.",
         status := some "success" }) ∧
    (verifyEmail (verifyEmail demoUnverifiedDb demoOldToken 200000).1 demoOldToken 300000).1 =
      (verifyEmail demoUnverifiedDb demoOldToken 200000).1 :=
  ⟨rfl,
   (verifyEmail_idempotent [{ demoAccount with isVerified := true, accountStatus := some .active }]
      demoOldToken 200000 rfl).1 0
      { demoAccount with isVerified := true, accountStatus := some .active } (by decide) rfl,
   (verifyEmail_idempotent demoUnverifiedDb demoOldToken 200000 rfl).2 300000⟩

/-- C10. For a validly signed, unexpired token whose subject is an existing
unverified account, `verifyEmail` answers 200 and sets `isVerified = true`,
`accountStatus = active`, `verificationToken = null` and
`verificationExpires = null` on that account; every other path of that
account and every other document of the collection is unchanged. -/
theorem verifyEmail_frame (db : Db) (token : Token) (now : Int) (id : Nat) (user : Account)
    (hv : jwtVerify token now = .ok token)
    (hf : findOne (fun u => u.uuid = token.uuid) db = some (id, user))
    (hu : user.isVerified = false) :
    db[id]? = some user ∧
    (verifyEmail db token now).2.code = 200 ∧
    (verifyEmail db token now).1[id]? =
      some { user with
        isVerified := true, accountStatus := some .active,
        verificationToken := none, verificationExpires := none } ∧
    (∃ a, (verifyEmail db token now).1[id]? = some a ∧
      a.isVerified = true ∧ a.accountStatus = some .active ∧
      a.verificationToken = none ∧ a.verificationExpires = none ∧
      a.password = user.password ∧ a.refreshToken = user.refreshToken ∧
      a.loginAttempts = user.loginAttempts ∧ a.isLocked = user.isLocked ∧
      a.lockUntil = user.lockUntil ∧ a.passwordResetToken = user.passwordResetToken ∧
      a.passwordResetExpires = user.passwordResetExpires ∧ a.uuid = user.uuid ∧
      a.email = user.email ∧ a.role = user.role ∧ a.lastLogin = user.lastLogin ∧
      a.isOnline = user.isOnline ∧ a.firstName = user.firstName ∧ a.lastName = user.lastName) ∧
    (verifyEmail db token now).1.length = db.length ∧
    (∀ j, j ≠ id → (verifyEmail db token now).1[j]? = db[j]?) := by
  have hget := (findOne_some _ db id user hf).1
  have hlt : id < db.length := (List.getElem?_eq_some.1 hget).1
  rw [verifyEmail_of_unverified db token now id user hv hf hu]
  refine ⟨hget, rfl, ?_, ?_, ?_, ?_⟩
  · simp [List.getElem?_set, hlt]
  · exact ⟨{ user with
        isVerified := true, accountStatus := some .active,
        verificationToken := none, verificationExpires := none },
      by simp [List.getElem?_set, hlt], by simp⟩
  · simp
  · intro j hj
    simp [List.getElem?_set, Ne.symm hj]

/-- Witness for C10: the unverified demo account and its stored token. -/
theorem verifyEmail_frame_witness :
    jwtVerify demoStoredToken 200000 = .ok demoStoredToken ∧
    (verifyEmail demoUnverifiedDb demoStoredToken 200000).2.code = 200 ∧
    (verifyEmail demoUnverifiedDb demoStoredToken 200000).1[0]? =
      some { demoAccount with isVerified := true, accountStatus := some .active } :=
  have h := verifyEmail_frame demoUnverifiedDb demoStoredToken 200000 0
    { demoAccount with
      verificationToken := some demoStoredToken, verificationExpires := some ⟨700000⟩ }
    rfl (by decide) rfl
  ⟨rfl, h.2.1, h.2.2.1⟩

/-! ## Refresh and logout -/

theorem findOne_eq_none (filter : Account → Bool) (db : Db)
    (h : ∀ a ∈ db, filter a = false) : findOne filter db = none := by
  cases hf : findOne filter db with
  | none => rfl
  | some r =>
    obtain ⟨id, user⟩ := r
    obtain ⟨hget, hp⟩ := findOne_some filter db id user hf
    rw [h user (mem_of_get db id user hget)] at hp
    cases hp

theorem uniqueRefreshTokens_index (db : Db) (hu : uniqueRefreshTokens db) (t : Token)
    (i j : Nat) (a b : Account) (ha : db[i]? = some a) (hb : db[j]? = some b)
    (hat : a.refreshToken = some t) (hbt : b.refreshToken = some t) : i = j := by
  obtain ⟨hi, hai⟩ := List.getElem?_eq_some.1 ha
  obtain ⟨hj, hbj⟩ := List.getElem?_eq_some.1 hb
  have hp := List.pairwise_iff_getElem.1 hu
  rcases Nat.lt_trichotomy i j with hlt | heq | hgt
  · have := hp i j hi hj hlt
    rw [hai, hbj, hat, hbt] at this
    simp at this
  · exact heq
  · have := hp j i hj hi hgt
    rw [hai, hbj, hat, hbt] at this
    simp at this

theorem findOne_set_none (db : Db) (hu : uniqueRefreshTokens db) (t : Token) (id : Nat)
    (user v : Account) (hf : findOne (fun u => u.refreshToken = some t) db = some (id, user))
    (hv : v.refreshToken ≠ some t) :
    findOne (fun u => u.refreshToken = some t) (db.set id v) = none := by
  obtain ⟨hget, hp⟩ := findOne_some _ db id user hf
  apply findOne_eq_none
  intro a ha
  obtain ⟨j, hj, hja⟩ := List.getElem_of_mem ha
  by_cases hij : id = j
  · subst hij
    have : a = v := by
      rw [← hja]
      simp
    subst this
    simpa using hv
  · have hja2 : db[j]? = some a := by
      have h1 : (db.set id v)[j]? = some a := List.getElem?_eq_some.2 ⟨hj, hja⟩
      rwa [List.getElem?_set_ne hij] at h1
    by_cases hat : a.refreshToken = some t
    · exact absurd (uniqueRefreshTokens_index db hu t id j user a hget hja2
        (by simpa using hp) hat) hij
    · simpa using hat

/-- C11. A presented refresh token that no account stores, whatever its signature
and expiry, is answered 403 and the collection is unchanged; a request without
the refresh cookie is answered 401 and the collection is unchanged. -/
theorem refresh_unknown_token_forbidden (db : Db) (token : Token) (now : Int)
    (h : ∀ a ∈ db, a.refreshToken ≠ some token) :
    refresh db (some token) now =
      (db, { code := 403, message := some "Accès interdit. Jeton non reconnu.",
             status := some "forbidden" }) ∧
    refresh db none now =
      (db, { code := 401, message := some "Jeton de rafraîchissement manquant.",
             status := some "unauthorized" }) := by
  have hf : findOne (fun u => decide (u.refreshToken = some token)) db = none := by
    apply findOne_eq_none
    intro a ha
    simpa using h a ha
  exact ⟨by simp [refresh, hf], rfl⟩

/-- Witness for C11: the signed-in demo account stores the rotated token; the
login token, validly signed and unexpired at time 6000, is presented. -/
theorem refresh_unknown_token_forbidden_witness :
    jwtVerify demoLoginToken 6000 = .ok demoLoginToken ∧
    refresh [demoSignedIn demoRotatedToken] (some demoLoginToken) 6000 =
      ([demoSignedIn demoRotatedToken],
       { code := 403, message := some "Accès interdit. Jeton non reconnu.",
         status := some "forbidden" }) ∧
    refresh [demoSignedIn demoRotatedToken] none 6000 =
      ([demoSignedIn demoRotatedToken],
       { code := 401, message := some "Jeton de rafraîchissement manquant.",
         status := some "unauthorized" }) :=
  ⟨rfl,
   (refresh_unknown_token_forbidden [demoSignedIn demoRotatedToken] demoLoginToken 6000
      (by decide)).1,
   (refresh_unknown_token_forbidden [demoSignedIn demoRotatedToken] demoLoginToken 6000
      (by decide)).2⟩

theorem refresh_of_success (db : Db) (t : Token) (now : Int) (id : Nat) (user : Account)
    (hf : findOne (fun u => u.refreshToken = some t) db = some (id, user))
    (hv : jwtVerify t now = .ok t) (hid : user.uuid = t.uuid) :
    refresh db (some t) now =
      (db.set id { user with
          refreshToken :=
            some (generateAuthToken { uuid := user.uuid, role := some user.role } ttl1d now) },
       { code := 200,
         accessToken :=
           some (generateAuthToken { uuid := user.uuid, role := some user.role } ttl1d now),
         role := some user.role,
         message := some "Nouveau jeton d\x27accès généré avec succès.",
         status := some "success",
         jwtCookie :=
           some (generateAuthToken { uuid := user.uuid, role := some user.role } ttl1d now) }) := by
  have hget := (findOne_some _ db id user hf).1
  simp [refresh, hf, hv, hid, updateOne, hget]

/-- Counterexample to C12 as stated.  The demo account signs in (login token issued
at time 4000) and refreshes at time 5000, which stores the rotated token.  A
refresh presenting the rotated token at time 5500, in the same clock second,
succeeds and issues the very same token again, so a following refresh
presenting that old token at time 5900 is answered 200 and not 403. -/
theorem refresh_same_second_keeps_token :
    (refresh [demoSignedIn demoLoginToken] (some demoLoginToken) 5000).1 =
      [demoSignedIn demoRotatedToken] ∧
    refresh [demoSignedIn demoRotatedToken] (some demoRotatedToken) 5500 =
      ([demoSignedIn demoRotatedToken],
       { code := 200, accessToken := some demoRotatedToken, role := some .user,
         message := some "Nouveau jeton d\x27accès généré avec succès.",
         status := some "success", jwtCookie := some demoRotatedToken }) ∧
    (refresh (refresh [demoSignedIn demoRotatedToken] (some demoRotatedToken) 5500).1
      (some demoRotatedToken) 5900).2.code = 200 := by
  refine ⟨by decide, by decide, by decide⟩

/-- C12 (amended). Whenever `refresh` succeeds for the presented token `t` on account
`A` (the account storing `t`, with `t` accepted by `jwt.verify` and carrying the
uuid of `A`), the stored `refreshToken` of `A` afterwards is the newly issued
one-day token, which is also the `accessToken` of the response and the value of
the `jwt` cookie; and when that new token differs from `t`, every following
refresh presenting `t` is answered 403 and changes nothing. -/
theorem refresh_rotation (db : Db) (t : Token) (now : Int) (id : Nat) (user : Account)
    (hu : uniqueRefreshTokens db)
    (hf : findOne (fun u => u.refreshToken = some t) db = some (id, user))
    (hv : jwtVerify t now = .ok t) (hid : user.uuid = t.uuid) :
    db[id]? = some user ∧
    (refresh db (some t) now).2.code = 200 ∧
    (refresh db (some t) now).2.accessToken =
      some (generateAuthToken { uuid := user.uuid, role := some user.role } ttl1d now) ∧
    (refresh db (some t) now).2.jwtCookie =
      some (generateAuthToken { uuid := user.uuid, role := some user.role } ttl1d now) ∧
    (refresh db (some t) now).1[id]? =
      some { user with
        refreshToken :=
          some (generateAuthToken { uuid := user.uuid, role := some user.role } ttl1d now) } ∧
    (generateAuthToken { uuid := user.uuid, role := some user.role } ttl1d now ≠ t →
      ∀ later, refresh (refresh db (some t) now).1 (some t) later =
        ((refresh db (some t) now).1,
         { code := 403, message := some "Accès interdit. Jeton non reconnu.",
           status := some "forbidden" })) := by
  have hget := (findOne_some _ db id user hf).1
  have hlt : id < db.length := (List.getElem?_eq_some.1 hget).1
  rw [refresh_of_success db t now id user hf hv hid]
  refine ⟨hget, rfl, rfl, rfl, by simp [List.getElem?_set, hlt], ?_⟩
  intro hne later
  have hnone := findOne_set_none db hu t id user
    { user with
      refreshToken :=
        some (generateAuthToken { uuid := user.uuid, role := some user.role } ttl1d now) } hf
    (by simpa using hne)
  simp only [refresh, hnone]

/-- Witness for C12 (amended): the demo account refreshes its login token at time
5000; the login token presented again at time 6000 is refused. -/
theorem refresh_rotation_witness :
    uniqueRefreshTokens [demoSignedIn demoLoginToken] ∧
    jwtVerify demoLoginToken 5000 = .ok demoLoginToken ∧
    (refresh [demoSignedIn demoLoginToken] (some demoLoginToken) 5000).2.accessToken =
      some demoRotatedToken ∧
    (refresh [demoSignedIn demoLoginToken] (some demoLoginToken) 5000).1[0]? =
      some (demoSignedIn demoRotatedToken) ∧
    refresh (refresh [demoSignedIn demoLoginToken] (some demoLoginToken) 5000).1
        (some demoLoginToken) 6000 =
      ((refresh [demoSignedIn demoLoginToken] (some demoLoginToken) 5000).1,
       { code := 403, message := some "Accès interdit. Jeton non reconnu.",
         status := some "forbidden" }) :=
  have h := refresh_rotation [demoSignedIn demoLoginToken] demoLoginToken 5000 0
    (demoSignedIn demoLoginToken) (by simp [uniqueRefreshTokens]) (by decide) rfl rfl
  ⟨by simp [uniqueRefreshTokens], rfl, h.2.2.1, h.2.2.2.2.1, h.2.2.2.2.2 (by decide) 6000⟩

/-- C13. `logout` presenting a refresh token `t` stored on account `A` answers 204,
unsets the `refreshToken` of `A` and changes nothing else: every other path of
`A` and every other document is unchanged, and a following `refresh` presenting
`t` is answered 403.  (`uniqueRefreshTokens` is the unique index of the schema.) -/
theorem logout_frame (db : Db) (session : Session) (t : Token) (id : Nat) (user : Account)
    (hu : uniqueRefreshTokens db)
    (hf : findOne (fun u => u.refreshToken = some t) db = some (id, user)) :
    db[id]? = some user ∧
    (logout db session (some t)).2.2.code = 204 ∧
    (logout db session (some t)).1[id]? = some { user with refreshToken := none } ∧
    (∃ a, (logout db session (some t)).1[id]? = some a ∧ a.refreshToken = none ∧
      a.uuid = user.uuid ∧ a.firstName = user.firstName ∧ a.lastName = user.lastName ∧
      a.email = user.email ∧ a.password = user.password ∧ a.isVerified = user.isVerified ∧
      a.role = user.role ∧ a.verificationToken = user.verificationToken ∧
      a.verificationExpires = user.verificationExpires ∧
      a.passwordResetToken = user.passwordResetToken ∧
      a.passwordResetExpires = user.passwordResetExpires ∧
      a.loginAttempts = user.loginAttempts ∧ a.isLocked = user.isLocked ∧
      a.lockUntil = user.lockUntil ∧ a.lastLogin = user.lastLogin ∧
      a.isOnline = user.isOnline ∧ a.accountStatus = user.accountStatus) ∧
    (logout db session (some t)).1.length = db.length ∧
    (∀ j, j ≠ id → (logout db session (some t)).1[j]? = db[j]?) ∧
    (∀ now, refresh (logout db session (some t)).1 (some t) now =
      ((logout db session (some t)).1,
       { code := 403, message := some "Accès interdit. Jeton non reconnu.",
         status := some "forbidden" })) := by
  have hget := (findOne_some _ db id user hf).1
  have hlt : id < db.length := (List.getElem?_eq_some.1 hget).1
  have hl : logout db session (some t) =
      (db.set id { user with refreshToken := none }, [],
       { code := 204, clearedCookies := ["jwt", "XSRF", "session"] }) := by
    simp [logout, hf, updateOne, hget]
  rw [hl]
  refine ⟨hget, rfl, by simp [List.getElem?_set, hlt], ?_, by simp, ?_, ?_⟩
  · refine ⟨{ user with refreshToken := none }, by simp [List.getElem?_set, hlt], ?_⟩
    simp
  · intro j hj
    simp [List.getElem?_set, Ne.symm hj]
  · intro now
    have hnone := findOne_set_none db hu t id user { user with refreshToken := none } hf
      (by simp)
    simp only [refresh, hnone]

/-- Witness for C13: the signed-in demo account logs out with its stored token. -/
theorem logout_frame_witness :
    uniqueRefreshTokens [demoSignedIn demoLoginToken] ∧
    (logout [demoSignedIn demoLoginToken] [] (some demoLoginToken)).2.2.code = 204 ∧
    (logout [demoSignedIn demoLoginToken] [] (some demoLoginToken)).1[0]? =
      some { demoAccount with isVerified := true, accountStatus := some .active } ∧
    refresh (logout [demoSignedIn demoLoginToken] [] (some demoLoginToken)).1
        (some demoLoginToken) 6000 =
      ((logout [demoSignedIn demoLoginToken] [] (some demoLoginToken)).1,
       { code := 403, message := some "Accès interdit. Jeton non reconnu.",
         status := some "forbidden" }) :=
  have h := logout_frame [demoSignedIn demoLoginToken] [] demoLoginToken 0
    (demoSignedIn demoLoginToken) (by simp [uniqueRefreshTokens]) (by decide)
  ⟨by simp [uniqueRefreshTokens], h.2.1, h.2.2.1, h.2.2.2.2.2.2 6000⟩

/-- Counterexample to C14 as stated: a logout request without the refresh cookie is
answered 403 `Token missing`, not 204. -/
theorem logout_without_cookie_is_403 :
    logout [demoSignedIn demoLoginToken] [] none =
      ([demoSignedIn demoLoginToken], [], { code := 403, message := some "Token missing" }) ∧
    (logout [demoSignedIn demoLoginToken] [] none).2.2.code ≠ 204 := by
  refine ⟨by decide, by decide⟩

/-- C14 (amended). A logout request whose refresh token matches no account is
answered 204 and leaves every account as it is; a request without the refresh
cookie is answered 403 `Token missing`, also without touching any account or
the session record. -/
theorem logout_unknown_token (db : Db) (session : Session) (token : Token)
    (h : ∀ a ∈ db, a.refreshToken ≠ some token) :
    logout db session (some token) =
      (db, [], { code := 204, clearedCookies := ["jwt", "XSRF", "session"] }) ∧
    logout db session none = (db, session, { code := 403, message := some "Token missing" }) := by
  have hf : findOne (fun u => decide (u.refreshToken = some token)) db = none := by
    apply findOne_eq_none
    intro a ha
    simpa using h a ha
  exact ⟨by simp [logout, hf], rfl⟩

/-- Witness for C14 (amended): the demo account stores the rotated token and the
login token is presented. -/
theorem logout_unknown_token_witness :
    logout [demoSignedIn demoRotatedToken] [] (some demoLoginToken) =
      ([demoSignedIn demoRotatedToken], [],
       { code := 204, clearedCookies := ["jwt", "XSRF", "session"] }) ∧
    logout [demoSignedIn demoRotatedToken] [] none =
      ([demoSignedIn demoRotatedToken], [], { code := 403, message := some "Token missing" }) :=
  logout_unknown_token [demoSignedIn demoRotatedToken] [] demoLoginToken (by decide)

/-! ## Sign-in -/

theorem localStrategy_ok (compare : String → String → Bool) (db db1 : Db)
    (email password : String) (currentTime : Int) (id : Nat) (user : Account)
    (h : localStrategy compare db email password currentTime = (db1, .ok id user)) :
    ∃ u, db[id]? = some u ∧
      db1 = db.set id (localStrategy.onUser compare id u password currentTime).1 ∧
      (localStrategy.onUser compare id u password currentTime).2 = .ok id user := by
  unfold localStrategy at h
  by_cases he : email = "" ∨ password = ""
  · simp [he] at h
  · simp only [he, if_false] at h
    cases hf : findOne (fun u => decide (u.email = jsTrim email)) db with
    | none => simp [hf] at h
    | some r =>
      obtain ⟨id0, u⟩ := r
      obtain ⟨hget, _⟩ := findOne_some _ db id0 u hf
      simp only [hf, Prod.mk.injEq] at h
      obtain ⟨h1, h2⟩ := h
      have hid := (onUser_ok compare id0 u password currentTime id user h2).1
      subst hid
      exact ⟨u, hget, h1.symm, h2⟩

theorem refreshToken_set (db : Db) (id : Nat) (u v : Account) (hget : db[id]? = some u)
    (hv : v.refreshToken = u.refreshToken) (j : Nat) :
    ((db.set id v)[j]?).map (fun a : Account => a.refreshToken) = (db[j]?).map (fun a : Account => a.refreshToken) := by
  have hlt : id < db.length := (List.getElem?_eq_some.1 hget).1
  by_cases hj : id = j
  · subst hj
    simp [List.getElem?_set, hlt, hget, hv]
  · simp [List.getElem?_set, hj]

/-- C15. For a sign-in whose credentials pass the credential verifier, which hands
back the document `user` with `_id` `id`: if the account is verified, `signin`
answers 200 with a one-hour access token, stores the seven-day refresh token it
issued as the `refreshToken` of the account, sets that same token in the `jwt`
cookie and sets `lastLogin` to the time of the request; if the account is not
verified, it answers `verification_required` with no access token and no `jwt`
cookie, and every stored `refreshToken` is as it was before the request. -/
theorem signin_after_verifier (compare : String → String → Bool) (db db1 : Db)
    (email password : String) (now : Int) (id : Nat) (user : Account)
    (h : localStrategy compare db email password now = (db1, .ok id user)) :
    (user.isVerified = true →
      ∃ b, db1[id]? = some b ∧
        signin compare db email password now =
          (db1.set id { b with
              refreshToken := some (generateAuthToken
                { uuid := user.uuid, role := some user.role, iat := some (now / 1000) } ttl7d now)
              lastLogin := some ⟨now⟩
              isOnline := true },
           { code := 200, data := some (user.role, user.uuid),
             accessToken := some (generateAuthToken
                { uuid := user.uuid, role := some user.role, iat := some (now / 1000) } ttl1h now),
             redirectUrl := some "/ai/dashboard", message := some "Login successful.",
             status := some "success",
             jwtCookie := some (generateAuthToken
                { uuid := user.uuid, role := some user.role, iat := some (now / 1000) }
                ttl7d now) })) ∧
    (user.isVerified = false →
      (signin compare db email password now).2.code = 200 ∧
      (signin compare db email password now).2.status = some "verification_required" ∧
      (signin compare db email password now).2.accessToken = none ∧
      (signin compare db email password now).2.jwtCookie = none ∧
      ∀ j : Nat, ((signin compare db email password now).1[j]?).map (fun a : Account => a.refreshToken) =
        (db[j]?).map (fun a : Account => a.refreshToken)) := by
  obtain ⟨u, hget, hdb1, _⟩ := localStrategy_ok compare db db1 email password now id user h
  have hlt : id < db.length := (List.getElem?_eq_some.1 hget).1
  have hfr := onUser_frame compare id u password now
  have hb : db1[id]? = some (localStrategy.onUser compare id u password now).1 := by
    rw [hdb1]
    simp [List.getElem?_set, hlt]
  have hkeep : ∀ j : Nat, (db1[j]?).map (fun a : Account => a.refreshToken) =
      (db[j]?).map (fun a : Account => a.refreshToken) := by
    intro j
    rw [hdb1]
    exact refreshToken_set db id u _ hget hfr.2.2.2.2.2.2.2.2.2.2.2.1 j
  refine ⟨?_, ?_⟩
  · intro hv
    refine ⟨_, hb, ?_⟩
    simp [signin, h, hv, updateOne, hb]
  · intro hv
    refine ⟨?_, ?_, ?_, ?_, ?_⟩
    · simp [signin, h, hv]
    · simp [signin, h, hv]
    · simp [signin, h, hv]
    · simp [signin, h, hv]
    · intro j
      simp only [signin, h, hv, if_true]
      split
      · simp only [updateOne, hb]
        refine Eq.trans ?_ (hkeep j)
        apply refreshToken_set db1 id (localStrategy.onUser compare id u password now).1 _ hb
        rfl
      · exact hkeep j

/-- Witness for C15: the verified and the unverified demo account sign in with
the correct password at time 5000. -/
theorem signin_after_verifier_witness :
    localStrategy sameText [{ demoAccount with isVerified := true }] "a@x.com" "pw123456" 5000 =
      ([{ demoAccount with isVerified := true }],
       .ok 0 { demoAccount with
                isVerified := true, password := none, loginAttempts := none }) ∧
    signin sameText [{ demoAccount with isVerified := true }] "a@x.com" "pw123456" 5000 =
      ([{ demoAccount with
            isVerified := true
            refreshToken := some (generateAuthToken
              { uuid := "u-1", role := some .user, iat := some 5 } ttl7d 5000)
            lastLogin := some ⟨5000⟩
            isOnline := true }],
       { code := 200, data := some (.user, "u-1"),
         accessToken := some (generateAuthToken
           { uuid := "u-1", role := some .user, iat := some 5 } ttl1h 5000),
         redirectUrl := some "/ai/dashboard", message := some "Login successful.",
         status := some "success",
         jwtCookie := some (generateAuthToken
           { uuid := "u-1", role := some .user, iat := some 5 } ttl7d 5000) }) ∧
    (signin sameText demoUnverifiedDb "a@x.com" "pw123456" 5000).2.status =
      some "verification_required" ∧
    (signin sameText demoUnverifiedDb "a@x.com" "pw123456" 5000).2.accessToken = none ∧
    (signin sameText demoUnverifiedDb "a@x.com" "pw123456" 5000).2.jwtCookie = none :=
  have h1 := (signin_after_verifier sameText [{ demoAccount with isVerified := true }]
    [{ demoAccount with isVerified := true }] "a@x.com" "pw123456" 5000 0
    { demoAccount with isVerified := true, password := none, loginAttempts := none }
    (by decide)).1 rfl
  have h2 := (signin_after_verifier sameText demoUnverifiedDb demoUnverifiedDb
    "a@x.com" "pw123456" 5000 0
    { demoAccount with
      verificationToken := some demoStoredToken, verificationExpires := some ⟨700000⟩,
      password := none, loginAttempts := none }
    (by decide)).2 rfl
  ⟨by decide, by
    obtain ⟨b, hb, hs⟩ := h1
    rw [hs]
    have hb2 : b = { demoAccount with isVerified := true } := by
      simpa using hb.symm
    subst hb2
    decide, h2.2.1, h2.2.2.1, h2.2.2.2.1⟩

/-! ## Password reset validation -/

theorem handleValidation_resetPass (password : String) (passwordConfirm : Option String) :
    handleValidation validatorResetPass (some password, passwordConfirm) =
      (if jsLength password < 6 ∨ passwordConfirm ≠ some password then
        some ((if jsLength password < 6 then
                [("password", if password = "" then "\"Password\" is not allowed to be empty"
                              else "Password must length should be greather than 6")]
               else [])
          ++ (if passwordConfirm ≠ some password then
                [("passwordConfirm", if passwordConfirm = none then
                    "\"Password Confirmation\" is required"
                    else "Password doesn\x27t correspond")]
              else []))
      else none) := by
  have h0 : jsLength "" = 0 := rfl
  by_cases he : password = ""
  · subst he
    cases passwordConfirm with
    | none => simp [handleValidation, validatorResetPass, joiResult, stringMinDetails, h0, objAssign]
    | some c =>
      by_cases hc : (some "" : Option String) = some c
      · have hc2 : c = "" := by
          cases hc
          rfl
        subst hc2
        simp [handleValidation, validatorResetPass, joiResult, stringMinDetails, h0, objAssign]
      · have hc3 : ¬ c = "" := fun h => hc (by rw [h])
        have hc4 : ¬ "" = c := fun h => hc (by rw [h])
        simp [handleValidation, validatorResetPass, joiResult, stringMinDetails, h0, objAssign,
          hc3, hc4]
  · by_cases hl : jsLength password < 6
    · cases passwordConfirm with
      | none =>
        simp [handleValidation, validatorResetPass, joiResult, stringMinDetails, he, hl, objAssign]
      | some c =>
        by_cases hc : password = c
        · subst hc
          simp [handleValidation, validatorResetPass, joiResult, stringMinDetails, he, hl, objAssign]
        · have hc2 : ¬ c = password := fun h => hc h.symm
          simp [handleValidation, validatorResetPass, joiResult, stringMinDetails, he, hl,
            objAssign, hc, hc2]
    · cases passwordConfirm with
      | none =>
        simp [handleValidation, validatorResetPass, joiResult, stringMinDetails, he, hl, objAssign]
      | some c =>
        by_cases hc : password = c
        · subst hc
          simp [handleValidation, validatorResetPass, joiResult, stringMinDetails, he, hl, objAssign]
        · have hc2 : ¬ c = password := fun h => hc h.symm
          simp [handleValidation, validatorResetPass, joiResult, stringMinDetails, he, hl,
            objAssign, hc, hc2]

/-- C16. For a token accepted by `jwt.verify` whose subject is an existing account,
`verifyPassReset` called with a password of fewer than six characters
(JavaScript string length, as `Joi.string().min(6)` counts) or with a
`passwordConfirm` different from the password answers 400 with an `errors`
object whose keys are exactly the offending fields among `password` and
`passwordConfirm`, and leaves the collection, hence the password and the reset
token and expiry of the account, as they were. -/
theorem verifyPassReset_rejects_invalid (hash : String → String) (db : Db) (token : Token)
    (password : String) (passwordConfirm : Option String) (now : Int) (id : Nat)
    (user : Account) (hv : jwtVerify token now = .ok token)
    (hf : findOne (fun u => u.uuid = token.uuid) db = some (id, user))
    (hbad : jsLength password < 6 ∨ passwordConfirm ≠ some password) :
    ∃ errors,
      verifyPassReset hash db token (some password) passwordConfirm now =
        (db, { code := 400, errors := some errors,
               message := some "Erreur de validation des champs." }) ∧
      ((∃ m, ("password", m) ∈ errors) ↔ jsLength password < 6) ∧
      ((∃ m, ("passwordConfirm", m) ∈ errors) ↔ passwordConfirm ≠ some password) ∧
      (∀ k m, (k, m) ∈ errors → k = "password" ∨ k = "passwordConfirm") ∧
      db[id]? = some user := by
  have hget := (findOne_some _ db id user hf).1
  have hh := handleValidation_resetPass password passwordConfirm
  rw [if_pos hbad] at hh
  refine ⟨(if jsLength password < 6 then
        [("password", if password = "" then "\"Password\" is not allowed to be empty"
                      else "Password must length should be greather than 6")]
       else [])
      ++ (if passwordConfirm ≠ some password then
            [("passwordConfirm", if passwordConfirm = none then
                "\"Password Confirmation\" is required"
                else "Password doesn\x27t correspond")]
          else []), ?_, ?_, ?_, ?_, hget⟩
  · simp only [verifyPassReset, hv, hf, hh]
  · by_cases h1 : jsLength password < 6 <;> by_cases h2 : passwordConfirm ≠ some password <;>
      simp [h1, h2]
  · by_cases h1 : jsLength password < 6 <;> by_cases h2 : passwordConfirm ≠ some password <;>
      simp [h1, h2]
  · intro k m hk
    by_cases h1 : jsLength password < 6 <;> by_cases h2 : passwordConfirm ≠ some password <;>
      simp [h1, h2] at hk <;> first | exact Or.inl hk.1 | exact Or.inr hk.1 | skip
    rcases hk with hk | hk
    · exact Or.inl hk.1
    · exact Or.inr hk.1

/-- Witness for C16: the demo account with a stored reset token, a five-character
password and a different confirmation. -/
theorem verifyPassReset_rejects_invalid_witness :
    jwtVerify demoStoredToken 200000 = .ok demoStoredToken ∧
    jsLength "short" < 6 ∧
    verifyPassReset demoHash demoResetDb demoStoredToken (some "short") (some "other") 200000 =
      (demoResetDb,
       { code := 400,
         errors := some [("password", "Password must length should be greather than 6"),
                         ("passwordConfirm", "Password doesn\x27t correspond")],
         message := some "Erreur de validation des champs." }) := by
  obtain ⟨errors, h, _⟩ := verifyPassReset_rejects_invalid demoHash demoResetDb demoStoredToken
    "short" (some "other") 200000 0
    { demoAccount with
      isVerified := true, accountStatus := some .active,
      passwordResetToken := some demoStoredToken, passwordResetExpires := some ⟨700000⟩ }
    rfl (by decide) (Or.inl (by decide))
  exact ⟨rfl, by decide, by decide⟩

/-! ## Requesting an action token -/

theorem mathCeilDiv_eq_ceil (a b : Int) (hb : 0 < b) : mathCeilDiv a b = ⌈(a : ℚ) / b⌉ := by
  obtain ⟨n, rfl⟩ := Int.eq_ofNat_of_zero_le hb.le
  have h := Rat.floor_intCast_div_natCast (-a) n
  unfold mathCeilDiv
  rw [← h, ← Int.ceil_neg]
  congr 1
  push_cast
  ring

theorem handleValidation_forgot (e : String) (he : e ≠ "") :
    handleValidation validatorForgot (some e) = none := by
  simp [handleValidation, validatorForgot, joiResult, he]

theorem forgotEmail_of_cooldown (db : Db) (session : Session) (e : String)
    (emailStatus : Bool × String) (now : Int) (id : Nat) (user : Account) (t : Int)
    (he : e ≠ "") (hf : findOne (fun u => some u.email = some (jsTrim e)) db = some (id, user))
    (ht : session.get user.uuid = some t) (h0 : t ≠ 0) (hlt : now < t + 60000) :
    forgotEmail db session (some e) emailStatus now =
      (db, session,
       { code := 429,
         message := some ("Veuillez patienter " ++ toString (mathCeilDiv (t + 60000 - now) 1000)
           ++ " secondes avant de redemander un lien."),
         status := some "failure",
         cooldown := some ((mathCeilDiv (t + 60000 - now) 1000 : Int) : ℚ) }) := by
  unfold forgotEmail
  simp only [handleValidation_forgot e he, Option.map_some', hf, ht]
  simp [h0, hlt]

theorem forgotEmail_of_pass (db : Db) (session : Session) (e : String)
    (emailStatus : Bool × String) (now : Int) (id : Nat) (user : Account)
    (he : e ≠ "") (hf : findOne (fun u => some u.email = some (jsTrim e)) db = some (id, user))
    (hpass : cooldownPassed session user.uuid now) :
    forgotEmail db session (some e) emailStatus now =
      (db.set id
        (if user.isVerified = false then
          setVerificationPair (generateAuthToken { uuid := user.uuid } ttl10m now)
            (now + 10 * 60 * 1000) user
         else
          setResetPair (generateAuthToken { uuid := user.uuid } ttl10m now)
            (now + 10 * 60 * 1000) user),
       if emailStatus.1 = false then session else session.assign user.uuid now,
       if emailStatus.1 = false then
         { code := 500, message := some emailStatus.2, status := some "failure" }
       else
         { code := 200,
           message := some (if user.isVerified = false then
             "Un lien de vérification a été envoyé à l\x27adresse " ++ user.email
               ++ ". Vérifiez aussi vos courriers indésirables."
             else
             "Un lien de réinitialisation a été envoyé à l\x27adresse " ++ user.email
               ++ ". Vérifiez aussi vos courriers indésirables."),
           redirectUrl := some ("/auth/notifications/" ++ user.uuid),
           status := some "success",
           emailType := some (if user.isVerified = false then "verification" else "reset"),
           authCookie := some (generateAuthToken { uuid := user.uuid } ttl30m now) }) := by
  have hget := (findOne_some _ db id user hf).1
  have hc : (match session.get user.uuid with
      | some t => decide (t ≠ 0) && decide (now < t + 60000)
      | none => false) = false := by
    cases hs : session.get user.uuid with
    | none => rfl
    | some t =>
      rcases hpass t hs with h | h
      · simp [h]
      · have : ¬ now < t + 60000 := by omega
        simp [this]
  unfold forgotEmail
  simp only [handleValidation_forgot e he, Option.map_some', hf, hc]
  cases hv : user.isVerified <;> cases hs : emailStatus.1 <;>
    simp [updateOne, hget]

theorem forgotEmail_pass_code (db : Db) (session : Session) (e : String)
    (emailStatus : Bool × String) (now : Int) (id : Nat) (user : Account)
    (he : e ≠ "") (hf : findOne (fun u => some u.email = some (jsTrim e)) db = some (id, user))
    (hpass : cooldownPassed session user.uuid now) :
    (forgotEmail db session (some e) emailStatus now).2.2.code ≠ 429 := by
  rw [forgotEmail_of_pass db session e emailStatus now id user he hf hpass]
  cases emailStatus.1 <;> simp

/-- C17. In `forgotEmail`, for an existing account whose session cooldown record
holds the time `t` of the last issue (a clock reading after the epoch and not
after `now`): if `now < t + 60000` the request is answered 429 with
`cooldown = ceil((t + 60000 - now) / 1000)`, a number from 1 to 60 which is 30
when `now = t + 30000`, and the collection and the record are unchanged; if
`now >= t + 60000`, or the record holds nothing for the account, the request is
not answered 429. -/
theorem forgotEmail_cooldown_window (db : Db) (session : Session) (e : String)
    (emailStatus : Bool × String) (now : Int) (id : Nat) (user : Account) (t : Int)
    (he : e ≠ "") (hf : findOne (fun u => some u.email = some (jsTrim e)) db = some (id, user))
    (ht : session.get user.uuid = some t) (h0 : 0 < t) (hle : t ≤ now) :
    (now < t + 60000 →
      (forgotEmail db session (some e) emailStatus now).1 = db ∧
      (forgotEmail db session (some e) emailStatus now).2.1 = session ∧
      (forgotEmail db session (some e) emailStatus now).2.2.code = 429 ∧
      (forgotEmail db session (some e) emailStatus now).2.2.cooldown =
        some ((⌈((t + 60000 - now : Int) : ℚ) / 1000⌉ : Int) : ℚ) ∧
      1 ≤ ⌈((t + 60000 - now : Int) : ℚ) / 1000⌉ ∧
      ⌈((t + 60000 - now : Int) : ℚ) / 1000⌉ ≤ 60 ∧
      (now = t + 30000 → ⌈((t + 60000 - now : Int) : ℚ) / 1000⌉ = 30)) ∧
    (t + 60000 ≤ now → (forgotEmail db session (some e) emailStatus now).2.2.code ≠ 429) ∧
    (∀ session1 : Session, session1.get user.uuid = none →
      (forgotEmail db session1 (some e) emailStatus now).2.2.code ≠ 429) := by
  have hceil : (⌈((t + 60000 - now : Int) : ℚ) / 1000⌉ : Int) =
      mathCeilDiv (t + 60000 - now) 1000 := by
    have := mathCeilDiv_eq_ceil (t + 60000 - now) 1000 (by norm_num)
    rw [this]
    norm_num
  refine ⟨?_, ?_, ?_⟩
  · intro hlt
    rw [forgotEmail_of_cooldown db session e emailStatus now id user t he hf ht (by omega) hlt,
      hceil]
    refine ⟨rfl, rfl, rfl, rfl, ?_, ?_, ?_⟩
    · unfold mathCeilDiv
      omega
    · unfold mathCeilDiv
      omega
    · intro h
      unfold mathCeilDiv
      omega
  · intro hge
    apply forgotEmail_pass_code db session e emailStatus now id user he hf
    intro t1 ht1
    rw [ht] at ht1
    cases ht1
    exact Or.inr hge
  · intro session1 hnone
    apply forgotEmail_pass_code db session1 e emailStatus now id user he hf
    intro t1 ht1
    rw [hnone] at ht1
    cases ht1

/-- Witness for C17: the demo account, last issue at time 100000, asked again
30 seconds later. -/
theorem forgotEmail_cooldown_window_witness :
    (forgotEmail demoUnverifiedDb [("u-1", 100000)] (some "a@x.com") (true, "") 130000).1 =
      demoUnverifiedDb ∧
    (forgotEmail demoUnverifiedDb [("u-1", 100000)] (some "a@x.com") (true, "") 130000).2.2.code =
      429 ∧
    (forgotEmail demoUnverifiedDb [("u-1", 100000)] (some "a@x.com") (true, "")
      130000).2.2.cooldown =
      some ((⌈(((100000 : Int) + 60000 - 130000 : Int) : ℚ) / 1000⌉ : Int) : ℚ) ∧
    ⌈(((100000 : Int) + 60000 - 130000 : Int) : ℚ) / 1000⌉ = 30 :=
  have h := (forgotEmail_cooldown_window demoUnverifiedDb [("u-1", 100000)] "a@x.com"
    (true, "") 130000 0
    { demoAccount with
      verificationToken := some demoStoredToken, verificationExpires := some ⟨700000⟩ }
    100000 (by decide) (by decide) (by decide) (by decide) (by decide)).1 (by decide)
  ⟨h.1, h.2.2.1, h.2.2.2.1, h.2.2.2.2.2.2 (by decide)⟩

/-- C18. When `forgotEmail` passes validation, lookup and cooldown at time `now`,
the action kind is `verification` when the account is not verified and `reset`
otherwise: the persisted account has the token of that kind set to the token
issued for ten minutes at `now` and its expiry set to `now + 600000`, and both
paths of the other kind unset; a 200 response names the kind in `emailType`. -/
theorem forgotEmail_sets_one_pair (db : Db) (session : Session) (e : String)
    (emailStatus : Bool × String) (now : Int) (id : Nat) (user : Account)
    (he : e ≠ "") (hf : findOne (fun u => some u.email = some (jsTrim e)) db = some (id, user))
    (hpass : cooldownPassed session user.uuid now) :
    db[id]? = some user ∧
    (generateAuthToken { uuid := user.uuid } ttl10m now).exp =
      (generateAuthToken { uuid := user.uuid } ttl10m now).iat + 600 ∧
    (user.isVerified = false →
      (forgotEmail db session (some e) emailStatus now).1[id]? =
        some { user with
          verificationToken := some (generateAuthToken { uuid := user.uuid } ttl10m now)
          verificationExpires := some ⟨now + 600000⟩
          passwordResetToken := none
          passwordResetExpires := none } ∧
      (emailStatus.1 = true →
        (forgotEmail db session (some e) emailStatus now).2.2.emailType = some "verification")) ∧
    (user.isVerified = true →
      (forgotEmail db session (some e) emailStatus now).1[id]? =
        some { user with
          passwordResetToken := some (generateAuthToken { uuid := user.uuid } ttl10m now)
          passwordResetExpires := some ⟨now + 600000⟩
          verificationToken := none
          verificationExpires := none } ∧
      (emailStatus.1 = true →
        (forgotEmail db session (some e) emailStatus now).2.2.emailType = some "reset")) := by
  have hget := (findOne_some _ db id user hf).1
  have hlt : id < db.length := (List.getElem?_eq_some.1 hget).1
  rw [forgotEmail_of_pass db session e emailStatus now id user he hf hpass]
  refine ⟨hget, rfl, ?_, ?_⟩
  · intro hv
    refine ⟨?_, ?_⟩
    · simp [hv, List.getElem?_set, hlt, setVerificationPair]
    · intro hs
      simp [hv, hs]
  · intro hv
    refine ⟨?_, ?_⟩
    · simp [hv, List.getElem?_set, hlt, setResetPair]
    · intro hs
      simp [hv, hs]

/-- Witness for C18: the verified demo account asks for a link at time 2000. -/
theorem forgotEmail_sets_one_pair_witness :
    cooldownPassed [] "u-1" 2000 ∧
    (forgotEmail [{ demoAccount with isVerified := true }] [] (some "a@x.com") (true, "")
      2000).1[0]? =
      some { demoAccount with
        isVerified := true
        passwordResetToken := some (generateAuthToken { uuid := "u-1" } ttl10m 2000)
        passwordResetExpires := some ⟨602000⟩ } ∧
    (forgotEmail [{ demoAccount with isVerified := true }] [] (some "a@x.com") (true, "")
      2000).2.2.emailType = some "reset" :=
  have hp : cooldownPassed [] "u-1" 2000 := fun t ht => by simp [Session.get] at ht
  have h := (forgotEmail_sets_one_pair [{ demoAccount with isVerified := true }] []
    "a@x.com" (true, "") 2000 0 { demoAccount with isVerified := true }
    (by decide) (by decide) hp).2.2.2 rfl
  ⟨hp, h.1, h.2 rfl⟩

/-- C19. In `forgotEmail`, when the request reaches the mail transport and the
transport reports failure, the response is 500 with status `failure`, the newly
issued action token and its expiry stay persisted on the account, and the
session cooldown record is unchanged, so that a retry at the same or a later
time is not answered 429. -/
theorem forgotEmail_dispatch_failure (db : Db) (session : Session) (e : String)
    (message : String) (now : Int) (id : Nat) (user : Account)
    (he : e ≠ "") (hf : findOne (fun u => some u.email = some (jsTrim e)) db = some (id, user))
    (hpass : cooldownPassed session user.uuid now) :
    (forgotEmail db session (some e) (false, message) now).2.2 =
      { code := 500, message := some message, status := some "failure" } ∧
    (forgotEmail db session (some e) (false, message) now).2.1 = session ∧
    (forgotEmail db session (some e) (false, message) now).1[id]? =
      some (if user.isVerified = false then
          setVerificationPair (generateAuthToken { uuid := user.uuid } ttl10m now)
            (now + 600000) user
        else
          setResetPair (generateAuthToken { uuid := user.uuid } ttl10m now)
            (now + 600000) user) ∧
    (∀ (later : Int) (emailStatus : Bool × String), now ≤ later →
      (forgotEmail (forgotEmail db session (some e) (false, message) now).1
        (forgotEmail db session (some e) (false, message) now).2.1
        (some e) emailStatus later).2.2.code ≠ 429) := by
  have hget := (findOne_some _ db id user hf).1
  have hp := (findOne_some _ db id user hf).2
  have hlt : id < db.length := (List.getElem?_eq_some.1 hget).1
  rw [forgotEmail_of_pass db session e (false, message) now id user he hf hpass]
  refine ⟨by simp, by simp, by simp [List.getElem?_set, hlt], ?_⟩
  intro later emailStatus hle
  simp only [if_true]
  have hpass2 : cooldownPassed session user.uuid later := by
    intro t ht
    rcases hpass t ht with h | h
    · exact Or.inl h
    · exact Or.inr (by omega)
  cases hv : user.isVerified with
  | false =>
    have hf2 := findOne_set (fun u => some u.email = some (jsTrim e)) db id user
      (setVerificationPair (generateAuthToken { uuid := user.uuid } ttl10m now)
        (now + 10 * 60 * 1000) user) hf (by simpa [setVerificationPair] using hp)
    simp only [if_true]
    exact forgotEmail_pass_code _ session e emailStatus later id _ he hf2
      (by simpa [setVerificationPair] using hpass2)
  | true =>
    have hf2 := findOne_set (fun u => some u.email = some (jsTrim e)) db id user
      (setResetPair (generateAuthToken { uuid := user.uuid } ttl10m now)
        (now + 10 * 60 * 1000) user) hf (by simpa [setResetPair] using hp)
    simp only [Bool.true_eq_false, if_false]
    exact forgotEmail_pass_code _ session e emailStatus later id _ he hf2
      (by simpa [setResetPair] using hpass2)

/-- Witness for C19: the verified demo account asks for a link at time 2000 and the
mail transport fails; the retry at time 2001 goes through. -/
theorem forgotEmail_dispatch_failure_witness :
    cooldownPassed [] "u-1" 2000 ∧
    forgotEmail [{ demoAccount with isVerified := true }] [] (some "a@x.com")
        (false, "SMTP down") 2000 =
      ([{ demoAccount with
          isVerified := true
          passwordResetToken := some (generateAuthToken { uuid := "u-1" } ttl10m 2000)
          passwordResetExpires := some ⟨602000⟩ }],
       [], { code := 500, message := some "SMTP down", status := some "failure" }) ∧
    (forgotEmail
      (forgotEmail [{ demoAccount with isVerified := true }] [] (some "a@x.com")
        (false, "SMTP down") 2000).1
      (forgotEmail [{ demoAccount with isVerified := true }] [] (some "a@x.com")
        (false, "SMTP down") 2000).2.1
      (some "a@x.com") (true, "") 2001).2.2.code ≠ 429 :=
  have hp : cooldownPassed [] "u-1" 2000 := fun t ht => by simp [Session.get] at ht
  ⟨hp, by decide,
   (forgotEmail_dispatch_failure [{ demoAccount with isVerified := true }] []
    "a@x.com" "SMTP down" 2000 0 { demoAccount with isVerified := true }
    (by decide) (by decide) hp).2.2.2 2001 (true, "") (by decide)⟩

/-! ## Status polling -/

/-- C20. A `sessions` request that carries no valid session token (none, or one
that `jwt.verify` refuses) and whose path parameter `jwt.verify` refuses as
well is answered 404 `User not found` when no account has the parameter as its
uuid and 401 otherwise; either way the body holds only `status` and `message`,
no account data, and the code is not 200. -/
theorem sessions_fails_closed (db : Db) (uuid : PathParam) (authToken : Option Token)
    (now : Int)
    (hauth : ∀ tok, authToken = some tok → ∀ d, jwtVerify tok now ≠ .ok d)
    (hparam : ∀ d, jwtVerifyParam uuid now ≠ .ok d) :
    (findByParam uuid db = none →
      sessions db uuid authToken now =
        { code := 404, status := some "failure", message := some "User not found" }) ∧
    (findByParam uuid db ≠ none →
      sessions db uuid authToken now =
        { code := 401, status := some "failure",
          message := some ("Authentication required. Please log in or use the verification "
            ++ "link from your email.") }) ∧
    (sessions db uuid authToken now).code ≠ 200 ∧
    (sessions db uuid authToken now).uuid = none ∧
    (sessions db uuid authToken now).email = none ∧
    (sessions db uuid authToken now).tokenExpires = none ∧
    (sessions db uuid authToken now).isVerified = none := by
  have htm : sessions.tokenMode db uuid now = sessions.directAccess db uuid := by
    unfold sessions.tokenMode
    cases hj : jwtVerifyParam uuid now with
    | error e => rfl
    | ok d => exact absurd hj (hparam d)
  have hs : sessions db uuid authToken now = sessions.directAccess db uuid := by
    unfold sessions
    cases authToken with
    | none => exact htm
    | some tok =>
      cases hj : jwtVerify tok now with
      | error e =>
        simp only [hj]
        exact htm
      | ok d => exact absurd hj (hauth tok rfl d)
  rw [hs]
  unfold sessions.directAccess
  cases hf : findByParam uuid db with
  | none => simp
  | some r => simp

/-- Witness for C20: a probe with the uuid of the demo account and no cookie, and a
probe with an unknown uuid and a session token that has expired. -/
theorem sessions_fails_closed_witness :
    sessions demoUnverifiedDb (.text "u-1") none 200000 =
      { code := 401, status := some "failure",
        message := some ("Authentication required. Please log in or use the verification "
          ++ "link from your email.") } ∧
    sessions demoUnverifiedDb (.text "u-2") (some demoSessionToken) 2000000 =
      { code := 404, status := some "failure", message := some "User not found" } :=
  ⟨(sessions_fails_closed demoUnverifiedDb (.text "u-1") none 200000
      (fun tok h => by cases h) (fun d h => by cases h)).2.1 (by decide),
   (sessions_fails_closed demoUnverifiedDb (.text "u-2") (some demoSessionToken) 2000000
      (fun tok h d hv => by
        cases h
        have : jwtVerify demoSessionToken 2000000 = .error .TokenExpiredError := rfl
        rw [this] at hv
        cases hv)
      (fun d h => by cases h)).1 (by decide)⟩

/-! ## Status polling by raw action token -/

theorem directAccess_code (db : Db) (uuid : PathParam) :
    (sessions.directAccess db uuid).code = 404 ∨ (sessions.directAccess db uuid).code = 401 := by
  unfold sessions.directAccess
  cases findByParam uuid db with
  | none => exact Or.inl rfl
  | some r => exact Or.inr rfl

theorem tokenMode_code (db : Db) (uuid : PathParam) (now : Int) :
    (sessions.tokenMode db uuid now).code ≠ 200 := by
  have hd : (sessions.directAccess db uuid).code ≠ 200 := by
    rcases directAccess_code db uuid with h | h <;> rw [h] <;> decide
  unfold sessions.tokenMode
  cases jwtVerifyParam uuid now with
  | error e => exact hd
  | ok tokenDecoded =>
    simp only
    split
    · exact hd
    · cases findOne (fun u => decide (u.uuid = tokenDecoded.uuid)) db with
      | none => simp
      | some r =>
        simp only
        split
        · simp
        · exact hd

/-- C21. No session token is presented and the path parameter is the stored,
unexpired verification token of the unverified demo account (respectively the
stored, unexpired reset token of the verified demo account): `sessions` does not
answer 200 with the status report but 404 "User not found", because line 98
throws before the report is reached. -/
theorem sessions_raw_token_is_404 :
    (∃ a ∈ demoUnverifiedDb, a.isVerified = false ∧
        a.verificationToken = some demoStoredToken ∧
        notExpired a.verificationExpires 200000 = true) ∧
    jwtVerifyParam (.jwt demoStoredToken) 200000 = .ok demoStoredToken ∧
    sessions demoUnverifiedDb (.jwt demoStoredToken) none 200000 =
      { code := 404, status := some "failure", message := some "User not found" } ∧
    (∃ a ∈ demoResetDb, a.isVerified = true ∧
        a.passwordResetToken = some demoStoredToken ∧
        notExpired a.passwordResetExpires 200000 = true) ∧
    sessions demoResetDb (.jwt demoStoredToken) none 200000 =
      { code := 404, status := some "failure", message := some "User not found" } := by
  refine ⟨⟨_, List.mem_singleton.2 rfl, by decide, by decide, by decide⟩, rfl, by decide,
    ⟨_, List.mem_singleton.2 rfl, by decide, by decide, by decide⟩, by decide⟩

/-- Counterexample for C28: the session token of the demo account `u-1` is presented
with the path parameter `u-1` followed by a blank.  The subject differs from the
parameter, the lookup by the parameter trims it and finds the account `u-1`,
whose uuid is the subject, and the answer is the 200 status report instead of
403. -/
theorem sessions_padded_param_accepted :
    jwtVerify demoSessionToken 200000 = .ok demoSessionToken ∧
    differsFromParam demoSessionToken.uuid (.text "u-1 ") = true ∧
    (findByParam (.text "u-1 ") demoUnverifiedDb).map (fun r => r.2.uuid)
      = some demoSessionToken.uuid ∧
    (sessions demoUnverifiedDb (.text "u-1 ") (some demoSessionToken) 200000).code = 200 ∧
    (sessions demoUnverifiedDb (.text "u-1 ") (some demoSessionToken) 200000).sessionType
      = some "verification" ∧
    (sessions demoUnverifiedDb (.text "u-1 ") (some demoSessionToken) 200000).uuid
      = some "u-1" := by
  refine ⟨rfl, by decide, by decide, by decide, by decide, by decide⟩

/-- C28 as amended. A session token that `jwt.verify` accepts is presented.  When its
subject differs from the path parameter and from the path parameter with its
surrounding whitespace removed, the response is 403 "Access denied, data
mismatch" for every collection.  The account found by the path parameter has
the subject of the token as its uuid only when the trimmed parameter is that
subject.  For every path parameter the response is either that 403 or the
response to the same token presented with its own subject as the parameter. -/
theorem sessions_mismatch_after_trim (db : Db) (uuid : PathParam) (authToken decoded : Token)
    (now : Int) (hv : jwtVerify authToken now = .ok decoded) :
    (differsFromParam decoded.uuid uuid = true →
      (∀ s, uuid = .text s → decoded.uuid ≠ jsTrim s) →
      sessions db uuid (some authToken) now =
        { code := 403, status := some "failure",
          message := some "Access denied, data mismatch" }) ∧
    (∀ id userByUuid, findByParam uuid db = some (id, userByUuid) →
      userByUuid.uuid = decoded.uuid → ∃ s, uuid = .text s ∧ jsTrim s = decoded.uuid) ∧
    (sessions db uuid (some authToken) now =
        { code := 403, status := some "failure",
          message := some "Access denied, data mismatch" } ∨
      sessions db uuid (some authToken) now =
        sessions db (.text decoded.uuid) (some authToken) now) := by
  have hfound : ∀ id userByUuid, findByParam uuid db = some (id, userByUuid) →
      userByUuid.uuid = decoded.uuid → ∃ s, uuid = .text s ∧ jsTrim s = decoded.uuid := by
    intro id u hf hu
    cases uuid with
    | jwt t => simp [findByParam] at hf
    | text s =>
      simp only [findByParam] at hf
      have h := (findOne_some _ db id u hf).2
      simp only [decide_eq_true_eq] at h
      exact ⟨s, rfl, h.symm.trans hu⟩
  have hself : differsFromParam decoded.uuid (.text decoded.uuid) = false := by
    simp [differsFromParam]
  refine ⟨?_, hfound, ?_⟩
  · intro hd hne
    unfold sessions
    simp only [hv, hd, Bool.true_and]
    cases hf : findByParam uuid db with
    | none => simp
    | some r =>
      obtain ⟨id, u⟩ := r
      have hu : u.uuid ≠ decoded.uuid := by
        intro hu
        obtain ⟨s, hs, ht⟩ := hfound id u hf hu
        exact hne s hs ht.symm
      simp [hu]
  · unfold sessions
    simp only [hv]
    split
    · exact Or.inl rfl
    · right
      simp only [hself, Bool.false_and, Bool.false_eq_true, if_false]

/-- Witness for C28 as amended: the session token of the demo account, presented
with the uuid of another account as path parameter. -/
theorem sessions_mismatch_after_trim_witness :
    jwtVerify demoSessionToken 200000 = .ok demoSessionToken ∧
    differsFromParam demoSessionToken.uuid (.text "u-2") = true ∧
    sessions (demoUnverifiedDb ++ [{ demoAccount with uuid := "u-2", email := "b@x.com" }])
        (.text "u-2") (some demoSessionToken) 200000 =
      { code := 403, status := some "failure", message := some "Access denied, data mismatch" } :=
  ⟨rfl, by decide,
   (sessions_mismatch_after_trim _ (.text "u-2") demoSessionToken demoSessionToken 200000 rfl).1
      (by decide)
      (fun s hs => by
        cases hs
        decide)⟩

/-! ## The attempt counter past the lockout -/

/-- C27. Six wrong passwords at the non-decreasing times 1000 to 6000 on the newly
created demo account: the fifth locks the account until 605000, and the sixth,
made at 6000 while the account is locked and the lock has not expired, is not
refused as locked but counted, leaving `loginAttempts = 6`, above
`MAX_LOGIN_ATTEMPTS`, and `lockUntil` moved from 605000 to 606000. -/
theorem locked_attempt_is_counted :
    demoAccount.loginAttempts = some 0 ∧ demoAccount.isLocked = false ∧
    (attemptAll sameText demoAccount
        [("bad", 1000), ("bad", 2000), ("bad", 3000), ("bad", 4000), ("bad", 5000)]).1 =
      { demoAccount with loginAttempts := some 5, isLocked := true, lockUntil := some ⟨605000⟩ } ∧
    (6000 : Int) < 605000 ∧
    (attemptAll sameText demoAccount
        [("bad", 1000), ("bad", 2000), ("bad", 3000), ("bad", 4000), ("bad", 5000),
         ("bad", 6000)]).1 =
      { demoAccount with loginAttempts := some 6, isLocked := true, lockUntil := some ⟨606000⟩ } ∧
    MAX_LOGIN_ATTEMPTS < 6 := by
  have step : ∀ (user : Account) (t : Int), user.password = some "pw123456" →
      (user.isLocked = false ∨ ∃ d, user.lockUntil = some d ∧ t < d.time) →
      localStrategy.onUser sameText 0 user "bad" t =
        (if user.loginAttempts.getD 0 + 1 ≥ MAX_LOGIN_ATTEMPTS then
          ({ user with
              loginAttempts := some (user.loginAttempts.getD 0 + 1)
              isLocked := true
              lockUntil := some ⟨t + LOCK_TIME⟩ },
           .fail { message :=
             "Too many failed login attempts. Your account has been locked for 10 minutes." })
        else
          ({ user with loginAttempts := some (user.loginAttempts.getD 0 + 1) },
           .fail { message := "Invalid email or password."
                   remainingAttempts := some ((MAX_LOGIN_ATTEMPTS : Int)
                     - ((user.loginAttempts.getD 0 + 1 : Nat) : Int)) })) := by
    intro user t hpw hl
    have hu : unlockIfExpired user t = user := by
      rcases hl with h | ⟨d, hd, hlt⟩
      · exact unlockIfExpired_of_not_locked user t h
      · exact unlockIfExpired_of_before user t d hd hlt
    rw [onUser_of_mismatch sameText 0 user "bad" "pw123456" t hpw (by decide), hu]
  refine ⟨rfl, rfl, ?_, by decide, ?_, by decide⟩
  · simp only [attemptAll]
    rw [step demoAccount 1000 rfl (Or.inl rfl)]
    simp only [demoAccount, MAX_LOGIN_ATTEMPTS, Option.getD, ge_iff_le, Nat.reduceAdd,
      Nat.reduceLeDiff, ite_false]
    rw [step _ 2000 rfl (Or.inl rfl)]
    simp only [MAX_LOGIN_ATTEMPTS, Option.getD, ge_iff_le, Nat.reduceAdd,
      Nat.reduceLeDiff, ite_false]
    rw [step _ 3000 rfl (Or.inl rfl)]
    simp only [MAX_LOGIN_ATTEMPTS, Option.getD, ge_iff_le, Nat.reduceAdd,
      Nat.reduceLeDiff, ite_false]
    rw [step _ 4000 rfl (Or.inl rfl)]
    simp only [MAX_LOGIN_ATTEMPTS, Option.getD, ge_iff_le, Nat.reduceAdd,
      Nat.reduceLeDiff, ite_false]
    rw [step _ 5000 rfl (Or.inl rfl)]
    simp [MAX_LOGIN_ATTEMPTS, LOCK_TIME]
  · simp only [attemptAll]
    rw [step demoAccount 1000 rfl (Or.inl rfl)]
    simp only [demoAccount, MAX_LOGIN_ATTEMPTS, Option.getD, ge_iff_le, Nat.reduceAdd,
      Nat.reduceLeDiff, ite_false]
    rw [step _ 2000 rfl (Or.inl rfl)]
    simp only [MAX_LOGIN_ATTEMPTS, Option.getD, ge_iff_le, Nat.reduceAdd,
      Nat.reduceLeDiff, ite_false]
    rw [step _ 3000 rfl (Or.inl rfl)]
    simp only [MAX_LOGIN_ATTEMPTS, Option.getD, ge_iff_le, Nat.reduceAdd,
      Nat.reduceLeDiff, ite_false]
    rw [step _ 4000 rfl (Or.inl rfl)]
    simp only [MAX_LOGIN_ATTEMPTS, Option.getD, ge_iff_le, Nat.reduceAdd,
      Nat.reduceLeDiff, ite_false]
    rw [step _ 5000 rfl (Or.inl rfl)]
    simp only [MAX_LOGIN_ATTEMPTS, LOCK_TIME, Option.getD, ge_iff_le, Nat.reduceAdd,
      Nat.reduceLeDiff, ite_true, le_refl]
    rw [step _ 6000 rfl (Or.inr ⟨⟨605000⟩, by norm_num, by norm_num⟩)]
    simp [MAX_LOGIN_ATTEMPTS, LOCK_TIME]

/-! ## Masking an email address -/

theorem takeWhile_append_stop (p : Char → Bool) (l r : List Char) (x : Char)
    (hl : ∀ c ∈ l, p c = true) (hx : p x = false) : (l ++ x :: r).takeWhile p = l := by
  induction l with
  | nil => simp [List.takeWhile, hx]
  | cons a l ih =>
    have ha : p a = true := hl a (List.mem_cons_self a l)
    simp only [List.cons_append, List.takeWhile_cons, ha, if_true]
    rw [ih (fun c hc => hl c (List.mem_cons_of_mem a hc))]

theorem takeWhile_all (p : Char → Bool) (l : List Char) (hl : ∀ c ∈ l, p c = true) :
    l.takeWhile p = l := by
  induction l with
  | nil => rfl
  | cons a l ih =>
    have ha : p a = true := hl a (List.mem_cons_self a l)
    simp only [List.takeWhile_cons, ha, if_true]
    rw [ih (fun c hc => hl c (List.mem_cons_of_mem a hc))]

theorem drop_takeWhile_length (p : Char → Bool) (l : List Char) :
    l.drop (l.takeWhile p).length = l.dropWhile p := by
  induction l with
  | nil => rfl
  | cons a l ih =>
    by_cases h : p a = true
    · simp [List.takeWhile_cons, List.dropWhile_cons, h, ih]
    · simp [List.takeWhile_cons, List.dropWhile_cons, h]

theorem domainExtension_of_suffix (pre letters : List Char)
    (hl : ∀ c ∈ letters, c.isAlpha = true) (h2 : 2 ≤ letters.length) :
    domainExtension (pre ++ Char.ofNat 46 :: letters) = Char.ofNat 46 :: letters := by
  have hr : (pre ++ Char.ofNat 46 :: letters).reverse
      = letters.reverse ++ Char.ofNat 46 :: pre.reverse := by simp
  have ht : (letters.reverse ++ Char.ofNat 46 :: pre.reverse).takeWhile (fun c => c.isAlpha)
      = letters.reverse :=
    takeWhile_append_stop _ _ _ _ (fun c hc => hl c (List.mem_reverse.1 hc)) (by decide)
  unfold domainExtension
  simp only [hr, ht, List.length_reverse, List.drop_left', List.reverse_reverse]
  simp [h2]

theorem domainExtension_eq (domain : List Char) :
    domainExtension domain = [] ∨
    ∃ pre letters, domain = pre ++ Char.ofNat 46 :: letters ∧
      (∀ c ∈ letters, c.isAlpha = true) ∧ 2 ≤ letters.length ∧
      domainExtension domain = Char.ofNat 46 :: letters := by
  by_cases h : 2 ≤ (domain.reverse.takeWhile (fun c => c.isAlpha)).length ∧
      (domain.reverse.drop (domain.reverse.takeWhile (fun c => c.isAlpha)).length).head?
        = some (Char.ofNat 46)
  · right
    have hsplit := List.takeWhile_append_dropWhile (fun c => c.isAlpha) domain.reverse
    have hdrop : domain.reverse.drop (domain.reverse.takeWhile (fun c => c.isAlpha)).length
        = domain.reverse.dropWhile (fun c => c.isAlpha) := drop_takeWhile_length _ _
    cases hd : domain.reverse.dropWhile (fun c => c.isAlpha) with
    | nil =>
      rw [hdrop, hd] at h
      simp at h
    | cons x rest =>
      rw [hdrop, hd] at h
      simp only [List.head?_cons, Option.some.injEq] at h
      obtain ⟨hlen, hx⟩ := h
      subst hx
      refine ⟨rest.reverse, (domain.reverse.takeWhile (fun c => c.isAlpha)).reverse, ?_, ?_, ?_, ?_⟩
      · have : domain.reverse
            = domain.reverse.takeWhile (fun c => c.isAlpha) ++ Char.ofNat 46 :: rest := by
          rw [← hd]
          exact hsplit.symm
        have := congrArg List.reverse this
        simpa using this
      · intro c hc
        exact List.mem_takeWhile_imp (List.mem_reverse.1 hc)
      · simpa using hlen
      · unfold domainExtension
        simp only [hdrop, hd, List.head?_cons]
        simp [hlen]
  · left
    unfold domainExtension
    simp only
    rw [if_neg h]

/-- C26. `maskEmailCustom` returns an empty text and a text without `@` as it is.
For any other text, with `L` the part before the first `@`, `D` the part between
the first `@` and the second (or the end) and `E = domainExtension D`: `E` is the
final `.` of `D` with the two or more ASCII letters that end `D`, and is empty
when `D` does not end that way; the result is `L[0]`, then `max(|L| - 1, 1)`
stars, `@`, `max(|D| - |E|, 1)` dots and `E` (lengths in UTF-16 code units);
so every character of the result is `L[0]`, a star, `@`, a dot or a character
of `E`. -/
theorem maskEmailCustom_spec (email : String) :
    (email = "" ∨ Char.ofNat 64 ∉ email.data → maskEmailCustom email = email) ∧
    ∀ L D rest : List Char, email.data = L ++ Char.ofNat 64 :: (D ++ rest) →
      Char.ofNat 64 ∉ L → Char.ofNat 64 ∉ D →
      (rest = [] ∨ rest.head? = some (Char.ofNat 64)) →
      (domainExtension D = [] ∨
        ∃ pre letters, D = pre ++ Char.ofNat 46 :: letters ∧
          (∀ c ∈ letters, c.isAlpha = true) ∧ 2 ≤ letters.length ∧
          domainExtension D = Char.ofNat 46 :: letters) ∧
      (∀ pre letters, D = pre ++ Char.ofNat 46 :: letters →
        (∀ c ∈ letters, c.isAlpha = true) → 2 ≤ letters.length →
        domainExtension D = Char.ofNat 46 :: letters) ∧
      maskEmailCustom email =
        String.mk (jsFirstChar L ++ List.replicate (max (unitsLength L - 1) 1) (Char.ofNat 42)
          ++ [Char.ofNat 64]
          ++ (List.replicate (max (unitsLength D - unitsLength (domainExtension D)) 1)
                (Char.ofNat 46)
              ++ domainExtension D)) ∧
      ∀ c ∈ (maskEmailCustom email).data,
        c ∈ jsFirstChar L ∨ c = Char.ofNat 42 ∨ c = Char.ofNat 64 ∨ c = Char.ofNat 46 ∨
          c ∈ domainExtension D := by
  constructor
  · intro h
    unfold maskEmailCustom
    rw [if_pos]
    rcases h with h | h
    · exact Or.inl h
    · exact Or.inr (by simpa using h)
  · intro L D rest he hL hD hrest
    have hp : ∀ l : List Char, Char.ofNat 64 ∉ l →
        ∀ c ∈ l, (fun c : Char => decide (c ≠ Char.ofNat 64)) c = true := by
      intro l hl c hc
      simp only [ne_eq, decide_not, Bool.not_eq_eq_eq_not, Bool.not_true, decide_eq_false_iff_not]
      rintro rfl
      exact hl hc
    have h1 : email.data.takeWhile (fun c => decide (c ≠ Char.ofNat 64)) = L := by
      rw [he]
      exact takeWhile_append_stop _ L (D ++ rest) _ (hp L hL) (by decide)
    have h2 : email.data.drop (L.length + 1) = D ++ rest := by
      rw [he]
      have : L ++ Char.ofNat 64 :: (D ++ rest) = (L ++ [Char.ofNat 64]) ++ (D ++ rest) := by simp
      rw [this]
      exact List.drop_left' (by simp)
    have h3 : (D ++ rest).takeWhile (fun c => decide (c ≠ Char.ofNat 64)) = D := by
      rcases hrest with hr | hr
      · rw [hr, List.append_nil]
        exact takeWhile_all _ D (hp D hD)
      · cases rest with
        | nil => simp at hr
        | cons x r =>
          simp only [List.head?_cons, Option.some.injEq] at hr
          subst hr
          exact takeWhile_append_stop _ D r _ (hp D hD) (by decide)
    have hm : maskEmailCustom email =
        String.mk (jsFirstChar L ++ List.replicate (max (unitsLength L - 1) 1) (Char.ofNat 42)
          ++ [Char.ofNat 64]
          ++ (List.replicate (max (unitsLength D - unitsLength (domainExtension D)) 1)
                (Char.ofNat 46)
              ++ domainExtension D)) := by
      unfold maskEmailCustom
      rw [if_neg]
      · simp only [h1, h2, h3]
      · rintro (h | h)
        · rw [h] at he
          cases L <;> simp at he
        · apply h
          rw [he]
          simp
    refine ⟨domainExtension_eq D, ?_, hm, ?_⟩
    · intro pre letters hd hl h2
      rw [hd]
      exact domainExtension_of_suffix pre letters hl h2
    · intro c hc
      rw [hm] at hc
      simp only [List.mem_append, List.mem_replicate, List.mem_singleton] at hc
      rcases hc with ((h | h) | h) | h | h
      · exact Or.inl h
      · exact Or.inr (Or.inl h.2)
      · exact Or.inr (Or.inr (Or.inl h))
      · exact Or.inr (Or.inr (Or.inr (Or.inl h.2)))
      · exact Or.inr (Or.inr (Or.inr (Or.inr h)))

/-- Witness for C26: the example of the address `a@x.com`, masked as `a*@..com`,
and an address with two characters before the `@` and no extension. -/
theorem maskEmailCustom_spec_witness :
    maskEmailCustom "a@x.com" = "a*@..com" ∧ maskEmailCustom "ab@x.c" = "a*@..." ∧
    maskEmailCustom "" = "" ∧ maskEmailCustom "abc" = "abc" ∧
    domainExtension "x.com".data = ".com".data ∧
    maskEmailCustom "a@x.com" =
      String.mk (jsFirstChar "a".data
        ++ List.replicate (max (unitsLength "a".data - 1) 1) (Char.ofNat 42)
        ++ [Char.ofNat 64]
        ++ (List.replicate
              (max (unitsLength "x.com".data - unitsLength (domainExtension "x.com".data)) 1)
              (Char.ofNat 46)
            ++ domainExtension "x.com".data)) :=
  ⟨by decide, by decide, rfl, by decide, rfl,
   ((maskEmailCustom_spec "a@x.com").2 "a".data "x.com".data [] (by decide) (by decide)
      (by decide) (Or.inl rfl)).2.2.1⟩

/-! ## The resend cooldown -/

theorem checkTokenCooldown_pos_iff (decoded : Token) (c : ℚ) (now : Int) :
    0 < checkTokenCooldown decoded c now ↔ ((now - decoded.iat * 1000 : Int) : ℚ) < c * 1000 := by
  unfold checkTokenCooldown
  rw [lt_max_iff]
  simp only [lt_self_iff_false, or_false, sub_pos]
  rw [div_lt_iff₀ (by norm_num : (0 : ℚ) < 1000)]

theorem resendEmail_429_or (db : Db) (uuid : String) (type : Option String)
    (authToken decoded : Token) (emailStatus : Bool × String) (now : Int)
    (hv : jwtVerify authToken now = .ok decoded) :
    (resendEmail db uuid type (some authToken) emailStatus now).2.code ≠ 429 ∨
    (0 < checkTokenCooldown decoded 60 now ∧
      (resendEmail db uuid type (some authToken) emailStatus now).1 = db) := by
  unfold resendEmail
  simp only [hv]
  by_cases hu : decoded.uuid ≠ uuid
  · rw [if_pos hu]
    exact Or.inl (by simp)
  · rw [if_neg hu]
    cases hf : findOne (fun u => decide (u.uuid = uuid)) db with
    | none => exact Or.inl (by simp)
    | some r =>
      obtain ⟨id, user⟩ := r
      simp only
      by_cases c1 : (if type = some "verification" ∨ type = some "reset" then type.getD ""
          else if user.isVerified = false then "verification" else "reset") = "verification"
          ∧ user.isVerified = true
      · rw [if_pos c1]
        exact Or.inl (by simp)
      · rw [if_neg c1]
        by_cases c2 : (if type = some "verification" ∨ type = some "reset" then type.getD ""
            else if user.isVerified = false then "verification" else "reset") = "reset"
            ∧ user.isVerified = false
        · rw [if_pos c2]
          exact Or.inl (by simp)
        · rw [if_neg c2]
          by_cases hc : 0 < checkTokenCooldown decoded 60 now
          · rw [if_pos hc]
            exact Or.inr ⟨hc, rfl⟩
          · rw [if_neg hc]
            by_cases he : emailStatus.1 = false
            · rw [if_pos he]
              exact Or.inl (by simp)
            · rw [if_neg he]
              exact Or.inl (by simp)

theorem resendEmail_of_429 (db : Db) (uuid : String) (type : Option String)
    (authToken decoded : Token) (emailStatus : Bool × String) (now : Int)
    (hv : jwtVerify authToken now = .ok decoded)
    (h : (resendEmail db uuid type (some authToken) emailStatus now).2.code = 429) :
    0 < checkTokenCooldown decoded 60 now ∧
      (resendEmail db uuid type (some authToken) emailStatus now).1 = db := by
  rcases resendEmail_429_or db uuid type authToken decoded emailStatus now hv with h1 | h1
  · exact absurd h h1
  · exact h1

theorem resendEmail_of_cooldown (db : Db) (uuid : String) (type : Option String)
    (authToken decoded : Token) (emailStatus : Bool × String) (now : Int) (id : Nat)
    (user : Account)
    (hv : jwtVerify authToken now = .ok decoded) (hu : decoded.uuid = uuid)
    (hf : findOne (fun u => u.uuid = uuid) db = some (id, user))
    (h1 : type = some "verification" → user.isVerified = false)
    (h2 : type = some "reset" → user.isVerified = true)
    (hc : 0 < checkTokenCooldown decoded 60 now) :
    (resendEmail db uuid type (some authToken) emailStatus now).2.code = 429 := by
  unfold resendEmail
  simp only [hv, hf]
  rw [if_neg (by simpa using hu)]
  rw [if_neg, if_neg, if_pos hc]
  · rintro ⟨he, hver⟩
    by_cases ht : type = some "verification" ∨ type = some "reset"
    · rw [if_pos ht] at he
      rcases ht with ht | ht
      · rw [ht] at he
        simp at he
      · rw [h2 ht] at hver
        cases hver
    · rw [if_neg ht] at he
      rw [hver] at he
      simp at he
  · rintro ⟨he, hver⟩
    by_cases ht : type = some "verification" ∨ type = some "reset"
    · rw [if_pos ht] at he
      rcases ht with ht | ht
      · rw [h1 ht] at hver
        cases hver
      · rw [ht] at he
        simp at he
    · rw [if_neg ht] at he
      rw [hver] at he
      simp at he

/-- C29. `checkTokenCooldown(decoded, c)` read at time `now` is
`max(c - (now - iat * 1000) / 1000, 0)`: it is never negative, it is 0 exactly
when `c` seconds or more have passed since `iat`, and for a cooldown `c ≥ 0` and
an `iat` not after `now` it is at most `c`.  For a session token that
`jwt.verify` accepts: `resendEmail` answers 429 only when fewer than 60000 ms
have passed since the `iat` of the token, and then the collection is left as it
was; and a request that passes the checks made before the cooldown (the token's
subject is the path parameter, the account exists, the type fits the account)
is answered 429 exactly when fewer than 60000 ms have passed. -/
theorem resendEmail_cooldown (db : Db) (uuid : String) (type : Option String)
    (authToken decoded : Token) (emailStatus : Bool × String) (now : Int) (c : ℚ)
    (hv : jwtVerify authToken now = .ok decoded) :
    checkTokenCooldown decoded c now
      = max (c - ((now - decoded.iat * 1000 : Int) : ℚ) / 1000) 0 ∧
    0 ≤ checkTokenCooldown decoded c now ∧
    (checkTokenCooldown decoded c now = 0 ↔ c * 1000 ≤ ((now - decoded.iat * 1000 : Int) : ℚ)) ∧
    (0 ≤ c → decoded.iat * 1000 ≤ now → checkTokenCooldown decoded c now ≤ c) ∧
    ((resendEmail db uuid type (some authToken) emailStatus now).2.code = 429 →
      now - decoded.iat * 1000 < 60000 ∧
      (resendEmail db uuid type (some authToken) emailStatus now).1 = db) ∧
    (∀ id user, decoded.uuid = uuid → findOne (fun u => u.uuid = uuid) db = some (id, user) →
      (type = some "verification" → user.isVerified = false) →
      (type = some "reset" → user.isVerified = true) →
      ((resendEmail db uuid type (some authToken) emailStatus now).2.code = 429 ↔
        now - decoded.iat * 1000 < 60000)) := by
  have hpos : 0 < checkTokenCooldown decoded 60 now ↔ now - decoded.iat * 1000 < 60000 := by
    rw [checkTokenCooldown_pos_iff]
    constructor
    · intro h
      have h' : ((now - decoded.iat * 1000 : Int) : ℚ) < ((60000 : Int) : ℚ) := by
        push_cast at h ⊢
        linarith
      exact_mod_cast h'
    · intro h
      have h' : ((now - decoded.iat * 1000 : Int) : ℚ) < ((60000 : Int) : ℚ) := by
        exact_mod_cast h
      push_cast at h' ⊢
      linarith
  refine ⟨rfl, le_max_right _ _, ?_, ?_, ?_, ?_⟩
  · constructor
    · intro h
      by_contra hlt
      have := (checkTokenCooldown_pos_iff decoded c now).2 (not_le.1 hlt)
      rw [h] at this
      exact lt_irrefl _ this
    · intro h
      have h0 := le_max_right (c - ((now - decoded.iat * 1000 : Int) : ℚ) / 1000) 0
      have hn : ¬ 0 < checkTokenCooldown decoded c now := by
        rw [checkTokenCooldown_pos_iff]
        exact not_lt.2 h
      exact le_antisymm (not_lt.1 hn) h0
  · intro hc hiat
    unfold checkTokenCooldown
    refine max_le ?_ hc
    have : (0 : ℚ) ≤ ((now - decoded.iat * 1000 : Int) : ℚ) := by
      exact_mod_cast sub_nonneg.2 hiat
    have : (0 : ℚ) ≤ ((now - decoded.iat * 1000 : Int) : ℚ) / 1000 := by positivity
    linarith
  · intro h
    obtain ⟨h1, h2⟩ := resendEmail_of_429 db uuid type authToken decoded emailStatus now hv h
    exact ⟨hpos.1 h1, h2⟩
  · intro id user hu hf h1 h2
    constructor
    · intro h
      exact hpos.1 (resendEmail_of_429 db uuid type authToken decoded emailStatus now hv h).1
    · intro h
      exact resendEmail_of_cooldown db uuid type authToken decoded emailStatus now id user
        hv hu hf h1 h2 (hpos.2 h)

/-- Witness for C29: the demo account asks for a new verification email 30 seconds
after its session token was issued. -/
theorem resendEmail_cooldown_witness :
    jwtVerify demoSessionToken 130000 = .ok demoSessionToken ∧
    checkTokenCooldown demoSessionToken 60 130000 = 30 ∧
    (resendEmail demoUnverifiedDb "u-1" none (some demoSessionToken) (true, "") 130000).2.code
      = 429 :=
  ⟨rfl,
   by
    rw [(resendEmail_cooldown demoUnverifiedDb "u-1" none demoSessionToken demoSessionToken
      (true, "") 130000 60 rfl).1]
    norm_num [demoSessionToken, generateAuthToken, ttl30m],
   ((resendEmail_cooldown demoUnverifiedDb "u-1" none demoSessionToken demoSessionToken
      (true, "") 130000 60 rfl).2.2.2.2.2 0
        { demoAccount with
          verificationToken := some demoStoredToken, verificationExpires := some ⟨700000⟩ }
        rfl (by decide) (by decide) (by decide)).2
      (by decide)⟩

/-! ## Validation errors by field -/

theorem objAssign_keys_mem (obj : JsObject) (key value k : String) :
    k ∈ (objAssign obj key value).map Prod.fst ↔ k = key ∨ k ∈ obj.map Prod.fst := by
  induction obj with
  | nil => simp [objAssign]
  | cons p rest ih =>
    obtain ⟨k0, v0⟩ := p
    unfold objAssign
    by_cases h : k0 = key
    · simp only [h, if_true, List.map_cons, List.mem_cons]
      tauto
    · simp only [h, if_false, List.map_cons, List.mem_cons, ih]
      tauto

theorem objAssign_nodup (obj : JsObject) (key value : String)
    (h : (obj.map Prod.fst).Nodup) : ((objAssign obj key value).map Prod.fst).Nodup := by
  induction obj with
  | nil => simp [objAssign]
  | cons p rest ih =>
    obtain ⟨k0, v0⟩ := p
    unfold objAssign
    simp only [List.map_cons, List.nodup_cons] at h
    by_cases hk : k0 = key
    · simp only [hk, if_true, List.map_cons, List.nodup_cons]
      exact ⟨hk ▸ h.1, h.2⟩
    · simp only [hk, if_false, List.map_cons, List.nodup_cons]
      refine ⟨?_, ih h.2⟩
      rw [objAssign_keys_mem]
      rintro (h1 | h1)
      · exact hk h1
      · exact h.1 h1

theorem objAssign_mem (obj : JsObject) (key value k v : String)
    (h : (obj.map Prod.fst).Nodup) :
    (k, v) ∈ objAssign obj key value ↔ (k = key ∧ v = value) ∨ (k ≠ key ∧ (k, v) ∈ obj) := by
  induction obj with
  | nil => simp [objAssign]
  | cons p rest ih =>
    obtain ⟨k0, v0⟩ := p
    unfold objAssign
    simp only [List.map_cons, List.nodup_cons] at h
    by_cases hk : k0 = key
    · subst hk
      simp only [if_true, List.mem_cons, Prod.mk.injEq]
      constructor
      · rintro (⟨h1, h2⟩ | h1)
        · exact Or.inl ⟨h1, h2⟩
        · refine Or.inr ⟨?_, Or.inr h1⟩
          rintro rfl
          exact h.1 (List.mem_map.2 ⟨(k, v), h1, rfl⟩)
      · rintro (⟨h1, h2⟩ | ⟨h1, h2 | h2⟩)
        · exact Or.inl ⟨h1, h2⟩
        · exact absurd h2.1 h1
        · exact Or.inr h2
    · simp only [hk, if_false, List.mem_cons, Prod.mk.injEq, ih h.2]
      constructor
      · rintro (⟨h1, h2⟩ | h1 | h1)
        · exact Or.inr ⟨h1 ▸ hk, Or.inl ⟨h1, h2⟩⟩
        · exact Or.inl h1
        · exact Or.inr ⟨h1.1, Or.inr h1.2⟩
      · rintro (h1 | ⟨h1, h2 | h2⟩)
        · exact Or.inr (Or.inl h1)
        · exact Or.inl h2
        · exact Or.inr (Or.inr ⟨h1, h2⟩)

theorem lastMessage_append (key : String) (details : List ValidationDetail)
    (err : ValidationDetail) :
    lastMessage key (details ++ [err]) =
      if firstPathKey err = key then some err.message else lastMessage key details := by
  unfold lastMessage
  rw [List.reverse_append, List.reverse_singleton, List.singleton_append, List.find?_cons]
  by_cases h : firstPathKey err = key <;> simp [h]

theorem errorsObject_spec (details : List ValidationDetail) :
    ((details.foldl (fun acc err => objAssign acc (err.path.head?.getD "undefined") err.message)
        []).map Prod.fst).Nodup ∧
    ∀ key message,
      (key, message) ∈ details.foldl
          (fun acc err => objAssign acc (err.path.head?.getD "undefined") err.message) [] ↔
        lastMessage key details = some message := by
  induction details using List.reverseRecOn with
  | nil => simp [lastMessage]
  | append_singleton ds d ih =>
    rw [List.foldl_append]
    simp only [List.foldl_cons, List.foldl_nil]
    refine ⟨objAssign_nodup _ _ _ ih.1, ?_⟩
    intro key message
    rw [objAssign_mem _ _ _ _ _ ih.1, lastMessage_append, ih.2]
    change _ ↔ (if firstPathKey d = key then _ else _) = _
    by_cases h : firstPathKey d = key
    · rw [if_pos h]
      have h' : key = d.path.head?.getD "undefined" := h.symm
      constructor
      · rintro (⟨_, h2⟩ | ⟨h1, _⟩)
        · rw [h2]
        · exact absurd h' h1
      · intro h1
        exact Or.inl ⟨h', (Option.some.inj h1).symm⟩
    · rw [if_neg h]
      have h' : key ≠ d.path.head?.getD "undefined" := fun e => h e.symm
      constructor
      · rintro (⟨h1, _⟩ | ⟨_, h2⟩)
        · exact absurd h1 h'
        · exact h2
      · intro h1
        exact Or.inr ⟨h', h1⟩

theorem lastMessage_isSome (key : String) (details : List ValidationDetail) :
    (∃ message, lastMessage key details = some message) ↔
      ∃ err ∈ details, firstPathKey err = key := by
  unfold lastMessage
  constructor
  · rintro ⟨m, hm⟩
    cases hf : details.reverse.find? (fun err => decide (firstPathKey err = key)) with
    | none => simp [hf] at hm
    | some e =>
      have h1 := List.find?_some hf
      have h2 := List.mem_of_find?_eq_some hf
      exact ⟨e, List.mem_reverse.1 h2, by simpa using h1⟩
  · rintro ⟨e, he, hk⟩
    cases hf : details.reverse.find? (fun err => decide (firstPathKey err = key)) with
    | none =>
      have := List.find?_eq_none.1 hf e (List.mem_reverse.2 he)
      simp [hk] at this
    | some e1 => exact ⟨e1.message, rfl⟩

/-- C30. `handleValidation(validatorFunc, args)` returns `null` exactly when the
validator reports no error.  Otherwise it returns an object with no key twice,
whose keys are exactly the first path elements `err.path[0]` of the details, and
in which a key is mapped to a message exactly when that message is the message of
the last detail having that first path element. -/
theorem handleValidation_by_field {α : Type}
    (validatorFunc : α → Option (List ValidationDetail)) (args : α) :
    (handleValidation validatorFunc args = none ↔ validatorFunc args = none) ∧
    ∀ details, validatorFunc args = some details →
      ∃ errors, handleValidation validatorFunc args = some errors ∧
        (errors.map Prod.fst).Nodup ∧
        (∀ key, key ∈ errors.map Prod.fst ↔ ∃ err ∈ details, firstPathKey err = key) ∧
        (∀ key message, (key, message) ∈ errors ↔ lastMessage key details = some message) := by
  constructor
  · unfold handleValidation
    cases validatorFunc args <;> simp
  · intro details hd
    obtain ⟨h1, h2⟩ := errorsObject_spec details
    refine ⟨_, by simp only [handleValidation, hd], h1, ?_, h2⟩
    intro key
    rw [← lastMessage_isSome]
    constructor
    · intro hk
      obtain ⟨p, hp, hpk⟩ := List.mem_map.1 hk
      obtain ⟨k, m⟩ := p
      simp only at hpk
      subst hpk
      exact ⟨m, (h2 k m).1 hp⟩
    · rintro ⟨m, hm⟩
      exact List.mem_map.2 ⟨(key, m), (h2 key m).2 hm, rfl⟩

/-- Witness for C30: a validator reporting three details, two of them under the
path element `password`; the object has the keys `password` and `email`, and
`password` carries the message of the later detail. -/
theorem handleValidation_by_field_witness :
    handleValidation
        (fun _ : Unit => some [{ path := ["password"], message := "first" },
                               { path := ["email"], message := "second" },
                               { path := ["password", "0"], message := "third" }]) () =
      some [("password", "third"), ("email", "second")] ∧
    ∃ errors,
      handleValidation
        (fun _ : Unit => some [{ path := ["password"], message := "first" },
                               { path := ["email"], message := "second" },
                               { path := ["password", "0"], message := "third" }]) () =
        some errors ∧
      (errors.map Prod.fst).Nodup ∧
      (∀ key, key ∈ errors.map Prod.fst ↔
        ∃ err ∈ [({ path := ["password"], message := "first" } : ValidationDetail),
                 { path := ["email"], message := "second" },
                 { path := ["password", "0"], message := "third" }], firstPathKey err = key) ∧
      (∀ key message, (key, message) ∈ errors ↔
        lastMessage key [{ path := ["password"], message := "first" },
                         { path := ["email"], message := "second" },
                         { path := ["password", "0"], message := "third" }] = some message) :=
  ⟨by decide,
   (handleValidation_by_field
    (fun _ : Unit => some [{ path := ["password"], message := "first" },
                           { path := ["email"], message := "second" },
                           { path := ["password", "0"], message := "third" }]) ()).2 _ rfl⟩

/-! ## From sign-up to the first login -/

theorem findOne_append_of_none (filter : Account → Bool) (db : Db) (a : Account)
    (h : findOne filter db = none) (ha : filter a = true) :
    findOne filter (db ++ [a]) = some (db.length, a) := by
  induction db with
  | nil => simp [findOne, ha]
  | cons b rest ih =>
    unfold findOne at h
    by_cases hb : filter b = true
    · simp [hb] at h
    · simp only [hb, Bool.false_eq_true, if_false, Option.map_eq_none'] at h
      rw [List.cons_append]
      unfold findOne
      simp [hb, ih h]

theorem set_append_last (db : Db) (a b : Account) : (db ++ [a]).set db.length b = db ++ [b] := by
  induction db with
  | nil => rfl
  | cons c rest ih => simp [List.set, ih]

theorem updateOne_append_last (db : Db) (a : Account) (update : Account → Account) :
    updateOne db.length update (db ++ [a]) = db ++ [update a] := by
  have h : (db ++ [a])[db.length]? = some a := by simp
  rw [updateOne_of_get _ _ _ a h, set_append_last]

theorem jsLess_date_number (d : JsDate) (x : Int) :
    jsLess (some (.date d)) (some (.number x)) = decide (d.time < x) := by
  simp [jsLess, toPrimitiveNumber, jsToNumber]

theorem localStrategy_last (compare : String → String → Bool) (db : Db) (a : Account)
    (email password hash : String) (currentTime : Int)
    (he : email ≠ "") (hp : password ≠ "")
    (hdb : findOne (fun u => u.email = jsTrim email) db = none) (hemail : a.email = jsTrim email)
    (hpw : a.password = some hash) (hc : compare password hash = true)
    (h0 : a.loginAttempts = some 0) (hl : a.isLocked = false) :
    localStrategy compare (db ++ [a]) email password currentTime =
      (db ++ [a],
       .ok db.length { a with password := none, loginAttempts := none, lockUntil := none }) := by
  unfold localStrategy
  rw [if_neg (by simp [he, hp])]
  rw [findOne_append_of_none _ db a hdb (by simpa using hemail)]
  simp only
  rw [onUser_of_match compare db.length a password hash currentTime hpw hc,
    unlockIfExpired_of_not_locked a currentTime hl]
  simp only [h0, hl, Option.getD, lt_self_iff_false, decide_False, Bool.or_self,
    Bool.false_eq_true, if_false]
  rw [set_append_last]

/-- C25. A sign-up for `a@x.com` with password `pw123456` and names that pass
validation, in a collection where the email and the new uuid are not taken,
made at time `t0`: `signUp` answers 200 and appends an account with
`isVerified = false`, `accountStatus = pending` and a verification token.
A `signin` with the same credentials at a time `t1` not after the token's
expiry `t0 + 600000` answers `verification_required` and leaves the collection,
so also that token, as it is.  `verifyEmail` with the issued token, while
`jwt.verify` still accepts it, answers 200 and leaves the account verified with
`verificationToken` and `passwordResetToken` unset.  A second `signin` then
answers with an `accessToken` and sets the `jwt` cookie to the refresh token it
stores on the account. -/
theorem signup_verify_signin (compare : String → String → Bool) (isEmail : String → Bool)
    (hash : String → String) (nodeEnv : Option String) (createError : String) (db : Db)
    (firstName lastName uuid : String) (t0 t1 t2 t3 : Int)
    (hvalid : handleValidation (validator isEmail) (scenarioBody firstName lastName) = none)
    (hcmp : compare "pw123456" (hash "pw123456") = true)
    (hemail : findOne (fun u => u.email = "a@x.com") db = none)
    (huuid : findOne (fun u => u.uuid = uuid) db = none)
    (h1 : t1 ≤ t0 + 600000) (h2 : t2 / 1000 < t0 / 1000 + 600) :
    (signUp isEmail hash nodeEnv createError db (scenarioBody firstName lastName) uuid t0).1
      = db ++ [createdAccount hash (scenarioBody firstName lastName) uuid t0] ∧
    (signUp isEmail hash nodeEnv createError db (scenarioBody firstName lastName) uuid t0).2.code
      = 200 ∧
    (createdAccount hash (scenarioBody firstName lastName) uuid t0).isVerified = false ∧
    (createdAccount hash (scenarioBody firstName lastName) uuid t0).accountStatus
      = some .pending ∧
    (createdAccount hash (scenarioBody firstName lastName) uuid t0).verificationToken
      = some (generateAuthToken { uuid := uuid } ttl10m t0) ∧
    (signin compare (db ++ [createdAccount hash (scenarioBody firstName lastName) uuid t0])
        "a@x.com" "pw123456" t1).1
      = db ++ [createdAccount hash (scenarioBody firstName lastName) uuid t0] ∧
    (signin compare (db ++ [createdAccount hash (scenarioBody firstName lastName) uuid t0])
        "a@x.com" "pw123456" t1).2.status = some "verification_required" ∧
    (verifyEmail (db ++ [createdAccount hash (scenarioBody firstName lastName) uuid t0])
        (generateAuthToken { uuid := uuid } ttl10m t0) t2).1
      = db ++ [verifiedAccount hash (scenarioBody firstName lastName) uuid t0] ∧
    (verifyEmail (db ++ [createdAccount hash (scenarioBody firstName lastName) uuid t0])
        (generateAuthToken { uuid := uuid } ttl10m t0) t2).2.code = 200 ∧
    (verifiedAccount hash (scenarioBody firstName lastName) uuid t0).isVerified = true ∧
    (verifiedAccount hash (scenarioBody firstName lastName) uuid t0).verificationToken = none ∧
    (verifiedAccount hash (scenarioBody firstName lastName) uuid t0).passwordResetToken = none ∧
    ∃ accessToken refreshToken stored,
      (signin compare (db ++ [verifiedAccount hash (scenarioBody firstName lastName) uuid t0])
          "a@x.com" "pw123456" t3).2.accessToken = some accessToken ∧
      (signin compare (db ++ [verifiedAccount hash (scenarioBody firstName lastName) uuid t0])
          "a@x.com" "pw123456" t3).2.jwtCookie = some refreshToken ∧
      (signin compare (db ++ [verifiedAccount hash (scenarioBody firstName lastName) uuid t0])
          "a@x.com" "pw123456" t3).1 = db ++ [stored] ∧
      stored.refreshToken = some refreshToken := by
  have ht : jsTrim "a@x.com" = "a@x.com" := by decide
  have hs : signUp isEmail hash nodeEnv createError db (scenarioBody firstName lastName) uuid t0
      = (db ++ [createdAccount hash (scenarioBody firstName lastName) uuid t0],
         { code := 200,
           message := some "Account created successfully. Please check your email for verification.",
           redirectUrl := some ("/auth/notifications/" ++ uuid),
           status := some "success",
           authCookie := some (generateAuthToken { uuid := uuid } ttl30m t0) }) := by
    unfold signUp
    simp only [hvalid]
    have he : (scenarioBody firstName lastName).email.getD "" = "a@x.com" := rfl
    simp only [he, ht, hemail, huuid]
    simp [createdAccount, scenarioBody, ht]
  have hemail' : findOne (fun u => u.email = jsTrim "a@x.com") db = none := by
    rw [ht]
    exact hemail
  have hl1 := localStrategy_last compare db
    (createdAccount hash (scenarioBody firstName lastName) uuid t0) "a@x.com" "pw123456"
    (hash "pw123456") t1 (by decide) (by decide) hemail' rfl rfl hcmp rfl rfl
  have hl3 := localStrategy_last compare db
    (verifiedAccount hash (scenarioBody firstName lastName) uuid t0) "a@x.com" "pw123456"
    (hash "pw123456") t3 (by decide) (by decide) hemail' rfl rfl hcmp rfl rfl
  have hsi1 : signin compare (db ++ [createdAccount hash (scenarioBody firstName lastName) uuid t0])
      "a@x.com" "pw123456" t1
      = (db ++ [createdAccount hash (scenarioBody firstName lastName) uuid t0],
         { code := 200,
           message := some ("A verification email has been sent to " ++ "a@x.com"
             ++ ". Please check your inbox."),
           redirectUrl := some ("/auth/notifications/" ++ uuid),
           status := some "verification_required",
           authCookie := some (generateAuthToken { uuid := uuid } ttl30m t1) }) := by
    have h1' : ¬ (t0 + 600000 < t1) := by omega
    unfold signin
    rw [hl1]
    simp [needsNewVerification, createdAccount, jsLess_date_number, scenarioBody, h1', ht]
  have hj : jwtVerify (generateAuthToken { uuid := uuid } ttl10m t0) t2
      = .ok (generateAuthToken { uuid := uuid } ttl10m t0) := by
    unfold jwtVerify
    rw [if_neg (by simp [generateAuthToken]), if_neg]
    simp only [generateAuthToken, ttl10m, Option.getD]
    omega
  have hv : verifyEmail (db ++ [createdAccount hash (scenarioBody firstName lastName) uuid t0])
      (generateAuthToken { uuid := uuid } ttl10m t0) t2
      = (db ++ [verifiedAccount hash (scenarioBody firstName lastName) uuid t0],
         { code := 200, message := some "Vérification de l\x27email réussie.",
           action := some "verify", status := some "success" }) := by
    unfold verifyEmail
    rw [hj]
    simp only
    have hf : findOne (fun u => decide (u.uuid = (generateAuthToken { uuid := uuid } ttl10m t0).uuid))
        (db ++ [createdAccount hash (scenarioBody firstName lastName) uuid t0])
        = some (db.length, createdAccount hash (scenarioBody firstName lastName) uuid t0) :=
      findOne_append_of_none _ db _ huuid (by simp [createdAccount, generateAuthToken])
    rw [hf]
    simp only
    rw [if_neg (by simp [createdAccount]), updateOne_append_last]
    rfl
  refine ⟨by rw [hs], by rw [hs], rfl, rfl, rfl, by rw [hsi1], by rw [hsi1], by rw [hv],
    by rw [hv], rfl, rfl, rfl, ?_⟩
  refine ⟨generateAuthToken { uuid := uuid, role := some .user, iat := some (t3 / 1000) } ttl1h t3,
    generateAuthToken { uuid := uuid, role := some .user, iat := some (t3 / 1000) } ttl7d t3,
    { verifiedAccount hash (scenarioBody firstName lastName) uuid t0 with
      refreshToken := some (generateAuthToken
        { uuid := uuid, role := some .user, iat := some (t3 / 1000) } ttl7d t3)
      lastLogin := some ⟨t3⟩
      isOnline := true }, ?_⟩
  have hsi3 : signin compare (db ++ [verifiedAccount hash (scenarioBody firstName lastName) uuid t0])
      "a@x.com" "pw123456" t3
      = (db ++ [{ verifiedAccount hash (scenarioBody firstName lastName) uuid t0 with
            refreshToken := some (generateAuthToken
              { uuid := uuid, role := some .user, iat := some (t3 / 1000) } ttl7d t3)
            lastLogin := some ⟨t3⟩
            isOnline := true }],
         { code := 200, data := some (.user, uuid),
           accessToken := some (generateAuthToken
             { uuid := uuid, role := some .user, iat := some (t3 / 1000) } ttl1h t3),
           redirectUrl := some "/ai/dashboard", message := some "Login successful.",
           status := some "success",
           jwtCookie := some (generateAuthToken
             { uuid := uuid, role := some .user, iat := some (t3 / 1000) } ttl7d t3) }) := by
    unfold signin
    rw [hl3]
    simp only [updateOne_append_last]
    simp [verifiedAccount, createdAccount, scenarioBody, ht]
  rw [hsi3]
  exact ⟨rfl, rfl, rfl, rfl⟩

/-- Witness for C25: the scenario in an empty collection with the sign-up at time 0,
the first login at 1000, the verification at 2000 and the second login at 3000. -/
theorem signup_verify_signin_witness :
    handleValidation (validator demoIsEmail) (scenarioBody "Ada" "Lov") = none ∧
    sameText "pw123456" (demoHash "pw123456") = true ∧
    (signin sameText [createdAccount demoHash (scenarioBody "Ada" "Lov") "u-1" 0]
        "a@x.com" "pw123456" 1000).2.status = some "verification_required" ∧
    (verifyEmail [createdAccount demoHash (scenarioBody "Ada" "Lov") "u-1" 0]
        (generateAuthToken { uuid := "u-1" } ttl10m 0) 2000).1
      = [verifiedAccount demoHash (scenarioBody "Ada" "Lov") "u-1" 0] :=
  have h := signup_verify_signin sameText demoIsEmail demoHash none "" [] "Ada" "Lov" "u-1"
    0 1000 2000 3000 (by decide) (by decide) rfl rfl (by decide) (by decide)
  ⟨by decide, by decide, h.2.2.2.2.2.2.1, h.2.2.2.2.2.2.2.1⟩

/-! ## Letter case of emails -/

/-- Counterexample for C22: `A@x.com` differs from the email `a@x.com` of the demo
account only in letter case, yet `signUp` accepts it and creates a second
account, and the credential verifier and `forgotEmail` find no account for it
although they find the demo account for `a@x.com`. -/
theorem email_case_is_significant :
    "A@x.com".data.map Char.toLower = "a@x.com".data.map Char.toLower ∧
    "A@x.com" ≠ "a@x.com" ∧
    (signUp demoIsEmail demoHash none "" [demoAccount]
        { demoBody with email := some "A@x.com" } "u-2" 1000).2.code = 200 ∧
    ((signUp demoIsEmail demoHash none "" [demoAccount]
        { demoBody with email := some "A@x.com" } "u-2" 1000).1.map (fun a => a.email))
      = ["a@x.com", "A@x.com"] ∧
    findOne (fun u => u.email = "a@x.com") [demoAccount] = some (0, demoAccount) ∧
    findOne (fun u => u.email = "A@x.com") [demoAccount] = none ∧
    localStrategy sameText [demoAccount] "A@x.com" "pw123456" 1000 =
      ([demoAccount], .fail { message := "Invalid email or password." }) ∧
    (forgotEmail [demoAccount] [] (some "A@x.com") (true, "") 1000).2.2.code = 404 ∧
    (forgotEmail [demoAccount] [] (some "a@x.com") (true, "") 1000).2.2.code = 200 := by
  decide

theorem findOne_of_mem (filter : Account → Bool) (db : Db) (a : Account) (ha : a ∈ db)
    (hf : filter a = true) : ∃ id user, findOne filter db = some (id, user) := by
  cases h : findOne filter db with
  | none =>
    rw [findOne_none filter db h a ha] at hf
    cases hf
  | some r => exact ⟨r.1, r.2, rfl⟩

theorem forgotEmail_found_code (db : Db) (session : Session) (e : String)
    (emailStatus : Bool × String) (now : Int) (id : Nat) (user : Account)
    (he : e ≠ "") (hf : findOne (fun u => some u.email = some (jsTrim e)) db = some (id, user)) :
    (forgotEmail db session (some e) emailStatus now).2.2.code ≠ 404 := by
  by_cases hcd : ∃ t, session.get user.uuid = some t ∧ t ≠ 0 ∧ now < t + 60000
  · obtain ⟨t, ht, h0, hlt⟩ := hcd
    rw [forgotEmail_of_cooldown db session e emailStatus now id user t he hf ht h0 hlt]
    simp
  · have hpass : cooldownPassed session user.uuid now := by
      intro t ht
      by_cases h0 : t = 0
      · exact Or.inl h0
      · right
        by_contra hlt
        exact hcd ⟨t, ht, h0, by omega⟩
    rw [forgotEmail_of_pass db session e emailStatus now id user he hf hpass]
    cases emailStatus.1 <;> simp

/-- C22 as amended. Emails are compared without case normalization, as text with
the surrounding whitespace of the given email removed.  A sign-up that passes
validation is rejected with 400 and the error "This email is already in use."
when its trimmed email is the email of a stored account, and creates a new
account with the trimmed email when no stored account has it and the new uuid
is free.  The credential verifier and `forgotEmail` find the same account, one
whose stored email is the trimmed email given: the verifier runs on it and
`forgotEmail` does not answer 404.  When no stored account has the trimmed
email, the verifier fails with "Invalid email or password." and `forgotEmail`
answers 404. -/
theorem email_match_is_case_sensitive (compare : String → String → Bool)
    (isEmail : String → Bool) (hash : String → String) (nodeEnv : Option String)
    (createError : String) (db : Db) (body : SignUpBody) (uuid : String) (now : Int)
    (e : String)
    (hv : handleValidation (validator isEmail) body = none) (he : body.email = some e) :
    ((∃ a ∈ db, a.email = jsTrim e) →
      signUp isEmail hash nodeEnv createError db body uuid now =
        (db, { code := 400, errors := some [("email", "This email is already in use.")],
               message := some "Email already exists", status := some "failure" })) ∧
    ((∀ b ∈ db, b.email ≠ jsTrim e) → (∀ b ∈ db, b.uuid ≠ uuid) →
      (signUp isEmail hash nodeEnv createError db body uuid now).1
        = db ++ [createdAccount hash body uuid now] ∧
      (signUp isEmail hash nodeEnv createError db body uuid now).2.code = 200 ∧
      (createdAccount hash body uuid now).email = jsTrim e) ∧
    (∀ (other password : String) (session : Session) (emailStatus : Bool × String),
      (∃ a ∈ db, a.email = jsTrim other) → other ≠ "" → password ≠ "" →
      ∃ id user, db[id]? = some user ∧ user.email = jsTrim other ∧
        localStrategy compare db other password now =
          (db.set id (localStrategy.onUser compare id user password now).1,
           (localStrategy.onUser compare id user password now).2) ∧
        findOne (fun u => some u.email = some (jsTrim other)) db = some (id, user) ∧
        (forgotEmail db session (some other) emailStatus now).2.2.code ≠ 404) ∧
    (∀ (other password : String) (session : Session) (emailStatus : Bool × String),
      (∀ b ∈ db, b.email ≠ jsTrim other) → other ≠ "" → password ≠ "" →
      localStrategy compare db other password now =
        (db, .fail { message := "Invalid email or password." }) ∧
      (forgotEmail db session (some other) emailStatus now).2.2.code = 404) := by
  have hsame : ∀ x : String, (fun u : Account => decide (some u.email = some x))
      = (fun u : Account => decide (u.email = x)) := by
    intro x
    funext u
    simp
  refine ⟨?_, ?_, ?_, ?_⟩
  · rintro ⟨a, ha, hae⟩
    obtain ⟨id, user, hf⟩ :=
      findOne_of_mem (fun u => u.email = jsTrim e) db a ha (by simpa using hae)
    unfold signUp
    simp only [hv, he, Option.getD, hf]
  · intro hno hnu
    have h1 : findOne (fun u => decide (u.email = jsTrim e)) db = none :=
      findOne_eq_none _ db (fun b hb => by simpa using hno b hb)
    have h2 : findOne (fun u => decide (u.uuid = uuid)) db = none :=
      findOne_eq_none _ db (fun b hb => by simpa using hnu b hb)
    have hs : signUp isEmail hash nodeEnv createError db body uuid now
        = (db ++ [createdAccount hash body uuid now],
           { code := 200,
             message :=
               some "Account created successfully. Please check your email for verification.",
             redirectUrl := some ("/auth/notifications/" ++ uuid),
             status := some "success",
             authCookie := some (generateAuthToken { uuid := uuid } ttl30m now) }) := by
      have hg : body.email.getD "" = e := by
        rw [he]
        rfl
      unfold signUp
      simp only [hv, hg, h1, h2]
      simp [createdAccount, hg]
    rw [hs]
    exact ⟨rfl, rfl, by simp [createdAccount, he]⟩
  · rintro other password session emailStatus ⟨a, ha, hae⟩ ho hp
    obtain ⟨id, user, hf⟩ :=
      findOne_of_mem (fun u => u.email = jsTrim other) db a ha (by simpa using hae)
    have hget := (findOne_some _ db id user hf).1
    have hem : user.email = jsTrim other := by simpa using (findOne_some _ db id user hf).2
    have hf' : findOne (fun u => decide (some u.email = some (jsTrim other))) db
        = some (id, user) := by
      rw [hsame]
      exact hf
    refine ⟨id, user, hget, hem, ?_, hf', ?_⟩
    · unfold localStrategy
      rw [if_neg (by simp [ho, hp])]
      simp only [hf]
    · exact forgotEmail_found_code db session other emailStatus now id user ho hf'
  · intro other password session emailStatus hno ho hp
    have h1 : findOne (fun u => decide (u.email = jsTrim other)) db = none :=
      findOne_eq_none _ db (fun b hb => by simpa using hno b hb)
    have h2 : findOne (fun u => decide (some u.email = some (jsTrim other))) db = none := by
      rw [hsame]
      exact h1
    constructor
    · unfold localStrategy
      rw [if_neg (by simp [ho, hp])]
      simp only [h1]
    · unfold forgotEmail
      simp only [handleValidation_forgot other ho, Option.map_some', h2]

/-- Witness for C22 as amended: a second sign-up with the email of the demo account
is rejected, and the same email with a blank before it finds the demo account in
the credential verifier. -/
theorem email_match_is_case_sensitive_witness :
    handleValidation (validator demoIsEmail) demoBody = none ∧
    demoAccount.email = jsTrim "a@x.com" ∧
    signUp demoIsEmail demoHash none "" [demoAccount] demoBody "u-2" 1000 =
      ([demoAccount],
       { code := 400, errors := some [("email", "This email is already in use.")],
         message := some "Email already exists", status := some "failure" }) ∧
    demoAccount.email = jsTrim " a@x.com" ∧
    (forgotEmail [demoAccount] [] (some " a@x.com") (true, "") 1000).2.2.code = 200 :=
  ⟨by decide, by decide,
   (email_match_is_case_sensitive sameText demoIsEmail demoHash none "" [demoAccount] demoBody
      "u-2" 1000 "a@x.com" (by decide) rfl).1 ⟨demoAccount, by decide, by decide⟩,
   by decide, by decide⟩

/-! ## What a 500 response tells -/

/-- Counterexample for C24: with `NODE_ENV` unset, and with `NODE_ENV` set to
`test`, the 500 responses carry the message of the exception, and the error
handler also its stack. -/
theorem unset_env_leaks_message :
    forgotEmail.catchBlock none demoError =
      { code := 500, message := some "Erreur serveur : connect ECONNREFUSED 10.0.0.5:27017",
        status := some "error" } ∧
    refresh.catchBlock none demoError =
      { code := 500, message := some "Erreur serveur : connect ECONNREFUSED 10.0.0.5:27017",
        status := some "error" } ∧
    verifyEmail.catchBlock (some "test") demoError =
      { code := 500, message := some "Erreur serveur : connect ECONNREFUSED 10.0.0.5:27017",
        status := some "error" } ∧
    verifyPassReset.catchBlock none demoError =
      { code := 500, message := some "Erreur serveur : connect ECONNREFUSED 10.0.0.5:27017",
        status := some "error" } ∧
    signUp.catchBlock none demoError =
      { code := 500, message := some "Server error: connect ECONNREFUSED 10.0.0.5:27017",
        status := some "error" } ∧
    (errorHandler none demoError).statusCode = 500 ∧
    (errorHandler none demoError).message = "connect ECONNREFUSED 10.0.0.5:27017" ∧
    (errorHandler none demoError).stack = demoError.stack ∧
    forgotEmail.catchBlock none demoError ≠
      forgotEmail.catchBlock none { demoError with message := "E11000 duplicate key" } := by
  decide

/-- C24 as amended. The test is `NODE_ENV === "production"`.  When `NODE_ENV` is
`production`, the catch blocks of `forgotEmail`, `refresh`, `verifyEmail`,
`verifyPassReset` and `signUp` answer an unexpected exception with 500 and a
fixed message, and the default branch of `errorHandler` answers with the fixed
message "Something went wrong" and neither stack nor details.  For every other
value of `NODE_ENV`, and when it is unset, the message of the 500 response ends
with the message of the exception, and the default branch of `errorHandler`
sends the message (or "Internal Server Error" for an empty one), the stack and
the error itself. -/
theorem detail_suppressed_in_production_only (nodeEnv : Option String) (error : JsError) :
    (nodeEnv = some "production" →
      forgotEmail.catchBlock nodeEnv error =
        { code := 500, message := some "Une erreur interne du serveur est survenue.",
          status := some "error" } ∧
      refresh.catchBlock nodeEnv error =
        { code := 500, message := some "Une erreur interne du serveur est survenue.",
          status := some "error" } ∧
      signUp.catchBlock nodeEnv error =
        { code := 500, message := some "Server error", status := some "error" } ∧
      (error.name ≠ "TokenExpiredError" → error.name ≠ "JsonWebTokenError" →
        verifyEmail.catchBlock nodeEnv error =
          { code := 500, message := some "Erreur serveur.", status := some "error" } ∧
        verifyPassReset.catchBlock nodeEnv error =
          { code := 500, message := some "Erreur serveur.", status := some "error" }) ∧
      (isCsrfError error = false → error.name ≠ "ValidationError" →
        error.name ≠ "UnauthorizedError" → error.status ≠ some 401 →
        error.status ≠ some 404 → error.status ≠ some 403 →
        (errorHandler nodeEnv error).message = "Something went wrong" ∧
        (errorHandler nodeEnv error).stack = none ∧
        (errorHandler nodeEnv error).details = none)) ∧
    (nodeEnv ≠ some "production" →
      forgotEmail.catchBlock nodeEnv error =
        { code := 500, message := some ("Erreur serveur : " ++ error.message),
          status := some "error" } ∧
      refresh.catchBlock nodeEnv error =
        { code := 500, message := some ("Erreur serveur : " ++ error.message),
          status := some "error" } ∧
      signUp.catchBlock nodeEnv error =
        { code := 500, message := some ("Server error: " ++ error.message),
          status := some "error" } ∧
      (error.name ≠ "TokenExpiredError" → error.name ≠ "JsonWebTokenError" →
        verifyEmail.catchBlock nodeEnv error =
          { code := 500, message := some ("Erreur serveur : " ++ error.message),
            status := some "error" } ∧
        verifyPassReset.catchBlock nodeEnv error =
          { code := 500, message := some ("Erreur serveur : " ++ error.message),
            status := some "error" }) ∧
      (isCsrfError error = false → error.name ≠ "ValidationError" →
        error.name ≠ "UnauthorizedError" → error.status ≠ some 401 →
        error.status ≠ some 404 → error.status ≠ some 403 →
        (errorHandler nodeEnv error).message =
          (if error.message = "" then "Internal Server Error" else error.message) ∧
        (errorHandler nodeEnv error).stack = error.stack ∧
        (errorHandler nodeEnv error).details = some error)) := by
  constructor
  · intro hp
    have hprod : isProduction nodeEnv = true := by simp [isProduction, hp]
    refine ⟨by simp [forgotEmail.catchBlock, hprod], by simp [refresh.catchBlock, hprod],
      by simp [signUp.catchBlock, hprod], ?_, ?_⟩
    · intro h1 h2
      exact ⟨by simp [verifyEmail.catchBlock, hprod, h1, h2],
        by simp [verifyPassReset.catchBlock, hprod, h1, h2]⟩
    · intro h1 h2 h3 h4 h5 h6
      unfold errorHandler
      rw [if_neg (by simp [h1]), if_neg h2, if_neg (by simp [h3, h4]), if_neg h5, if_neg h6]
      simp [hprod]
  · intro hp
    have hprod : isProduction nodeEnv = false := by simp [isProduction, hp]
    refine ⟨by simp [forgotEmail.catchBlock, hprod], by simp [refresh.catchBlock, hprod],
      by simp [signUp.catchBlock, hprod], ?_, ?_⟩
    · intro h1 h2
      exact ⟨by simp [verifyEmail.catchBlock, hprod, h1, h2],
        by simp [verifyPassReset.catchBlock, hprod, h1, h2]⟩
    · intro h1 h2 h3 h4 h5 h6
      unfold errorHandler
      rw [if_neg (by simp [h1]), if_neg h2, if_neg (by simp [h3, h4]), if_neg h5, if_neg h6]
      simp [hprod]

/-- Witness for C24 as amended: the connection error in production and in
development. -/
theorem detail_suppressed_in_production_only_witness :
    forgotEmail.catchBlock (some "production") demoError =
      { code := 500, message := some "Une erreur interne du serveur est survenue.",
        status := some "error" } ∧
    (errorHandler (some "production") demoError).message = "Something went wrong" ∧
    signUp.catchBlock (some "development") demoError =
      { code := 500, message := some ("Server error: " ++ demoError.message),
        status := some "error" } :=
  ⟨((detail_suppressed_in_production_only (some "production") demoError).1 rfl).1,
   (((detail_suppressed_in_production_only (some "production") demoError).1 rfl).2.2.2.2
      (by decide) (by decide) (by decide) (by decide) (by decide) (by decide)).1,
   ((detail_suppressed_in_production_only (some "development") demoError).2
      (by decide)).2.2.1⟩

theorem signUp_duplicate_uuid (isEmail : String → Bool) (hash : String → String)
    (nodeEnv : Option String) (createError : String) (db : Db) (body : SignUpBody)
    (uuid : String) (now : Int)
    (h : (signUp isEmail hash nodeEnv createError db body uuid now).2.code = 500) :
    (signUp isEmail hash nodeEnv createError db body uuid now).2
      = signUp.catchBlock nodeEnv { message := createError } := by
  revert h
  unfold signUp
  cases handleValidation (validator isEmail) body with
  | some errors => simp
  | none =>
    simp only
    cases findOne (fun u => decide (u.email = jsTrim (body.email.getD ""))) db with
    | some r => simp
    | none =>
      simp only
      cases findOne (fun u => decide (u.uuid = uuid)) db with
      | some r =>
        intro _
        simp [signUp.catchBlock, isProduction]
      | none => simp

/-! ## Who sees the password hash -/

theorem getAllsUsers_hides_password (db : Db) (reqUser : ReqUser) (docs : List Account)
    (h : (getAllsUsers db reqUser).dataList = some docs) :
    ∀ a ∈ docs, a.password = none ∧ a.refreshToken = none := by
  unfold getAllsUsers at h
  split at h
  · cases h
  · simp only [Option.some.injEq] at h
    subst h
    intro a ha
    obtain ⟨b, _, hb⟩ := List.mem_map.1 ha
    subst hb
    exact ⟨rfl, rfl⟩

theorem showUser_hides_password (db : Db) (reqUser : ReqUser) (id : String) (a : Account)
    (h : (showUser db reqUser id).dataOne = some (some a)) :
    a.password = none ∧ a.refreshToken = none := by
  unfold showUser at h
  split at h
  · cases h
  · simp only [Option.some.injEq] at h
    obtain ⟨r, _, hr⟩ := Option.map_eq_some'.1 h
    subst hr
    exact ⟨rfl, rfl⟩

/-- C23. The signed-in demo account, whose stored hash is `pw123456` under the
stand-in hash, passes `validateToken` and changes its names, then its password:
the 200 response of `updateProfileInfo` carries the stored document with its
`password` hash and its refresh token, and the 200 response of
`updatePasswordInfo` carries the document with the new hash, where
`getAllsUsers` and `showUser` project `password` away. -/
theorem profile_update_returns_password_hash :
    validateToken [demoSignedIn demoLoginToken] (some demoLoginToken) 5000 = .ok demoReqUser ∧
    updateProfileInfo none demoError [demoSignedIn demoLoginToken] demoReqUser
        (some "Ada") (some "Byron") =
      ([{ demoSignedIn demoLoginToken with lastName := "Byron" }],
       { code := 200, message := some "Utilisateur mis à jour avec succès.",
         user := some { demoSignedIn demoLoginToken with lastName := "Byron" } }) ∧
    ((updateProfileInfo none demoError [demoSignedIn demoLoginToken] demoReqUser
        (some "Ada") (some "Byron")).2.user.bind (fun a => a.password)) = some "pw123456" ∧
    ((updatePasswordInfo sameText demoHash none demoError [demoSignedIn demoLoginToken]
        demoReqUser (some "pw123456") (some "newpw123") (some "newpw123")).2.code) = 200 ∧
    ((updatePasswordInfo sameText demoHash none demoError [demoSignedIn demoLoginToken]
        demoReqUser (some "pw123456") (some "newpw123") (some "newpw123")).2.user.bind
          (fun a => a.password)) = some (demoHash "newpw123") := by
  refine ⟨rfl, by decide, by decide, by decide, by decide⟩

end EduMonitor
